/-
Verification of the pathfinding core of ToxicWasteOfTime
(src/Python/pathfinding/pathfinder.py) against its specification.

The development shallowly embeds:
  * the A* grid search (Pathfinder.find_path, _get_neighbors, _heuristic),
    with the open set modelled as an iteration-ordered finite collection;
    the insertion policy is a parameter because CPython's builtin set
    exposes an unspecified iteration order.  A fully concrete model of
    CPython's hash-set (probing, dilation of the table, dummy slots, and
    the 3.8+ tuple hash) is also provided to settle behaviour that depends
    on the actual tie-breaking of min() over a set.
  * the scene parser (_find_spawn, _find_target, _find_walls) and the
    occupancy-grid builder (_create_collision_map) over an exact image
    model; numpy's float mean is idealised as the exact rational mean.
  * the input synthesizer (generate_controller_inputs,
    _calculate_move_input, _calculate_look_input, _normalize_angle) over
    the real numbers, idealising IEEE doubles; math.atan2 is modelled by
    Complex.arg and the random look jitter by an explicit jitter stream.
-/
import Mathlib

set_option maxHeartbeats 1000000

/-- A grid coordinate, an (x, y) pair of Python integers. -/
abbrev Cell := ℤ × ℤ

/-! ## Grid cells, neighbors, and the search state -/

/-- Pathfinder._heuristic: Manhattan distance, also used as the step cost. -/
def heuristic (a b : Cell) : ℕ := (a.1 - b.1).natAbs + (a.2 - b.2).natAbs

/-- Bounds test 0 <= x < width and 0 <= y < height, as in _get_neighbors. -/
def inBoundsB (w h : ℕ) (c : Cell) : Bool :=
  decide (0 ≤ c.1 ∧ c.1 < (w : ℤ) ∧ 0 ≤ c.2 ∧ c.2 < (h : ℤ))

/-- The eight neighbor offsets in the iteration order of the two nested
dx/dy loops of _get_neighbors (dx outer, dy inner, (0,0) skipped). -/
def neighborOffsets : List (ℤ × ℤ) :=
  [(-1,-1), (-1,0), (-1,1), (0,-1), (0,1), (1,-1), (1,0), (1,1)]

/-- Pathfinder._get_neighbors: the in-bounds, unblocked 8-neighborhood.
`occ` is the collision map read as a function (True = wall). -/
def getNeighbors (w h : ℕ) (occ : Cell → Bool) (p : Cell) : List Cell :=
  (neighborOffsets.map (fun d => (p.1 + d.1, p.2 + d.2))).filter
    (fun n => inBoundsB w h n && !occ n)

/-! ## Association lists standing for the Python dicts -/

/-- Lookup in an association list (a Python dict viewed as a mapping). -/
def alookup {α : Type} : List (Cell × α) → Cell → Option α
  | [], _ => none
  | (k, v) :: rest, c => if k = c then some v else alookup rest c

/-- Update-or-insert in an association list (dict assignment). -/
def aupsert {α : Type} : List (Cell × α) → Cell → α → List (Cell × α)
  | [], c, v => [(c, v)]
  | (k, w) :: rest, c, v =>
      if k = c then (c, v) :: rest else (k, w) :: aupsert rest c v

/-- The mutable state of find_path's loop: open set (as its iteration
order), came_from, g_score and f_score. -/
structure AState where
  opn : List Cell
  cameFrom : List (Cell × Cell)
  gS : List (Cell × ℕ)
  fS : List (Cell × ℕ)

/-- f_score.get(x, float('inf')) comparison: is the first f-value (none
standing for infinity) strictly below the second? -/
def fltB (a b : Option ℕ) : Bool :=
  match a, b with
  | some x, some y => decide (x < y)
  | some _, none => true
  | none, _ => false

/-- min(open_set, key=lambda x: f_score.get(x, inf)): the first element of
the iteration order whose key is minimal (min keeps the earlier element
unless a strictly smaller key appears). -/
def pickMin (fS : List (Cell × ℕ)) : List Cell → Option Cell
  | [] => none
  | x :: xs =>
      some (xs.foldl (fun best y => if fltB (alookup fS y) (alookup fS best) then y else best) x)

/-- Relaxation of one neighbor n of current: if the tentative cost beats
the best known one (or n is new), rewrite came_from, g_score, f_score and
add n to the open set using the insertion policy `ins`. -/
def relax (ins : List Cell → Cell → List Cell) (goal current : Cell)
    (st : AState) (n : Cell) : AState :=
  let t := (alookup st.gS current).getD 0 + heuristic current n
  let improve : Bool :=
    match alookup st.gS n with
    | none => true
    | some gn => decide (t < gn)
  if improve then
    { opn := ins st.opn n
      cameFrom := aupsert st.cameFrom n current
      gS := aupsert st.gS n t
      fS := aupsert st.fS n (t + heuristic n goal) }
  else st

/-- One iteration of the reconstruction while-loop: path.append(current);
current = came_from[current]; returns the accumulated list and the final
current when the loop guard fails (fuel is an upper bound on the chain
length, proven sufficient below). -/
def walkPred (cf : List (Cell × Cell)) : ℕ → Cell → List Cell → List Cell × Cell
  | 0, cur, acc => (acc, cur)
  | fuel + 1, cur, acc =>
      match alookup cf cur with
      | some p => walkPred cf fuel p (acc ++ [cur])
      | none => (acc, cur)

/-- Path reconstruction of find_path: walk predecessor links from the
goal, append the start, reverse. -/
def reconstruct (cf : List (Cell × Cell)) (start goal : Cell) : List Cell :=
  ((walkPred cf (cf.length + 1) goal []).1 ++ [start]).reverse

/-- Result of one iteration of find_path's while-loop, over either model
of the search state. -/
inductive StepRes (σ : Type) where
  | found (p : List Cell)
  | noPath
  | next (st : σ)

/-- One iteration of find_path's while-loop: empty open set returns no
path; extracting the goal reconstructs; otherwise the current node is
removed and all its neighbors are relaxed in order. -/
def stepA (ins : List Cell → Cell → List Cell) (w h : ℕ) (occ : Cell → Bool)
    (start goal : Cell) (st : AState) : StepRes AState :=
  match pickMin st.fS st.opn with
  | none => .noPath
  | some current =>
      if current = goal then .found (reconstruct st.cameFrom start goal)
      else
        .next ((getNeighbors w h occ current).foldl (relax ins goal current)
          { st with opn := st.opn.erase current })

/-- The while-loop of find_path, with fuel (shown sufficient below). -/
def astarLoop (ins : List Cell → Cell → List Cell) (w h : ℕ) (occ : Cell → Bool)
    (start goal : Cell) : ℕ → AState → Option (List Cell)
  | 0, _ => none
  | fuel + 1, st =>
      match stepA ins w h occ start goal st with
      | .found p => some p
      | .noPath => some []
      | .next st' => astarLoop ins w h occ start goal fuel st'

/-- The initial state of find_path. -/
def initState (start goal : Cell) : AState :=
  ⟨[start], [], [(start, 0)], [(start, heuristic start goal)]⟩

/-- Fuel that provably dominates the loop's termination measure. -/
def fuelBound (w h : ℕ) : ℕ :=
  (2 * (w * h + 1) + 1) * (w * h + 1) * (w * h + 2) + w * h + 3

/-- Pathfinder.find_path, parameterized by the open-set insertion policy
(CPython's builtin set keeps an unspecified iteration order; any policy
satisfying InsOk below is a faithful model of it). -/
def findPath (ins : List Cell → Cell → List Cell) (w h : ℕ) (occ : Cell → Bool)
    (start goal : Cell) : List Cell :=
  (astarLoop ins w h occ start goal (fuelBound w h) (initState start goal)).getD []

/-- The set-contract of open_set.add under an iteration order: the added
element is present, nothing else changes membership, and no duplicates
appear.  CPython's set satisfies this for any hash/probing behaviour. -/
structure InsOk (ins : List Cell → Cell → List Cell) : Prop where
  mem_ins : ∀ l x y, y ∈ ins l x ↔ y = x ∨ y ∈ l
  nodup_ins : ∀ l x, l.Nodup → (ins l x).Nodup

/-- The simplest lawful insertion policy: append if absent. -/
def insEnd (l : List Cell) (x : Cell) : List Cell :=
  if x ∈ l then l else l ++ [x]

/-! ## A concrete model of CPython's set, for the tie-breaking of min() -/

/-- Reduce to 64 bits. -/
def u64 (x : ℕ) : ℕ := x % 2 ^ 64

/-- 64-bit rotate left by 31. -/
def rotl31 (x : ℕ) : ℕ := u64 ((x % 2 ^ 33) * 2 ^ 31 + x / 2 ^ 33)

/-- One lane of the tuple hash. -/
def hashLane (acc lane : ℕ) : ℕ :=
  u64 (rotl31 (u64 (acc + lane * 14029467366897019727)) * 11400714785074694791)

/-- CPython 3.8+ hash of a pair of small non-negative ints (each int
hashes to itself below 2^61 - 1). -/
def tupleHash (a b : ℕ) : ℕ :=
  let acc := hashLane (hashLane 2870177450012600261 a) b
  let acc := u64 (acc + Nat.xor 2 (Nat.xor 2870177450012600261 3527539))
  if acc = 2 ^ 64 - 1 then 1546275796 else acc

/-- Hash of a cell; the cells stored here always have non-negative
coordinates (the start cell and in-bounds neighbors). -/
def cellHash (c : Cell) : ℕ := tupleHash c.1.toNat c.2.toNat

/-- A slot of the set's hash table. -/
inductive Slot where
  | empty
  | dummy
  | active (key : Cell) (hsh : ℕ)

/-- CPython set object: table (length a power of two), fill (active +
dummy entries), used (active entries). -/
structure PySet where
  table : List Slot
  fill : ℕ
  used : ℕ

/-- Table read. -/
def tableGet (t : List Slot) (i : ℕ) : Slot := t.getD i .empty

/-- Result of one linear-probe scan during set_add_entry. -/
inductive ScanRes where
  | foundActive
  | unused (i : ℕ) (free : Option ℕ)
  | more (free : Option ℕ)

/-- The inner do-while of set_add_entry: scan cnt consecutive slots from
j, tracking the last dummy seen as the reusable free slot. -/
def scanAdd (t : List Slot) (key : Cell) (hsh : ℕ) : ℕ → ℕ → Option ℕ → ScanRes
  | _, 0, free => .more free
  | j, n + 1, free =>
      match tableGet t j with
      | .empty => .unused j free
      | .dummy => scanAdd t key hsh (j + 1) n (some j)
      | .active k kh =>
          if kh = hsh ∧ k = key then .foundActive
          else scanAdd t key hsh (j + 1) n free

/-- The outer probing loop of set_add_entry: i <- (i*5 + 1 + perturb) and
perturb <- perturb >> 5 between scans.  Returns none only on fuel
exhaustion (never reached for the runs evaluated here). -/
def addProbe (t : List Slot) (mask : ℕ) (key : Cell) (hsh : ℕ) :
    ℕ → ℕ → ℕ → Option ℕ → Option (Option (ℕ × Option ℕ))
  | 0, _, _, _ => none
  | f + 1, i, perturb, free =>
      let probes := if i + 9 ≤ mask then 9 else 0
      match scanAdd t key hsh i (probes + 1) free with
      | .foundActive => some none
      | .unused j fr => some (some (j, fr))
      | .more fr => addProbe t mask key hsh f ((i * 5 + 1 + perturb / 32) % (mask + 1)) (perturb / 32) fr

/-- The scan of set_insert_clean (fresh tables have no dummies). -/
def scanClean (t : List Slot) : ℕ → ℕ → Option ℕ
  | _, 0 => none
  | j, n + 1 =>
      match tableGet t j with
      | .empty => some j
      | _ => scanClean t (j + 1) n

/-- set_insert_clean: place a key during a resize. -/
def cleanProbe (key : Cell) (hsh : ℕ) (mask : ℕ) : ℕ → ℕ → ℕ → List Slot → List Slot
  | 0, _, _, t => t
  | f + 1, i, perturb, t =>
      let probes := if i + 9 ≤ mask then 9 else 0
      match scanClean t i (probes + 1) with
      | some j => t.set j (.active key hsh)
      | none => cleanProbe key hsh mask f ((i * 5 + 1 + perturb / 32) % (mask + 1)) (perturb / 32) t

/-- Smallest table size: 8 doubled while not above minused. -/
def growSize : ℕ → ℕ → ℕ
  | 0, _ => 8
  | f + 1, minused => if 8 * 2 ^ f ≤ minused then growSize f minused * 2 else growSize f minused

/-- set_table_resize: fresh table of the computed size, active entries
reinserted in old table order, dummies dropped. -/
def pysetResize (s : PySet) (minused : ℕ) : PySet :=
  let newsize := growSize 64 minused
  let t := s.table.foldl
    (fun t sl =>
      match sl with
      | .active k kh => cleanProbe k kh (newsize - 1) (newsize + 64) (kh % newsize) kh t
      | _ => t)
    (List.replicate newsize Slot.empty)
  ⟨t, s.used, s.used⟩

/-- set_add_entry followed by the resize check of the found_unused path. -/
def pysetAdd (s : PySet) (key : Cell) : PySet :=
  let hsh := cellHash key
  let mask := s.table.length - 1
  match addProbe s.table mask key hsh (s.table.length + 64) (hsh % (mask + 1)) hsh none with
  | some none => s
  | some (some (_, some fs)) =>
      { s with table := s.table.set fs (.active key hsh), used := s.used + 1 }
  | some (some (j, none)) =>
      let s' : PySet := ⟨s.table.set j (.active key hsh), s.fill + 1, s.used + 1⟩
      if s'.fill * 5 ≥ mask * 3 then
        pysetResize s' (if s'.used > 50000 then s'.used * 2 else s'.used * 4)
      else s'
  | none => s

/-- The scan of set_lookkey as used by discard. -/
def scanDisc (t : List Slot) (key : Cell) (hsh : ℕ) : ℕ → ℕ → Option (Option ℕ)
  | _, 0 => none
  | j, n + 1 =>
      match tableGet t j with
      | .empty => some none
      | .dummy => scanDisc t key hsh (j + 1) n
      | .active k kh =>
          if kh = hsh ∧ k = key then some (some j) else scanDisc t key hsh (j + 1) n

/-- The probing loop of set_lookkey for discard. -/
def discProbe (t : List Slot) (mask : ℕ) (key : Cell) (hsh : ℕ) :
    ℕ → ℕ → ℕ → Option ℕ
  | 0, _, _ => none
  | f + 1, i, perturb =>
      let probes := if i + 9 ≤ mask then 9 else 0
      match scanDisc t key hsh i (probes + 1) with
      | some r => r
      | none => discProbe t mask key hsh f ((i * 5 + 1 + perturb / 32) % (mask + 1)) (perturb / 32)

/-- set_discard_entry: mark the slot dummy. -/
def pysetDiscard (s : PySet) (key : Cell) : PySet :=
  let hsh := cellHash key
  let mask := s.table.length - 1
  match discProbe s.table mask key hsh (s.table.length + 64) (hsh % (mask + 1)) hsh with
  | some j => { s with table := s.table.set j .dummy, used := s.used - 1 }
  | none => s

/-- Iteration order of the set: table order, active slots only. -/
def pysetItems (s : PySet) : List Cell :=
  s.table.filterMap (fun sl => match sl with | .active k _ => some k | _ => none)

/-- The literal {start}. -/
def pysetSingleton (c : Cell) : PySet := pysetAdd ⟨List.replicate 8 .empty, 0, 0⟩ c

/-! ## find_path with the concrete CPython open set -/

/-- The find_path state with the open set as a concrete CPython set. -/
structure PyAState where
  opn : PySet
  cameFrom : List (Cell × Cell)
  gS : List (Cell × ℕ)
  fS : List (Cell × ℕ)

/-- Relaxation, identical to relax but adding into the concrete set. -/
def relaxPy (goal current : Cell) (st : PyAState) (n : Cell) : PyAState :=
  let t := (alookup st.gS current).getD 0 + heuristic current n
  let improve : Bool :=
    match alookup st.gS n with
    | none => true
    | some gn => decide (t < gn)
  if improve then
    { opn := pysetAdd st.opn n
      cameFrom := aupsert st.cameFrom n current
      gS := aupsert st.gS n t
      fS := aupsert st.fS n (t + heuristic n goal) }
  else st

/-- One while-loop iteration of find_path over the concrete set: min()
iterates the hash table in slot order. -/
def stepPy (w h : ℕ) (occ : Cell → Bool) (start goal : Cell)
    (st : PyAState) : StepRes PyAState :=
  match pickMin st.fS (pysetItems st.opn) with
  | none => .noPath
  | some current =>
      if current = goal then .found (reconstruct st.cameFrom start goal)
      else
        .next ((getNeighbors w h occ current).foldl (relaxPy goal current)
          { st with opn := pysetDiscard st.opn current })

/-- The while-loop of find_path over the concrete CPython set. -/
def astarLoopPy (w h : ℕ) (occ : Cell → Bool) (start goal : Cell) :
    ℕ → PyAState → Option (List Cell)
  | 0, _ => none
  | fuel + 1, st =>
      match stepPy w h occ start goal st with
      | .found p => some p
      | .noPath => some []
      | .next st' => astarLoopPy w h occ start goal fuel st'

/-- Pathfinder.find_path exactly as CPython executes it, including the
hash-set iteration order that decides ties in min(). -/
def findPathPy (w h : ℕ) (occ : Cell → Bool) (start goal : Cell) : List Cell :=
  (astarLoopPy w h occ start goal (fuelBound w h)
    ⟨pysetSingleton start, [], [(start, 0)], [(start, heuristic start goal)]⟩).getD []

/-! ## Scene parser and occupancy-grid builder -/

/-- An RGB image: dimensions and a pixel function (row y, column x),
each channel a natural number (0..255 in practice). -/
structure Img where
  width : ℕ
  height : ℕ
  px : ℕ → ℕ → ℕ × ℕ × ℕ

/-- Blue-marker test of _find_spawn: b > 200, r < 100, g < 100. -/
def isBlue (p : ℕ × ℕ × ℕ) : Bool := decide (200 < p.2.2 ∧ p.1 < 100 ∧ p.2.1 < 100)

/-- Yellow-marker test of _find_target: r > 200, g > 200, b < 100. -/
def isYellow (p : ℕ × ℕ × ℕ) : Bool := decide (200 < p.1 ∧ 200 < p.2.1 ∧ p.2.2 < 100)

/-- Red-wall test of _find_walls: r > 200, g < 100, b < 100. -/
def isRed (p : ℕ × ℕ × ℕ) : Bool := decide (200 < p.1 ∧ p.2.1 < 100 ∧ p.2.2 < 100)

/-- np.where over the image in row-major order, returning (y, x) pairs
exactly as zipping the two returned index arrays would. -/
def scanCoords (img : Img) (mask : ℕ × ℕ × ℕ → Bool) : List (ℕ × ℕ) :=
  (List.range img.height).flatMap
    (fun y => ((List.range img.width).filter (fun x => mask (img.px y x))).map (fun x => (y, x)))

/-- int(np.mean(...)) of the x resp. y coordinates: numpy's float mean
idealised as the exact mean, truncated toward zero (= floored, as the
coordinates are non-negative), hence natural division. -/
def centroidOf (coords : List (ℕ × ℕ)) : Option Cell :=
  match coords with
  | [] => none
  | _ => some (((coords.map Prod.snd).sum / coords.length : ℕ),
               ((coords.map Prod.fst).sum / coords.length : ℕ))

/-- Pathfinder._find_spawn (none models the ValueError on a missing
marker). -/
def findSpawn (img : Img) : Option Cell := centroidOf (scanCoords img isBlue)

/-- Pathfinder._find_target. -/
def findTarget (img : Img) : Option Cell := centroidOf (scanCoords img isYellow)

/-- Pathfinder._find_walls: red pixels as (x, y) pairs in scan order. -/
def findWalls (img : Img) : List Cell :=
  (scanCoords img isRed).map (fun yx => ((yx.2 : ℤ), (yx.1 : ℤ)))

/-- The height-by-width boolean collision grid, as a list of rows. -/
def emptyGrid (w h : ℕ) : List (List Bool) :=
  List.replicate h (List.replicate w false)

/-- collision[y][x] (False outside the stored rows; never read there). -/
def gridGet (m : List (List Bool)) (y x : ℕ) : Bool := (m.getD y []).getD x false

/-- collision[y][x] = v. -/
def gridSet (m : List (List Bool)) (y x : ℕ) (v : Bool) : List (List Bool) :=
  m.set y ((m.getD y []).set x v)

/-- The wall-marking loop of _create_collision_map, with its bounds
check. -/
def markWalls (w h : ℕ) (walls : List Cell) (m : List (List Bool)) : List (List Bool) :=
  walls.foldl
    (fun m c =>
      if 0 ≤ c.1 ∧ c.1 < (w : ℤ) ∧ 0 ≤ c.2 ∧ c.2 < (h : ℤ) then
        gridSet m c.2.toNat c.1.toNat true
      else m)
    m

/-- The cells written by one dilation source cell: all nine (y+dy, x+dx)
with dy, dx in [-1,0,1] in loop order, filtered by the bounds check. -/
def dilateTargets (w h y x : ℕ) : List (ℕ × ℕ) :=
  ([(-1,-1), (-1,0), (-1,1), (0,-1), (0,0), (0,1), (1,-1), (1,0), (1,1)] :
      List (ℤ × ℤ)).filterMap
    (fun d =>
      let ny := (y : ℤ) + d.1
      let nx := (x : ℤ) + d.2
      if 0 ≤ ny ∧ ny < (h : ℤ) ∧ 0 ≤ nx ∧ nx < (w : ℤ) then some (ny.toNat, nx.toNat)
      else none)

/-- One dilation pass of _create_collision_map: expanded starts as a copy
of collision; interior source cells (y in range(1, h-1), x in
range(1, w-1)) that are set in the ORIGINAL collision mark their whole
neighborhood in expanded. -/
def dilateOnce (w h : ℕ) (m : List (List Bool)) : List (List Bool) :=
  ((List.range' 1 (h - 2)).flatMap (fun y => (List.range' 1 (w - 2)).map (fun x => (y, x)))).foldl
    (fun expanded yx =>
      if gridGet m yx.1 yx.2 then
        (dilateTargets w h yx.1 yx.2).foldl (fun e t => gridSet e t.1 t.2 true) expanded
      else expanded)
    m

/-- Pathfinder._create_collision_map: mark walls, then three dilation
passes. -/
def createCollisionMap (img : Img) : List (List Bool) :=
  (dilateOnce img.width img.height)^[3]
    (markWalls img.width img.height (findWalls img) (emptyGrid img.width img.height))

/-- The collision map read as the occupancy function used by
_get_neighbors (queried only in bounds). -/
def occOf (m : List (List Bool)) : Cell → Bool :=
  fun c => gridGet m c.2.toNat c.1.toNat

/-- The Pathfinder pipeline from image to path: parse spawn and target
(None models the constructor's ValueError), build the collision map, run
find_path. -/
def pathfinderRun (ins : List Cell → Cell → List Cell) (img : Img) :
    Option (List Cell) :=
  match findSpawn img, findTarget img with
  | some s, some t =>
      some (findPath ins img.width img.height (occOf (createCollisionMap img)) s t)
  | _, _ => none

/-! ## Input synthesizer (reals idealising IEEE doubles) -/

/-- The one numeric error generate_controller_inputs can raise: float
division by zero when unit_scale or move_speed is 0. -/
inductive PyErr where
  | zeroDivisionError
deriving DecidableEq

/-- math.atan2. -/
noncomputable def atan2 (y x : ℝ) : ℝ := Complex.arg ⟨x, y⟩

open Classical in
/-- Pathfinder._normalize_angle: the two while-loops that shift by 2*pi
into [-pi, pi], written in closed form (subtracting 2*pi exactly
ceil((a - pi)/(2*pi)) times lands where the first loop stops, and
symmetrically for the second). -/
noncomputable def normAngle (a : ℝ) : ℝ :=
  if Real.pi < a then a - 2 * Real.pi * ⌈(a - Real.pi) / (2 * Real.pi)⌉
  else if a < -Real.pi then a + 2 * Real.pi * ⌈(-Real.pi - a) / (2 * Real.pi)⌉
  else a

open Classical in
/-- Python int() on a float: truncation toward zero. -/
noncomputable def pytrunc (x : ℝ) : ℤ := if 0 ≤ x then ⌊x⌋ else ⌈x⌉

/-- max(-1.0, min(1.0, x)). -/
noncomputable def clamp1 (x : ℝ) : ℝ := max (-1) (min 1 x)

open Classical in
/-- Pathfinder._calculate_move_input. -/
noncomputable def calcMove (p q : Cell) (facing : ℝ) : ℝ × ℝ :=
  if q.1 - p.1 = 0 ∧ q.2 - p.2 = 0 then (0, 0)
  else
    let ta := atan2 (-((q.2 - p.2 : ℤ) : ℝ)) ((q.1 - p.1 : ℤ) : ℝ)
    let ra := normAngle (ta - facing)
    let sx := Real.sin ra
    let sy := Real.cos ra
    let mag := Real.sqrt (sx ^ 2 + sy ^ 2)
    if 1 < mag then (sx / mag, sy / mag) else (sx, sy)

/-- Pathfinder._calculate_look_input, including its clamps. -/
noncomputable def calcLook (facing target sens : ℝ) : ℝ × ℝ :=
  let ad := normAngle (target - facing)
  (clamp1 (Real.sin ad * sens), clamp1 (-Real.cos ad * sens))

/-- One synthesized controller command (the dict appended per step). -/
structure Cmd where
  move : ℝ × ℝ
  look : ℝ × ℝ
  duration : ℤ
  target_facing : ℝ

open Classical in
/-- The body of generate_controller_inputs' for-loop over consecutive
waypoint pairs, carrying the running facing and the jitter stream; a zero
unit_scale or move_speed raises ZeroDivisionError at the first duration
computation, aborting with no output, exactly where the float division
raises in Python. -/
noncomputable def synthLoop (scale speed : ℚ) (sens : ℝ) (step : ℤ) :
    List Cell → ℝ → (ℕ → ℝ × ℝ) → Except PyErr (List Cmd)
  | p :: q :: rest, facing, j =>
      let dx := q.1 - p.1
      let dy := q.2 - p.2
      let bearing := atan2 (-(dy : ℝ)) ((dx : ℝ))
      if scale = 0 ∨ speed = 0 then .error .zeroDivisionError
      else
        let distance := Real.sqrt (((dx ^ 2 + dy ^ 2 : ℤ) : ℝ))
        let dur := max step (pytrunc (distance / (scale : ℝ) / (speed : ℝ) * 1000))
        let mv := calcMove p q facing
        let lk0 := calcLook facing bearing sens
        let lk := (clamp1 (lk0.1 + (j 0).1), clamp1 (lk0.2 + (j 0).2))
        (synthLoop scale speed sens step (q :: rest) bearing (fun k => j (k + 1))).map
          (fun cmds => ⟨mv, lk, dur, bearing⟩ :: cmds)
  | _, _, _ => .ok []

/-- Pathfinder.generate_controller_inputs: paths shorter than 2 return no
commands before any parameter is touched. -/
noncomputable def generateControllerInputs (scale speed : ℚ) (sens : ℝ) (f0 : ℝ)
    (j : ℕ → ℝ × ℝ) (path : List Cell) (step : ℤ) : Except PyErr (List Cmd) :=
  if path.length < 2 then .ok [] else synthLoop scale speed sens step path f0 j

/-! ## Notions used by the proofs: dict keys, potentials, invariants -/

/-- Keys of an association list. -/
def akeys {α : Type} (l : List (Cell × α)) : List Cell := l.map Prod.fst

/-- Sum of the stored values. -/
def sumVals (l : List (Cell × ℕ)) : ℕ := (l.map Prod.snd).sum

/-- Propositional in-bounds predicate. -/
def InBds (w h : ℕ) (c : Cell) : Prop :=
  0 ≤ c.1 ∧ c.1 < (w : ℤ) ∧ 0 ≤ c.2 ∧ c.2 < (h : ℤ)

/-- All in-bounds cells, as a duplicate-free list. -/
def allCells (w h : ℕ) : List Cell :=
  ((List.range w) ×ˢ (List.range h)).map (fun p => ((p.1 : ℤ), (p.2 : ℤ)))

/-- The loop invariant of find_path: the open set is a subset of the
g-scored cells with no duplicates; g_score has duplicate-free keys, keeps
the start at 0, stays within the grid (plus possibly the start) and below
2*(number of scored cells - 1); came_from links strictly decrease the
g-score (so no cycle can form) and only ever point at unblocked in-bounds
cells; every scored cell other than the start has a predecessor link;
every scored cell is still open or has all its neighbors scored; and the
goal, once scored, stays open until extracted. -/
structure AInv (w h : ℕ) (occ : Cell → Bool) (start goal : Cell) (st : AState) : Prop where
  opn_nodup : st.opn.Nodup
  opn_g : ∀ c ∈ st.opn, (alookup st.gS c).isSome
  g_nodup : (akeys st.gS).Nodup
  g_start : alookup st.gS start = some 0
  g_bounds : ∀ c, (alookup st.gS c).isSome → c = start ∨ InBds w h c
  g_val : ∀ c v, alookup st.gS c = some v → v ≤ 2 * (st.gS.length - 1)
  cf_g : ∀ n c, alookup st.cameFrom n = some c →
      ∃ gn gc, alookup st.gS n = some gn ∧ alookup st.gS c = some gc ∧ gc + 1 ≤ gn
  cf_free : ∀ n c, alookup st.cameFrom n = some c → occ n = false ∧ InBds w h n
  cf_dom : ∀ n, (alookup st.gS n).isSome → n = start ∨ (alookup st.cameFrom n).isSome
  closed_nb : ∀ n, (alookup st.gS n).isSome →
      n ∈ st.opn ∨ ∀ m ∈ getNeighbors w h occ n, (alookup st.gS m).isSome
  goal_opn : (alookup st.gS goal).isSome → goal ∈ st.opn

/-- The weakened invariant holding while the neighbors of the extracted
cell are being relaxed (the extracted cell may be closed before its
neighborhood is fully scored). -/
structure AInvMid (w h : ℕ) (occ : Cell → Bool) (start goal current : Cell) (st : AState) : Prop where
  opn_nodup : st.opn.Nodup
  opn_g : ∀ c ∈ st.opn, (alookup st.gS c).isSome
  g_nodup : (akeys st.gS).Nodup
  g_start : alookup st.gS start = some 0
  g_bounds : ∀ c, (alookup st.gS c).isSome → c = start ∨ InBds w h c
  g_val : ∀ c v, alookup st.gS c = some v → v ≤ 2 * (st.gS.length - 1)
  cf_g : ∀ n c, alookup st.cameFrom n = some c →
      ∃ gn gc, alookup st.gS n = some gn ∧ alookup st.gS c = some gc ∧ gc + 1 ≤ gn
  cf_free : ∀ n c, alookup st.cameFrom n = some c → occ n = false ∧ InBds w h n
  cf_dom : ∀ n, (alookup st.gS n).isSome → n = start ∨ (alookup st.cameFrom n).isSome
  closed_mid : ∀ n, (alookup st.gS n).isSome →
      n ∈ st.opn ∨ n = current ∨ ∀ m ∈ getNeighbors w h occ n, (alookup st.gS m).isSome
  goal_opn : (alookup st.gS goal).isSome → goal ∈ st.opn
  cur_g : (alookup st.gS current).isSome

/-- The termination potential: each unscored cell is worth 2K+1, each
scored cell its g-score (strictly less than 2K+1). -/
def phiA (K : ℕ) (st : AState) : ℕ := (2 * K + 1) * (K - st.gS.length) + sumVals st.gS

/-- The loop measure: potential, then open-set size. -/
def measureA (K : ℕ) (st : AState) : ℕ := phiA K st * (K + 1) + st.opn.length

/-- The state written by an improving relaxation. -/
def relaxUpd (ins : List Cell → Cell → List Cell) (goal current : Cell)
    (st : AState) (m : Cell) (t : ℕ) : AState :=
  ⟨ins st.opn m, aupsert st.cameFrom m current, aupsert st.gS m t,
   aupsert st.fS m (t + heuristic m goal)⟩

/-- One 8-connected step from c toward g. -/
def stepToward (c g : Cell) : Cell :=
  (c.1 + (if c.1 < g.1 then 1 else if g.1 < c.1 then -1 else 0),
   c.2 + (if c.2 < g.2 then 1 else if g.2 < c.2 then -1 else 0))

/-- The state after n continue-iterations of find_path's loop (none once
the loop has announced a result). -/
def stepN (ins : List Cell → Cell → List Cell) (w h : ℕ) (occ : Cell → Bool)
    (start goal : Cell) : ℕ → AState → Option AState
  | 0, st => some st
  | n + 1, st =>
      match stepA ins w h occ start goal st with
      | .next st' => stepN ins w h occ start goal n st'
      | _ => none

/-- The jitter stream advanced by m steps. -/
def jshift (m : ℕ) (j : ℕ → ℝ × ℝ) : ℕ → ℝ × ℝ := fun k => j (k + m)

/-- A grid that reads false everywhere. -/
def AllFree (m : List (List Bool)) : Prop := ∀ y x, gridGet m y x = false

/-! ## Concrete inputs and spec-modelled comparison definitions -/

/-- Total path cost under the Manhattan step-cost function of the search. -/
def pathCost : List Cell → ℕ
  | a :: b :: rest => heuristic a b + pathCost (b :: rest)
  | _ => 0

/-- A minimal all-free map image: blue spawn pixel at x = 0, yellow goal
pixel at x = 2, background at x = 1, one row. -/
def img3 : Img := ⟨3, 1, fun _ x => if x = 0 then (0, 0, 255) else if x = 2 then (255, 255, 0) else (0, 0, 0)⟩

/-- An image whose blue marker pixels sit at x = 1 and x = 2 of one row
(mean x = 1.5), with a yellow pixel at x = 3. -/
def img8 : Img := ⟨4, 1, fun _ x => if x = 1 ∨ x = 2 then (0, 0, 255) else if x = 3 then (255, 255, 0) else (0, 0, 0)⟩

/-- Modelled from the spec: the centroid as the spec's words read,
"mean x and mean y of the marker coordinates, rounded to integers"
(round-to-nearest), for comparison against the code's truncation. -/
def specCentroidRound (coords : List (ℕ × ℕ)) : Option Cell :=
  match coords with
  | [] => none
  | _ => some ((round (((coords.map Prod.snd).sum : ℚ) / (coords.length : ℚ)) : ℤ),
               (round (((coords.map Prod.fst).sum : ℚ) / (coords.length : ℚ)) : ℤ))

/-- Modelled from the spec: the per-step duration as the spec's words read,
max(min_step_ms, round(euclidean_distance / unit_scale / move_speed * 1000))
(round, not int-truncation), for comparison against the code. -/
noncomputable def specDuration (p q : Cell) (scale speed : ℚ) (step : ℤ) : ℤ :=
  max step (round (Real.sqrt (((q.1 - p.1) ^ 2 + (q.2 - p.2) ^ 2 : ℤ) : ℝ) /
    (scale : ℝ) / (speed : ℝ) * 1000))

/-- Bounded iteration of stepPy: run n while-loop iterations from st,
stopping early if the loop exits (found or noPath propagate). -/
def stepNPy (w h : ℕ) (occ : Cell → Bool) (start goal : Cell) :
    ℕ → PyAState → StepRes PyAState
  | 0, st => .next st
  | n + 1, st =>
      match stepPy w h occ start goal st with
      | .next st' => stepNPy w h occ start goal n st'
      | r => r

/-- The initial state of the concrete 10-by-10 run. -/
def c2s0 : PyAState :=
  ⟨pysetSingleton (0, 0), [], [((0, 0), 0)], [((0, 0), 18)]⟩

/-- The search state after 5 iterations of the concrete 10-by-10 run. -/
def c2s5 : PyAState :=
  ⟨⟨[Slot.empty, Slot.empty, Slot.empty, Slot.dummy, Slot.empty, Slot.dummy, Slot.empty, Slot.empty, Slot.active (3, 1) 8756109708711196808, Slot.empty, Slot.dummy, Slot.active (0, 3) 13712454970273962987, Slot.active (2, 0) 4685526799349444076, Slot.empty, Slot.empty, Slot.active (3, 0) 2248468952609198383, Slot.active (2, 3) 8409376899596376432, Slot.empty, Slot.active (0, 2) 7204814214171964562, Slot.empty, Slot.empty, Slot.empty, Slot.empty, Slot.active (2, 2) 1901736143494378007, Slot.active (1, 0) 13282122221094607640, Slot.empty, Slot.active (3, 2) 3863035679738500442, Slot.empty, Slot.active (1, 3) 17005972321341539996, Slot.empty, Slot.empty, Slot.empty], 13, 10⟩,
    [((0, 1), (0, 0)), ((1, 0), (0, 0)), ((1, 1), (0, 0)), ((0, 2), (0, 1)), ((1, 2), (0, 1)), ((0, 3), (1, 2)), ((1, 3), (1, 2)), ((2, 1), (1, 1)), ((2, 2), (1, 2)), ((2, 3), (1, 2)), ((2, 0), (1, 1)), ((3, 0), (2, 1)), ((3, 1), (2, 1)), ((3, 2), (2, 1))],
    [((0, 0), 0), ((0, 1), 1), ((1, 0), 1), ((1, 1), 2), ((0, 2), 2), ((1, 2), 3), ((0, 3), 5), ((1, 3), 4), ((2, 1), 3), ((2, 2), 4), ((2, 3), 5), ((2, 0), 4), ((3, 0), 5), ((3, 1), 4), ((3, 2), 5)],
    [((0, 0), 18), ((0, 1), 18), ((1, 0), 18), ((1, 1), 18), ((0, 2), 18), ((1, 2), 18), ((0, 3), 20), ((1, 3), 18), ((2, 1), 18), ((2, 2), 18), ((2, 3), 18), ((2, 0), 20), ((3, 0), 20), ((3, 1), 18), ((3, 2), 18)]⟩

/-- The search state after 10 iterations of the concrete 10-by-10 run. -/
def c2s10 : PyAState :=
  ⟨⟨[Slot.empty, Slot.empty, Slot.empty, Slot.active (4, 0) 12098617604573586435, Slot.empty, Slot.empty, Slot.empty, Slot.empty, Slot.empty, Slot.dummy, Slot.empty, Slot.active (7, 0) 4358481687155754187, Slot.empty, Slot.empty, Slot.empty, Slot.empty, Slot.empty, Slot.empty, Slot.dummy, Slot.empty, Slot.empty, Slot.empty, Slot.empty, Slot.active (2, 2) 1901736143494378007, Slot.active (1, 0) 13282122221094607640, Slot.empty, Slot.active (3, 2) 3863035679738500442, Slot.empty, Slot.active (1, 3) 17005972321341539996, Slot.empty, Slot.empty, Slot.active (5, 2) 12608344299786097375, Slot.empty, Slot.empty, Slot.active (6, 2) 14569643836030219810, Slot.empty, Slot.active (7, 1) 10866122443257752612, Slot.empty, Slot.empty, Slot.empty, Slot.empty, Slot.empty, Slot.empty, Slot.active (0, 3) 13712454970273962987, Slot.active (2, 0) 4685526799349444076, Slot.empty, Slot.active (4, 2) 9314826948718520366, Slot.active (3, 0) 2248468952609198383, Slot.active (2, 3) 8409376899596376432, Slot.empty, Slot.empty, Slot.empty, Slot.active (5, 0) 15392134955641163444, Slot.empty, Slot.active (7, 2) 5973048414285056246, Slot.active (6, 0) 12955077108900917751, Slot.empty, Slot.empty, Slot.empty, Slot.empty, Slot.empty, Slot.empty, Slot.empty, Slot.empty], 19, 17⟩,
    [((0, 1), (0, 0)), ((1, 0), (0, 0)), ((1, 1), (0, 0)), ((0, 2), (0, 1)), ((1, 2), (0, 1)), ((0, 3), (0, 2)), ((1, 3), (1, 2)), ((2, 1), (1, 1)), ((2, 2), (1, 2)), ((2, 3), (1, 2)), ((2, 0), (1, 1)), ((3, 0), (2, 1)), ((3, 1), (2, 1)), ((3, 2), (2, 1)), ((4, 0), (3, 1)), ((4, 1), (3, 1)), ((4, 2), (3, 1)), ((5, 0), (4, 1)), ((5, 1), (4, 1)), ((5, 2), (4, 1)), ((6, 0), (5, 1)), ((6, 1), (5, 1)), ((6, 2), (5, 1)), ((7, 0), (6, 1)), ((7, 1), (6, 1)), ((7, 2), (6, 1))],
    [((0, 0), 0), ((0, 1), 1), ((1, 0), 1), ((1, 1), 2), ((0, 2), 2), ((1, 2), 3), ((0, 3), 3), ((1, 3), 4), ((2, 1), 3), ((2, 2), 4), ((2, 3), 5), ((2, 0), 4), ((3, 0), 5), ((3, 1), 4), ((3, 2), 5), ((4, 0), 6), ((4, 1), 5), ((4, 2), 6), ((5, 0), 7), ((5, 1), 6), ((5, 2), 7), ((6, 0), 8), ((6, 1), 7), ((6, 2), 8), ((7, 0), 9), ((7, 1), 8), ((7, 2), 9)],
    [((0, 0), 18), ((0, 1), 18), ((1, 0), 18), ((1, 1), 18), ((0, 2), 18), ((1, 2), 18), ((0, 3), 18), ((1, 3), 18), ((2, 1), 18), ((2, 2), 18), ((2, 3), 18), ((2, 0), 20), ((3, 0), 20), ((3, 1), 18), ((3, 2), 18), ((4, 0), 20), ((4, 1), 18), ((4, 2), 18), ((5, 0), 20), ((5, 1), 18), ((5, 2), 18), ((6, 0), 20), ((6, 1), 18), ((6, 2), 18), ((7, 0), 20), ((7, 1), 18), ((7, 2), 18)]⟩

/-- The search state after 15 iterations of the concrete 10-by-10 run. -/
def c2s15 : PyAState :=
  ⟨⟨[Slot.empty, Slot.empty, Slot.empty, Slot.active (4, 0) 12098617604573586435, Slot.empty, Slot.active (3, 4) 1079245023883434373, Slot.empty, Slot.dummy, Slot.empty, Slot.dummy, Slot.dummy, Slot.active (7, 0) 4358481687155754187, Slot.empty, Slot.active (6, 4) 11785853180175153741, Slot.empty, Slot.empty, Slot.empty, Slot.empty, Slot.dummy, Slot.empty, Slot.empty, Slot.empty, Slot.empty, Slot.dummy, Slot.dummy, Slot.empty, Slot.dummy, Slot.empty, Slot.active (1, 3) 17005972321341539996, Slot.empty, Slot.empty, Slot.active (5, 2) 12608344299786097375, Slot.active (4, 4) 3883364387212965600, Slot.empty, Slot.active (6, 2) 14569643836030219810, Slot.active (5, 5) 2283807709307846243, Slot.active (7, 1) 10866122443257752612, Slot.empty, Slot.active (6, 5) 18293493936277152166, Slot.empty, Slot.empty, Slot.empty, Slot.empty, Slot.active (0, 3) 13712454970273962987, Slot.active (2, 0) 4685526799349444076, Slot.empty, Slot.active (4, 2) 9314826948718520366, Slot.active (3, 0) 2248468952609198383, Slot.active (2, 3) 8409376899596376432, Slot.empty, Slot.active (4, 5) 17437034431949820850, Slot.active (3, 3) 5972319052856130739, Slot.active (5, 0) 15392134955641163444, Slot.empty, Slot.active (7, 2) 5973048414285056246, Slot.active (6, 0) 12955077108900917751, Slot.active (5, 3) 669240982178544184, Slot.empty, Slot.empty, Slot.active (6, 3) 2630540518422666619, Slot.empty, Slot.empty, Slot.empty, Slot.empty], 30, 23⟩,
    [((0, 1), (0, 0)), ((1, 0), (0, 0)), ((1, 1), (0, 0)), ((0, 2), (0, 1)), ((1, 2), (0, 1)), ((0, 3), (0, 2)), ((1, 3), (1, 2)), ((2, 1), (1, 1)), ((2, 2), (1, 2)), ((2, 3), (1, 2)), ((2, 0), (1, 0)), ((3, 0), (2, 1)), ((3, 1), (2, 1)), ((3, 2), (2, 1)), ((4, 0), (3, 1)), ((4, 1), (3, 1)), ((4, 2), (3, 1)), ((5, 0), (4, 1)), ((5, 1), (4, 1)), ((5, 2), (4, 1)), ((6, 0), (5, 1)), ((6, 1), (5, 1)), ((6, 2), (5, 1)), ((7, 0), (6, 1)), ((7, 1), (6, 1)), ((7, 2), (6, 1)), ((3, 3), (2, 2)), ((4, 3), (3, 2)), ((3, 4), (4, 3)), ((4, 4), (4, 3)), ((5, 3), (4, 3)), ((5, 4), (4, 3)), ((4, 5), (5, 4)), ((5, 5), (5, 4)), ((6, 3), (5, 4)), ((6, 4), (5, 4)), ((6, 5), (5, 4))],
    [((0, 0), 0), ((0, 1), 1), ((1, 0), 1), ((1, 1), 2), ((0, 2), 2), ((1, 2), 3), ((0, 3), 3), ((1, 3), 4), ((2, 1), 3), ((2, 2), 4), ((2, 3), 5), ((2, 0), 2), ((3, 0), 5), ((3, 1), 4), ((3, 2), 5), ((4, 0), 6), ((4, 1), 5), ((4, 2), 6), ((5, 0), 7), ((5, 1), 6), ((5, 2), 7), ((6, 0), 8), ((6, 1), 7), ((6, 2), 8), ((7, 0), 9), ((7, 1), 8), ((7, 2), 9), ((3, 3), 6), ((4, 3), 7), ((3, 4), 9), ((4, 4), 8), ((5, 3), 8), ((5, 4), 9), ((4, 5), 11), ((5, 5), 10), ((6, 3), 11), ((6, 4), 10), ((6, 5), 11)],
    [((0, 0), 18), ((0, 1), 18), ((1, 0), 18), ((1, 1), 18), ((0, 2), 18), ((1, 2), 18), ((0, 3), 18), ((1, 3), 18), ((2, 1), 18), ((2, 2), 18), ((2, 3), 18), ((2, 0), 18), ((3, 0), 20), ((3, 1), 18), ((3, 2), 18), ((4, 0), 20), ((4, 1), 18), ((4, 2), 18), ((5, 0), 20), ((5, 1), 18), ((5, 2), 18), ((6, 0), 20), ((6, 1), 18), ((6, 2), 18), ((7, 0), 20), ((7, 1), 18), ((7, 2), 18), ((3, 3), 18), ((4, 3), 18), ((3, 4), 20), ((4, 4), 18), ((5, 3), 18), ((5, 4), 18), ((4, 5), 20), ((5, 5), 18), ((6, 3), 20), ((6, 4), 18), ((6, 5), 18)]⟩

/-- The search state after 20 iterations of the concrete 10-by-10 run. -/
def c2s20 : PyAState :=
  ⟨⟨[Slot.empty, Slot.empty, Slot.empty, Slot.active (4, 0) 12098617604573586435, Slot.empty, Slot.dummy, Slot.empty, Slot.empty, Slot.empty, Slot.empty, Slot.empty, Slot.empty, Slot.empty, Slot.empty, Slot.empty, Slot.empty, Slot.empty, Slot.empty, Slot.empty, Slot.empty, Slot.empty, Slot.empty, Slot.empty, Slot.empty, Slot.empty, Slot.active (1, 6) 13727465019498145689, Slot.empty, Slot.dummy, Slot.empty, Slot.empty, Slot.empty, Slot.empty, Slot.empty, Slot.active (7, 4) 3189257758429990177, Slot.active (6, 2) 14569643836030219810, Slot.empty, Slot.active (7, 1) 10866122443257752612, Slot.empty, Slot.active (6, 5) 18293493936277152166, Slot.empty, Slot.empty, Slot.empty, Slot.empty, Slot.empty, Slot.empty, Slot.empty, Slot.active (4, 2) 9314826948718520366, Slot.active (3, 0) 2248468952609198383, Slot.empty, Slot.empty, Slot.active (4, 5) 17437034431949820850, Slot.active (3, 3) 5972319052856130739, Slot.active (5, 0) 15392134955641163444, Slot.empty, Slot.empty, Slot.active (3, 6) 14094526536087431223, Slot.active (5, 3) 669240982178544184, Slot.empty, Slot.empty, Slot.empty, Slot.empty, Slot.empty, Slot.empty, Slot.empty, Slot.empty, Slot.empty, Slot.empty, Slot.empty, Slot.active (0, 4) 1773351652666409796, Slot.empty, Slot.empty, Slot.active (1, 5) 173794974761290439, Slot.empty, Slot.empty, Slot.empty, Slot.active (7, 0) 4358481687155754187, Slot.empty, Slot.empty, Slot.empty, Slot.active (7, 3) 8082331787402686543, Slot.empty, Slot.empty, Slot.empty, Slot.empty, Slot.empty, Slot.empty, Slot.empty, Slot.empty, Slot.empty, Slot.empty, Slot.empty, Slot.empty, Slot.empty, Slot.empty, Slot.active (3, 5) 7586885779985432798, Slot.active (5, 2) 12608344299786097375, Slot.active (4, 4) 3883364387212965600, Slot.empty, Slot.empty, Slot.active (5, 5) 2283807709307846243, Slot.empty, Slot.empty, Slot.empty, Slot.empty, Slot.empty, Slot.empty, Slot.empty, Slot.active (0, 3) 13712454970273962987, Slot.active (2, 0) 4685526799349444076, Slot.empty, Slot.active (1, 4) 12112898292368843630, Slot.empty, Slot.active (2, 3) 8409376899596376432, Slot.empty, Slot.empty, Slot.empty, Slot.active (2, 6) 12133226999843308788, Slot.empty, Slot.active (7, 2) 5973048414285056246, Slot.active (6, 0) 12955077108900917751, Slot.empty, Slot.empty, Slot.active (7, 5) 9696898514531988602, Slot.active (6, 3) 2630540518422666619, Slot.empty, Slot.empty, Slot.empty, Slot.empty], 32, 30⟩,
    [((0, 1), (0, 0)), ((1, 0), (0, 0)), ((1, 1), (0, 0)), ((0, 2), (0, 1)), ((1, 2), (0, 1)), ((0, 3), (0, 2)), ((1, 3), (1, 2)), ((2, 1), (1, 1)), ((2, 2), (1, 2)), ((2, 3), (1, 2)), ((2, 0), (1, 0)), ((3, 0), (2, 1)), ((3, 1), (2, 1)), ((3, 2), (2, 1)), ((4, 0), (3, 1)), ((4, 1), (3, 1)), ((4, 2), (3, 1)), ((5, 0), (4, 1)), ((5, 1), (4, 1)), ((5, 2), (4, 1)), ((6, 0), (5, 1)), ((6, 1), (5, 1)), ((6, 2), (5, 1)), ((7, 0), (6, 1)), ((7, 1), (6, 1)), ((7, 2), (6, 1)), ((3, 3), (2, 2)), ((4, 3), (3, 2)), ((3, 4), (2, 4)), ((4, 4), (4, 3)), ((5, 3), (4, 3)), ((5, 4), (4, 3)), ((4, 5), (3, 4)), ((5, 5), (5, 4)), ((6, 3), (5, 4)), ((6, 4), (5, 4)), ((6, 5), (5, 4)), ((7, 3), (6, 4)), ((7, 4), (6, 4)), ((7, 5), (6, 4)), ((0, 4), (1, 3)), ((1, 4), (1, 3)), ((2, 4), (1, 3)), ((1, 5), (2, 4)), ((2, 5), (2, 4)), ((3, 5), (2, 4)), ((1, 6), (2, 5)), ((2, 6), (2, 5)), ((3, 6), (2, 5))],
    [((0, 0), 0), ((0, 1), 1), ((1, 0), 1), ((1, 1), 2), ((0, 2), 2), ((1, 2), 3), ((0, 3), 3), ((1, 3), 4), ((2, 1), 3), ((2, 2), 4), ((2, 3), 5), ((2, 0), 2), ((3, 0), 5), ((3, 1), 4), ((3, 2), 5), ((4, 0), 6), ((4, 1), 5), ((4, 2), 6), ((5, 0), 7), ((5, 1), 6), ((5, 2), 7), ((6, 0), 8), ((6, 1), 7), ((6, 2), 8), ((7, 0), 9), ((7, 1), 8), ((7, 2), 9), ((3, 3), 6), ((4, 3), 7), ((3, 4), 7), ((4, 4), 8), ((5, 3), 8), ((5, 4), 9), ((4, 5), 9), ((5, 5), 10), ((6, 3), 11), ((6, 4), 10), ((6, 5), 11), ((7, 3), 12), ((7, 4), 11), ((7, 5), 12), ((0, 4), 6), ((1, 4), 5), ((2, 4), 6), ((1, 5), 8), ((2, 5), 7), ((3, 5), 8), ((1, 6), 9), ((2, 6), 8), ((3, 6), 9)],
    [((0, 0), 18), ((0, 1), 18), ((1, 0), 18), ((1, 1), 18), ((0, 2), 18), ((1, 2), 18), ((0, 3), 18), ((1, 3), 18), ((2, 1), 18), ((2, 2), 18), ((2, 3), 18), ((2, 0), 18), ((3, 0), 20), ((3, 1), 18), ((3, 2), 18), ((4, 0), 20), ((4, 1), 18), ((4, 2), 18), ((5, 0), 20), ((5, 1), 18), ((5, 2), 18), ((6, 0), 20), ((6, 1), 18), ((6, 2), 18), ((7, 0), 20), ((7, 1), 18), ((7, 2), 18), ((3, 3), 18), ((4, 3), 18), ((3, 4), 18), ((4, 4), 18), ((5, 3), 18), ((5, 4), 18), ((4, 5), 18), ((5, 5), 18), ((6, 3), 20), ((6, 4), 18), ((6, 5), 18), ((7, 3), 20), ((7, 4), 18), ((7, 5), 18), ((0, 4), 20), ((1, 4), 18), ((2, 4), 18), ((1, 5), 20), ((2, 5), 18), ((3, 5), 18), ((1, 6), 20), ((2, 6), 18), ((3, 6), 18)]⟩

/-- The search state after 25 iterations of the concrete 10-by-10 run. -/
def c2s25 : PyAState :=
  ⟨⟨[Slot.empty, Slot.empty, Slot.empty, Slot.active (4, 0) 12098617604573586435, Slot.empty, Slot.dummy, Slot.empty, Slot.empty, Slot.empty, Slot.empty, Slot.empty, Slot.empty, Slot.empty, Slot.empty, Slot.active (8, 0) 1921423840415508494, Slot.empty, Slot.empty, Slot.empty, Slot.active (8, 3) 10043631323646808978, Slot.empty, Slot.empty, Slot.empty, Slot.empty, Slot.empty, Slot.empty, Slot.active (1, 6) 13727465019498145689, Slot.empty, Slot.dummy, Slot.empty, Slot.empty, Slot.empty, Slot.empty, Slot.empty, Slot.dummy, Slot.dummy, Slot.empty, Slot.dummy, Slot.empty, Slot.dummy, Slot.empty, Slot.empty, Slot.empty, Slot.empty, Slot.empty, Slot.empty, Slot.empty, Slot.dummy, Slot.active (3, 0) 2248468952609198383, Slot.empty, Slot.empty, Slot.active (4, 5) 17437034431949820850, Slot.active (3, 3) 5972319052856130739, Slot.active (5, 0) 15392134955641163444, Slot.active (5, 6) 11439120371060333365, Slot.empty, Slot.active (3, 6) 14094526536087431223, Slot.active (5, 3) 669240982178544184, Slot.active (8, 2) 3535990567544810553, Slot.empty, Slot.empty, Slot.empty, Slot.active (8, 5) 7259840667791742909, Slot.empty, Slot.empty, Slot.empty, Slot.empty, Slot.empty, Slot.empty, Slot.active (0, 4) 1773351652666409796, Slot.empty, Slot.empty, Slot.active (1, 5) 173794974761290439, Slot.empty, Slot.empty, Slot.empty, Slot.active (7, 0) 4358481687155754187, Slot.empty, Slot.empty, Slot.empty, Slot.active (7, 3) 8082331787402686543, Slot.empty, Slot.empty, Slot.empty, Slot.active (7, 6) 16204539270633987027, Slot.empty, Slot.empty, Slot.empty, Slot.empty, Slot.empty, Slot.empty, Slot.empty, Slot.empty, Slot.empty, Slot.empty, Slot.active (3, 5) 7586885779985432798, Slot.active (5, 2) 12608344299786097375, Slot.active (4, 4) 3883364387212965600, Slot.empty, Slot.empty, Slot.active (5, 5) 2283807709307846243, Slot.active (8, 4) 752199911689744484, Slot.empty, Slot.empty, Slot.active (8, 1) 8429064596517506919, Slot.empty, Slot.empty, Slot.empty, Slot.active (0, 3) 13712454970273962987, Slot.active (2, 0) 4685526799349444076, Slot.empty, Slot.active (1, 4) 12112898292368843630, Slot.empty, Slot.active (2, 3) 8409376899596376432, Slot.empty, Slot.empty, Slot.empty, Slot.active (2, 6) 12133226999843308788, Slot.empty, Slot.active (7, 2) 5973048414285056246, Slot.active (6, 0) 12955077108900917751, Slot.active (6, 6) 13400419907304455800, Slot.empty, Slot.active (7, 5) 9696898514531988602, Slot.active (6, 3) 2630540518422666619, Slot.empty, Slot.empty, Slot.empty, Slot.empty], 41, 34⟩,
    [((0, 1), (0, 0)), ((1, 0), (0, 0)), ((1, 1), (0, 0)), ((0, 2), (0, 1)), ((1, 2), (0, 1)), ((0, 3), (0, 2)), ((1, 3), (1, 2)), ((2, 1), (1, 1)), ((2, 2), (1, 2)), ((2, 3), (1, 2)), ((2, 0), (1, 0)), ((3, 0), (2, 1)), ((3, 1), (2, 1)), ((3, 2), (2, 1)), ((4, 0), (3, 1)), ((4, 1), (3, 1)), ((4, 2), (3, 1)), ((5, 0), (4, 1)), ((5, 1), (4, 1)), ((5, 2), (4, 1)), ((6, 0), (5, 1)), ((6, 1), (5, 1)), ((6, 2), (5, 1)), ((7, 0), (6, 1)), ((7, 1), (6, 1)), ((7, 2), (6, 1)), ((3, 3), (2, 2)), ((4, 3), (3, 2)), ((3, 4), (2, 4)), ((4, 4), (4, 3)), ((5, 3), (4, 3)), ((5, 4), (4, 3)), ((4, 5), (3, 4)), ((5, 5), (5, 4)), ((6, 3), (6, 2)), ((6, 4), (5, 4)), ((6, 5), (5, 4)), ((7, 3), (6, 2)), ((7, 4), (6, 4)), ((7, 5), (6, 4)), ((0, 4), (1, 3)), ((1, 4), (1, 3)), ((2, 4), (1, 3)), ((1, 5), (2, 4)), ((2, 5), (2, 4)), ((3, 5), (2, 4)), ((1, 6), (2, 5)), ((2, 6), (2, 5)), ((3, 6), (2, 5)), ((8, 3), (7, 4)), ((8, 4), (7, 4)), ((8, 5), (7, 4)), ((8, 0), (7, 1)), ((8, 1), (7, 1)), ((8, 2), (7, 1)), ((5, 6), (6, 5)), ((6, 6), (6, 5)), ((7, 6), (6, 5))],
    [((0, 0), 0), ((0, 1), 1), ((1, 0), 1), ((1, 1), 2), ((0, 2), 2), ((1, 2), 3), ((0, 3), 3), ((1, 3), 4), ((2, 1), 3), ((2, 2), 4), ((2, 3), 5), ((2, 0), 2), ((3, 0), 5), ((3, 1), 4), ((3, 2), 5), ((4, 0), 6), ((4, 1), 5), ((4, 2), 6), ((5, 0), 7), ((5, 1), 6), ((5, 2), 7), ((6, 0), 8), ((6, 1), 7), ((6, 2), 8), ((7, 0), 9), ((7, 1), 8), ((7, 2), 9), ((3, 3), 6), ((4, 3), 7), ((3, 4), 7), ((4, 4), 8), ((5, 3), 8), ((5, 4), 9), ((4, 5), 9), ((5, 5), 10), ((6, 3), 9), ((6, 4), 10), ((6, 5), 11), ((7, 3), 10), ((7, 4), 11), ((7, 5), 12), ((0, 4), 6), ((1, 4), 5), ((2, 4), 6), ((1, 5), 8), ((2, 5), 7), ((3, 5), 8), ((1, 6), 9), ((2, 6), 8), ((3, 6), 9), ((8, 3), 13), ((8, 4), 12), ((8, 5), 13), ((8, 0), 10), ((8, 1), 9), ((8, 2), 10), ((5, 6), 13), ((6, 6), 12), ((7, 6), 13)],
    [((0, 0), 18), ((0, 1), 18), ((1, 0), 18), ((1, 1), 18), ((0, 2), 18), ((1, 2), 18), ((0, 3), 18), ((1, 3), 18), ((2, 1), 18), ((2, 2), 18), ((2, 3), 18), ((2, 0), 18), ((3, 0), 20), ((3, 1), 18), ((3, 2), 18), ((4, 0), 20), ((4, 1), 18), ((4, 2), 18), ((5, 0), 20), ((5, 1), 18), ((5, 2), 18), ((6, 0), 20), ((6, 1), 18), ((6, 2), 18), ((7, 0), 20), ((7, 1), 18), ((7, 2), 18), ((3, 3), 18), ((4, 3), 18), ((3, 4), 18), ((4, 4), 18), ((5, 3), 18), ((5, 4), 18), ((4, 5), 18), ((5, 5), 18), ((6, 3), 18), ((6, 4), 18), ((6, 5), 18), ((7, 3), 18), ((7, 4), 18), ((7, 5), 18), ((0, 4), 20), ((1, 4), 18), ((2, 4), 18), ((1, 5), 20), ((2, 5), 18), ((3, 5), 18), ((1, 6), 20), ((2, 6), 18), ((3, 6), 18), ((8, 3), 20), ((8, 4), 18), ((8, 5), 18), ((8, 0), 20), ((8, 1), 18), ((8, 2), 18), ((5, 6), 20), ((6, 6), 18), ((7, 6), 18)]⟩

/-- The search state after 30 iterations of the concrete 10-by-10 run. -/
def c2s30 : PyAState :=
  ⟨⟨[Slot.empty, Slot.empty, Slot.empty, Slot.active (4, 0) 12098617604573586435, Slot.empty, Slot.dummy, Slot.empty, Slot.empty, Slot.empty, Slot.active (3, 7) 4803095124130366729, Slot.empty, Slot.dummy, Slot.empty, Slot.empty, Slot.active (8, 0) 1921423840415508494, Slot.dummy, Slot.empty, Slot.empty, Slot.active (8, 3) 10043631323646808978, Slot.empty, Slot.empty, Slot.empty, Slot.empty, Slot.empty, Slot.empty, Slot.active (1, 6) 13727465019498145689, Slot.empty, Slot.dummy, Slot.empty, Slot.empty, Slot.empty, Slot.empty, Slot.empty, Slot.dummy, Slot.dummy, Slot.empty, Slot.dummy, Slot.active (7, 7) 6913107858676922533, Slot.dummy, Slot.empty, Slot.empty, Slot.empty, Slot.dummy, Slot.empty, Slot.empty, Slot.empty, Slot.dummy, Slot.active (3, 0) 2248468952609198383, Slot.empty, Slot.empty, Slot.dummy, Slot.dummy, Slot.active (5, 0) 15392134955641163444, Slot.active (5, 6) 11439120371060333365, Slot.active (4, 8) 2714140458487201590, Slot.active (3, 6) 14094526536087431223, Slot.active (5, 3) 669240982178544184, Slot.active (8, 2) 3535990567544810553, Slot.active (5, 9) 1114583780582082233, Slot.empty, Slot.empty, Slot.active (8, 5) 7259840667791742909, Slot.empty, Slot.empty, Slot.empty, Slot.empty, Slot.empty, Slot.empty, Slot.active (0, 4) 1773351652666409796, Slot.empty, Slot.empty, Slot.active (1, 5) 173794974761290439, Slot.empty, Slot.empty, Slot.empty, Slot.active (7, 0) 4358481687155754187, Slot.empty, Slot.empty, Slot.empty, Slot.active (7, 3) 8082331787402686543, Slot.active (7, 9) 8527674585806224592, Slot.active (6, 7) 1461316589696902609, Slot.empty, Slot.active (7, 6) 16204539270633987027, Slot.empty, Slot.empty, Slot.empty, Slot.empty, Slot.empty, Slot.empty, Slot.empty, Slot.empty, Slot.empty, Slot.active (4, 7) 14653243776094754781, Slot.active (3, 5) 7586885779985432798, Slot.active (5, 2) 12608344299786097375, Slot.active (4, 4) 3883364387212965600, Slot.empty, Slot.empty, Slot.active (5, 5) 2283807709307846243, Slot.active (8, 4) 752199911689744484, Slot.empty, Slot.empty, Slot.active (8, 1) 8429064596517506919, Slot.active (5, 8) 6007657809554778599, Slot.empty, Slot.empty, Slot.active (0, 3) 13712454970273962987, Slot.active (2, 0) 4685526799349444076, Slot.empty, Slot.active (1, 4) 12112898292368843630, Slot.empty, Slot.active (2, 3) 8409376899596376432, Slot.empty, Slot.empty, Slot.empty, Slot.active (2, 6) 12133226999843308788, Slot.empty, Slot.active (7, 2) 5973048414285056246, Slot.active (6, 0) 12955077108900917751, Slot.active (6, 6) 13400419907304455800, Slot.empty, Slot.active (7, 5) 9696898514531988602, Slot.active (6, 3) 2630540518422666619, Slot.active (6, 9) 17124270007551388156, Slot.empty, Slot.active (7, 8) 13420748614778920958, Slot.empty], 54, 42⟩,
    [((0, 1), (0, 0)), ((1, 0), (0, 0)), ((1, 1), (0, 0)), ((0, 2), (0, 1)), ((1, 2), (0, 1)), ((0, 3), (0, 2)), ((1, 3), (1, 2)), ((2, 1), (1, 1)), ((2, 2), (1, 2)), ((2, 3), (1, 2)), ((2, 0), (1, 0)), ((3, 0), (2, 1)), ((3, 1), (2, 1)), ((3, 2), (2, 1)), ((4, 0), (3, 1)), ((4, 1), (3, 1)), ((4, 2), (3, 1)), ((5, 0), (4, 1)), ((5, 1), (4, 1)), ((5, 2), (4, 1)), ((6, 0), (5, 1)), ((6, 1), (5, 1)), ((6, 2), (5, 1)), ((7, 0), (6, 1)), ((7, 1), (6, 1)), ((7, 2), (6, 1)), ((3, 3), (2, 2)), ((4, 3), (3, 2)), ((3, 4), (2, 4)), ((4, 4), (4, 3)), ((5, 3), (4, 3)), ((5, 4), (4, 3)), ((4, 5), (3, 4)), ((5, 5), (5, 4)), ((6, 3), (6, 2)), ((6, 4), (5, 4)), ((6, 5), (5, 4)), ((7, 3), (6, 2)), ((7, 4), (6, 4)), ((7, 5), (6, 4)), ((0, 4), (1, 3)), ((1, 4), (1, 3)), ((2, 4), (1, 3)), ((1, 5), (2, 4)), ((2, 5), (2, 4)), ((3, 5), (2, 4)), ((1, 6), (2, 5)), ((2, 6), (2, 5)), ((3, 6), (2, 5)), ((8, 3), (7, 4)), ((8, 4), (7, 4)), ((8, 5), (7, 4)), ((8, 0), (7, 1)), ((8, 1), (7, 1)), ((8, 2), (7, 1)), ((5, 6), (4, 5)), ((6, 6), (6, 5)), ((7, 6), (6, 5)), ((4, 6), (4, 5)), ((3, 7), (4, 6)), ((4, 7), (4, 6)), ((5, 7), (4, 6)), ((4, 8), (5, 7)), ((5, 8), (5, 7)), ((6, 7), (5, 7)), ((6, 8), (5, 7)), ((5, 9), (6, 8)), ((6, 9), (6, 8)), ((7, 7), (6, 8)), ((7, 8), (6, 8)), ((7, 9), (6, 8))],
    [((0, 0), 0), ((0, 1), 1), ((1, 0), 1), ((1, 1), 2), ((0, 2), 2), ((1, 2), 3), ((0, 3), 3), ((1, 3), 4), ((2, 1), 3), ((2, 2), 4), ((2, 3), 5), ((2, 0), 2), ((3, 0), 5), ((3, 1), 4), ((3, 2), 5), ((4, 0), 6), ((4, 1), 5), ((4, 2), 6), ((5, 0), 7), ((5, 1), 6), ((5, 2), 7), ((6, 0), 8), ((6, 1), 7), ((6, 2), 8), ((7, 0), 9), ((7, 1), 8), ((7, 2), 9), ((3, 3), 6), ((4, 3), 7), ((3, 4), 7), ((4, 4), 8), ((5, 3), 8), ((5, 4), 9), ((4, 5), 9), ((5, 5), 10), ((6, 3), 9), ((6, 4), 10), ((6, 5), 11), ((7, 3), 10), ((7, 4), 11), ((7, 5), 12), ((0, 4), 6), ((1, 4), 5), ((2, 4), 6), ((1, 5), 8), ((2, 5), 7), ((3, 5), 8), ((1, 6), 9), ((2, 6), 8), ((3, 6), 9), ((8, 3), 13), ((8, 4), 12), ((8, 5), 13), ((8, 0), 10), ((8, 1), 9), ((8, 2), 10), ((5, 6), 11), ((6, 6), 12), ((7, 6), 13), ((4, 6), 10), ((3, 7), 12), ((4, 7), 11), ((5, 7), 12), ((4, 8), 14), ((5, 8), 13), ((6, 7), 13), ((6, 8), 14), ((5, 9), 16), ((6, 9), 15), ((7, 7), 16), ((7, 8), 15), ((7, 9), 16)],
    [((0, 0), 18), ((0, 1), 18), ((1, 0), 18), ((1, 1), 18), ((0, 2), 18), ((1, 2), 18), ((0, 3), 18), ((1, 3), 18), ((2, 1), 18), ((2, 2), 18), ((2, 3), 18), ((2, 0), 18), ((3, 0), 20), ((3, 1), 18), ((3, 2), 18), ((4, 0), 20), ((4, 1), 18), ((4, 2), 18), ((5, 0), 20), ((5, 1), 18), ((5, 2), 18), ((6, 0), 20), ((6, 1), 18), ((6, 2), 18), ((7, 0), 20), ((7, 1), 18), ((7, 2), 18), ((3, 3), 18), ((4, 3), 18), ((3, 4), 18), ((4, 4), 18), ((5, 3), 18), ((5, 4), 18), ((4, 5), 18), ((5, 5), 18), ((6, 3), 18), ((6, 4), 18), ((6, 5), 18), ((7, 3), 18), ((7, 4), 18), ((7, 5), 18), ((0, 4), 20), ((1, 4), 18), ((2, 4), 18), ((1, 5), 20), ((2, 5), 18), ((3, 5), 18), ((1, 6), 20), ((2, 6), 18), ((3, 6), 18), ((8, 3), 20), ((8, 4), 18), ((8, 5), 18), ((8, 0), 20), ((8, 1), 18), ((8, 2), 18), ((5, 6), 18), ((6, 6), 18), ((7, 6), 18), ((4, 6), 18), ((3, 7), 20), ((4, 7), 18), ((5, 7), 18), ((4, 8), 20), ((5, 8), 18), ((6, 7), 18), ((6, 8), 18), ((5, 9), 20), ((6, 9), 18), ((7, 7), 20), ((7, 8), 18), ((7, 9), 18)]⟩

/-- The search state after 35 iterations of the concrete 10-by-10 run. -/
def c2s35 : PyAState :=
  ⟨⟨[Slot.empty, Slot.empty, Slot.empty, Slot.active (4, 0) 12098617604573586435, Slot.empty, Slot.dummy, Slot.empty, Slot.empty, Slot.dummy, Slot.dummy, Slot.empty, Slot.dummy, Slot.empty, Slot.empty, Slot.active (8, 0) 1921423840415508494, Slot.dummy, Slot.empty, Slot.empty, Slot.active (8, 3) 10043631323646808978, Slot.empty, Slot.empty, Slot.empty, Slot.empty, Slot.empty, Slot.empty, Slot.active (1, 6) 13727465019498145689, Slot.empty, Slot.dummy, Slot.empty, Slot.empty, Slot.empty, Slot.active (2, 8) 13747793726972610847, Slot.empty, Slot.dummy, Slot.dummy, Slot.empty, Slot.dummy, Slot.active (7, 7) 6913107858676922533, Slot.dummy, Slot.empty, Slot.empty, Slot.empty, Slot.dummy, Slot.empty, Slot.empty, Slot.empty, Slot.dummy, Slot.active (3, 0) 2248468952609198383, Slot.empty, Slot.empty, Slot.dummy, Slot.dummy, Slot.active (5, 0) 15392134955641163444, Slot.dummy, Slot.dummy, Slot.active (3, 9) 6417661851259668788, Slot.active (5, 3) 669240982178544184, Slot.active (8, 2) 3535990567544810553, Slot.active (5, 9) 1114583780582082233, Slot.empty, Slot.empty, Slot.active (8, 5) 7259840667791742909, Slot.empty, Slot.empty, Slot.empty, Slot.empty, Slot.empty, Slot.empty, Slot.active (0, 4) 1773351652666409796, Slot.empty, Slot.active (2, 7) 7240152970870612422, Slot.active (1, 5) 173794974761290439, Slot.empty, Slot.empty, Slot.empty, Slot.active (7, 0) 4358481687155754187, Slot.empty, Slot.empty, Slot.empty, Slot.active (7, 3) 8082331787402686543, Slot.active (7, 9) 8527674585806224592, Slot.active (6, 7) 1461316589696902609, Slot.empty, Slot.active (7, 6) 16204539270633987027, Slot.empty, Slot.empty, Slot.empty, Slot.empty, Slot.empty, Slot.empty, Slot.empty, Slot.empty, Slot.empty, Slot.active (4, 7) 14653243776094754781, Slot.active (3, 5) 7586885779985432798, Slot.active (5, 2) 12608344299786097375, Slot.active (4, 4) 3883364387212965600, Slot.empty, Slot.active (3, 8) 11310735880232365154, Slot.active (5, 5) 2283807709307846243, Slot.active (8, 4) 752199911689744484, Slot.empty, Slot.empty, Slot.active (8, 1) 8429064596517506919, Slot.active (5, 8) 6007657809554778599, Slot.empty, Slot.empty, Slot.active (0, 3) 13712454970273962987, Slot.active (2, 0) 4685526799349444076, Slot.empty, Slot.active (1, 4) 12112898292368843630, Slot.empty, Slot.active (2, 3) 8409376899596376432, Slot.empty, Slot.empty, Slot.empty, Slot.active (2, 6) 12133226999843308788, Slot.empty, Slot.active (7, 2) 5973048414285056246, Slot.active (6, 0) 12955077108900917751, Slot.active (6, 6) 13400419907304455800, Slot.empty, Slot.active (7, 5) 9696898514531988602, Slot.active (6, 3) 2630540518422666619, Slot.active (6, 9) 17124270007551388156, Slot.empty, Slot.active (7, 8) 13420748614778920958, Slot.empty], 58, 42⟩,
    [((0, 1), (0, 0)), ((1, 0), (0, 0)), ((1, 1), (0, 0)), ((0, 2), (0, 1)), ((1, 2), (0, 1)), ((0, 3), (0, 2)), ((1, 3), (1, 2)), ((2, 1), (1, 1)), ((2, 2), (1, 2)), ((2, 3), (1, 2)), ((2, 0), (1, 0)), ((3, 0), (2, 1)), ((3, 1), (2, 1)), ((3, 2), (2, 1)), ((4, 0), (3, 1)), ((4, 1), (3, 1)), ((4, 2), (3, 1)), ((5, 0), (4, 1)), ((5, 1), (4, 1)), ((5, 2), (4, 1)), ((6, 0), (5, 1)), ((6, 1), (5, 1)), ((6, 2), (5, 1)), ((7, 0), (6, 1)), ((7, 1), (6, 1)), ((7, 2), (6, 1)), ((3, 3), (2, 2)), ((4, 3), (3, 2)), ((3, 4), (2, 4)), ((4, 4), (4, 3)), ((5, 3), (4, 3)), ((5, 4), (4, 3)), ((4, 5), (3, 4)), ((5, 5), (5, 4)), ((6, 3), (6, 2)), ((6, 4), (5, 4)), ((6, 5), (5, 4)), ((7, 3), (6, 2)), ((7, 4), (6, 4)), ((7, 5), (6, 4)), ((0, 4), (1, 3)), ((1, 4), (1, 3)), ((2, 4), (1, 3)), ((1, 5), (2, 4)), ((2, 5), (2, 4)), ((3, 5), (2, 4)), ((1, 6), (2, 5)), ((2, 6), (2, 5)), ((3, 6), (2, 5)), ((8, 3), (7, 4)), ((8, 4), (7, 4)), ((8, 5), (7, 4)), ((8, 0), (7, 1)), ((8, 1), (7, 1)), ((8, 2), (7, 1)), ((5, 6), (4, 5)), ((6, 6), (6, 5)), ((7, 6), (6, 5)), ((4, 6), (4, 5)), ((3, 7), (3, 6)), ((4, 7), (4, 6)), ((5, 7), (4, 6)), ((4, 8), (3, 7)), ((5, 8), (5, 7)), ((6, 7), (5, 7)), ((6, 8), (5, 7)), ((5, 9), (4, 8)), ((6, 9), (6, 8)), ((7, 7), (6, 8)), ((7, 8), (6, 8)), ((7, 9), (6, 8)), ((2, 7), (3, 6)), ((2, 8), (3, 7)), ((3, 8), (3, 7)), ((3, 9), (4, 8)), ((4, 9), (4, 8))],
    [((0, 0), 0), ((0, 1), 1), ((1, 0), 1), ((1, 1), 2), ((0, 2), 2), ((1, 2), 3), ((0, 3), 3), ((1, 3), 4), ((2, 1), 3), ((2, 2), 4), ((2, 3), 5), ((2, 0), 2), ((3, 0), 5), ((3, 1), 4), ((3, 2), 5), ((4, 0), 6), ((4, 1), 5), ((4, 2), 6), ((5, 0), 7), ((5, 1), 6), ((5, 2), 7), ((6, 0), 8), ((6, 1), 7), ((6, 2), 8), ((7, 0), 9), ((7, 1), 8), ((7, 2), 9), ((3, 3), 6), ((4, 3), 7), ((3, 4), 7), ((4, 4), 8), ((5, 3), 8), ((5, 4), 9), ((4, 5), 9), ((5, 5), 10), ((6, 3), 9), ((6, 4), 10), ((6, 5), 11), ((7, 3), 10), ((7, 4), 11), ((7, 5), 12), ((0, 4), 6), ((1, 4), 5), ((2, 4), 6), ((1, 5), 8), ((2, 5), 7), ((3, 5), 8), ((1, 6), 9), ((2, 6), 8), ((3, 6), 9), ((8, 3), 13), ((8, 4), 12), ((8, 5), 13), ((8, 0), 10), ((8, 1), 9), ((8, 2), 10), ((5, 6), 11), ((6, 6), 12), ((7, 6), 13), ((4, 6), 10), ((3, 7), 10), ((4, 7), 11), ((5, 7), 12), ((4, 8), 12), ((5, 8), 13), ((6, 7), 13), ((6, 8), 14), ((5, 9), 14), ((6, 9), 15), ((7, 7), 16), ((7, 8), 15), ((7, 9), 16), ((2, 7), 11), ((2, 8), 12), ((3, 8), 11), ((3, 9), 14), ((4, 9), 13)],
    [((0, 0), 18), ((0, 1), 18), ((1, 0), 18), ((1, 1), 18), ((0, 2), 18), ((1, 2), 18), ((0, 3), 18), ((1, 3), 18), ((2, 1), 18), ((2, 2), 18), ((2, 3), 18), ((2, 0), 18), ((3, 0), 20), ((3, 1), 18), ((3, 2), 18), ((4, 0), 20), ((4, 1), 18), ((4, 2), 18), ((5, 0), 20), ((5, 1), 18), ((5, 2), 18), ((6, 0), 20), ((6, 1), 18), ((6, 2), 18), ((7, 0), 20), ((7, 1), 18), ((7, 2), 18), ((3, 3), 18), ((4, 3), 18), ((3, 4), 18), ((4, 4), 18), ((5, 3), 18), ((5, 4), 18), ((4, 5), 18), ((5, 5), 18), ((6, 3), 18), ((6, 4), 18), ((6, 5), 18), ((7, 3), 18), ((7, 4), 18), ((7, 5), 18), ((0, 4), 20), ((1, 4), 18), ((2, 4), 18), ((1, 5), 20), ((2, 5), 18), ((3, 5), 18), ((1, 6), 20), ((2, 6), 18), ((3, 6), 18), ((8, 3), 20), ((8, 4), 18), ((8, 5), 18), ((8, 0), 20), ((8, 1), 18), ((8, 2), 18), ((5, 6), 18), ((6, 6), 18), ((7, 6), 18), ((4, 6), 18), ((3, 7), 18), ((4, 7), 18), ((5, 7), 18), ((4, 8), 18), ((5, 8), 18), ((6, 7), 18), ((6, 8), 18), ((5, 9), 18), ((6, 9), 18), ((7, 7), 20), ((7, 8), 18), ((7, 9), 18), ((2, 7), 20), ((2, 8), 20), ((3, 8), 18), ((3, 9), 20), ((4, 9), 18)]⟩

/-- The search state after 40 iterations of the concrete 10-by-10 run. -/
def c2s40 : PyAState :=
  ⟨⟨[Slot.empty, Slot.empty, Slot.empty, Slot.active (4, 0) 12098617604573586435, Slot.empty, Slot.dummy, Slot.empty, Slot.empty, Slot.dummy, Slot.dummy, Slot.empty, Slot.dummy, Slot.empty, Slot.dummy, Slot.active (8, 0) 1921423840415508494, Slot.dummy, Slot.empty, Slot.empty, Slot.dummy, Slot.empty, Slot.empty, Slot.empty, Slot.empty, Slot.empty, Slot.empty, Slot.active (1, 6) 13727465019498145689, Slot.empty, Slot.dummy, Slot.empty, Slot.empty, Slot.empty, Slot.active (2, 8) 13747793726972610847, Slot.empty, Slot.dummy, Slot.dummy, Slot.empty, Slot.dummy, Slot.active (7, 7) 6913107858676922533, Slot.dummy, Slot.empty, Slot.empty, Slot.empty, Slot.dummy, Slot.empty, Slot.empty, Slot.empty, Slot.dummy, Slot.active (3, 0) 2248468952609198383, Slot.empty, Slot.empty, Slot.dummy, Slot.dummy, Slot.active (5, 0) 15392134955641163444, Slot.dummy, Slot.dummy, Slot.active (3, 9) 6417661851259668788, Slot.dummy, Slot.dummy, Slot.dummy, Slot.active (9, 1) 18279213248481894971, Slot.empty, Slot.active (8, 5) 7259840667791742909, Slot.empty, Slot.active (9, 4) 3556319275019275711, Slot.empty, Slot.empty, Slot.empty, Slot.empty, Slot.active (0, 4) 1773351652666409796, Slot.empty, Slot.active (2, 7) 7240152970870612422, Slot.active (1, 5) 173794974761290439, Slot.empty, Slot.empty, Slot.empty, Slot.active (7, 0) 4358481687155754187, Slot.empty, Slot.empty, Slot.empty, Slot.active (7, 3) 8082331787402686543, Slot.active (7, 9) 8527674585806224592, Slot.active (6, 7) 1461316589696902609, Slot.empty, Slot.active (7, 6) 16204539270633987027, Slot.empty, Slot.empty, Slot.empty, Slot.empty, Slot.empty, Slot.empty, Slot.empty, Slot.empty, Slot.empty, Slot.active (4, 7) 14653243776094754781, Slot.active (3, 5) 7586885779985432798, Slot.active (5, 2) 12608344299786097375, Slot.active (4, 4) 3883364387212965600, Slot.empty, Slot.active (3, 8) 11310735880232365154, Slot.active (5, 5) 2283807709307846243, Slot.active (8, 4) 752199911689744484, Slot.empty, Slot.active (9, 3) 15495422592626828902, Slot.active (8, 1) 8429064596517506919, Slot.active (5, 8) 6007657809554778599, Slot.empty, Slot.empty, Slot.active (0, 3) 13712454970273962987, Slot.active (2, 0) 4685526799349444076, Slot.empty, Slot.active (1, 4) 12112898292368843630, Slot.empty, Slot.active (2, 3) 8409376899596376432, Slot.empty, Slot.empty, Slot.empty, Slot.active (2, 6) 12133226999843308788, Slot.empty, Slot.active (7, 2) 5973048414285056246, Slot.active (6, 0) 12955077108900917751, Slot.active (6, 6) 13400419907304455800, Slot.empty, Slot.active (7, 5) 9696898514531988602, Slot.active (6, 3) 2630540518422666619, Slot.active (6, 9) 17124270007551388156, Slot.empty, Slot.active (7, 8) 13420748614778920958, Slot.empty], 62, 41⟩,
    [((0, 1), (0, 0)), ((1, 0), (0, 0)), ((1, 1), (0, 0)), ((0, 2), (0, 1)), ((1, 2), (0, 1)), ((0, 3), (0, 2)), ((1, 3), (1, 2)), ((2, 1), (1, 1)), ((2, 2), (1, 2)), ((2, 3), (1, 2)), ((2, 0), (1, 0)), ((3, 0), (2, 1)), ((3, 1), (2, 1)), ((3, 2), (2, 1)), ((4, 0), (3, 1)), ((4, 1), (3, 1)), ((4, 2), (3, 1)), ((5, 0), (4, 1)), ((5, 1), (4, 1)), ((5, 2), (4, 1)), ((6, 0), (5, 1)), ((6, 1), (5, 1)), ((6, 2), (5, 1)), ((7, 0), (6, 1)), ((7, 1), (6, 1)), ((7, 2), (6, 1)), ((3, 3), (2, 2)), ((4, 3), (3, 2)), ((3, 4), (2, 4)), ((4, 4), (4, 3)), ((5, 3), (4, 3)), ((5, 4), (4, 3)), ((4, 5), (3, 4)), ((5, 5), (5, 4)), ((6, 3), (6, 2)), ((6, 4), (5, 4)), ((6, 5), (5, 4)), ((7, 3), (6, 2)), ((7, 4), (6, 4)), ((7, 5), (6, 4)), ((0, 4), (1, 3)), ((1, 4), (1, 3)), ((2, 4), (1, 3)), ((1, 5), (2, 4)), ((2, 5), (2, 4)), ((3, 5), (2, 4)), ((1, 6), (2, 5)), ((2, 6), (2, 5)), ((3, 6), (2, 5)), ((8, 3), (8, 2)), ((8, 4), (7, 4)), ((8, 5), (7, 4)), ((8, 0), (7, 1)), ((8, 1), (7, 1)), ((8, 2), (7, 1)), ((5, 6), (4, 5)), ((6, 6), (6, 5)), ((7, 6), (6, 5)), ((4, 6), (4, 5)), ((3, 7), (3, 6)), ((4, 7), (4, 6)), ((5, 7), (4, 6)), ((4, 8), (3, 7)), ((5, 8), (5, 7)), ((6, 7), (5, 7)), ((6, 8), (5, 7)), ((5, 9), (4, 8)), ((6, 9), (6, 8)), ((7, 7), (6, 8)), ((7, 8), (6, 8)), ((7, 9), (6, 8)), ((2, 7), (3, 6)), ((2, 8), (3, 7)), ((3, 8), (3, 7)), ((3, 9), (4, 8)), ((4, 9), (4, 8)), ((9, 1), (8, 2)), ((9, 2), (8, 2)), ((9, 3), (8, 2)), ((9, 4), (8, 3))],
    [((0, 0), 0), ((0, 1), 1), ((1, 0), 1), ((1, 1), 2), ((0, 2), 2), ((1, 2), 3), ((0, 3), 3), ((1, 3), 4), ((2, 1), 3), ((2, 2), 4), ((2, 3), 5), ((2, 0), 2), ((3, 0), 5), ((3, 1), 4), ((3, 2), 5), ((4, 0), 6), ((4, 1), 5), ((4, 2), 6), ((5, 0), 7), ((5, 1), 6), ((5, 2), 7), ((6, 0), 8), ((6, 1), 7), ((6, 2), 8), ((7, 0), 9), ((7, 1), 8), ((7, 2), 9), ((3, 3), 6), ((4, 3), 7), ((3, 4), 7), ((4, 4), 8), ((5, 3), 8), ((5, 4), 9), ((4, 5), 9), ((5, 5), 10), ((6, 3), 9), ((6, 4), 10), ((6, 5), 11), ((7, 3), 10), ((7, 4), 11), ((7, 5), 12), ((0, 4), 6), ((1, 4), 5), ((2, 4), 6), ((1, 5), 8), ((2, 5), 7), ((3, 5), 8), ((1, 6), 9), ((2, 6), 8), ((3, 6), 9), ((8, 3), 11), ((8, 4), 12), ((8, 5), 13), ((8, 0), 10), ((8, 1), 9), ((8, 2), 10), ((5, 6), 11), ((6, 6), 12), ((7, 6), 13), ((4, 6), 10), ((3, 7), 10), ((4, 7), 11), ((5, 7), 12), ((4, 8), 12), ((5, 8), 13), ((6, 7), 13), ((6, 8), 14), ((5, 9), 14), ((6, 9), 15), ((7, 7), 16), ((7, 8), 15), ((7, 9), 16), ((2, 7), 11), ((2, 8), 12), ((3, 8), 11), ((3, 9), 14), ((4, 9), 13), ((9, 1), 12), ((9, 2), 11), ((9, 3), 12), ((9, 4), 13)],
    [((0, 0), 18), ((0, 1), 18), ((1, 0), 18), ((1, 1), 18), ((0, 2), 18), ((1, 2), 18), ((0, 3), 18), ((1, 3), 18), ((2, 1), 18), ((2, 2), 18), ((2, 3), 18), ((2, 0), 18), ((3, 0), 20), ((3, 1), 18), ((3, 2), 18), ((4, 0), 20), ((4, 1), 18), ((4, 2), 18), ((5, 0), 20), ((5, 1), 18), ((5, 2), 18), ((6, 0), 20), ((6, 1), 18), ((6, 2), 18), ((7, 0), 20), ((7, 1), 18), ((7, 2), 18), ((3, 3), 18), ((4, 3), 18), ((3, 4), 18), ((4, 4), 18), ((5, 3), 18), ((5, 4), 18), ((4, 5), 18), ((5, 5), 18), ((6, 3), 18), ((6, 4), 18), ((6, 5), 18), ((7, 3), 18), ((7, 4), 18), ((7, 5), 18), ((0, 4), 20), ((1, 4), 18), ((2, 4), 18), ((1, 5), 20), ((2, 5), 18), ((3, 5), 18), ((1, 6), 20), ((2, 6), 18), ((3, 6), 18), ((8, 3), 18), ((8, 4), 18), ((8, 5), 18), ((8, 0), 20), ((8, 1), 18), ((8, 2), 18), ((5, 6), 18), ((6, 6), 18), ((7, 6), 18), ((4, 6), 18), ((3, 7), 18), ((4, 7), 18), ((5, 7), 18), ((4, 8), 18), ((5, 8), 18), ((6, 7), 18), ((6, 8), 18), ((5, 9), 18), ((6, 9), 18), ((7, 7), 20), ((7, 8), 18), ((7, 9), 18), ((2, 7), 20), ((2, 8), 20), ((3, 8), 18), ((3, 9), 20), ((4, 9), 18), ((9, 1), 20), ((9, 2), 18), ((9, 3), 18), ((9, 4), 18)]⟩

/-- The search state after 45 iterations of the concrete 10-by-10 run. -/
def c2s45 : PyAState :=
  ⟨⟨[Slot.empty, Slot.empty, Slot.empty, Slot.active (4, 0) 12098617604573586435, Slot.empty, Slot.dummy, Slot.empty, Slot.empty, Slot.dummy, Slot.dummy, Slot.empty, Slot.dummy, Slot.empty, Slot.dummy, Slot.active (8, 0) 1921423840415508494, Slot.dummy, Slot.empty, Slot.dummy, Slot.dummy, Slot.active (8, 9) 6090616739065978899, Slot.empty, Slot.dummy, Slot.dummy, Slot.empty, Slot.empty, Slot.active (1, 6) 13727465019498145689, Slot.empty, Slot.dummy, Slot.empty, Slot.empty, Slot.empty, Slot.active (2, 8) 13747793726972610847, Slot.empty, Slot.dummy, Slot.dummy, Slot.empty, Slot.dummy, Slot.active (7, 7) 6913107858676922533, Slot.dummy, Slot.empty, Slot.empty, Slot.empty, Slot.dummy, Slot.empty, Slot.empty, Slot.empty, Slot.dummy, Slot.active (3, 0) 2248468952609198383, Slot.empty, Slot.empty, Slot.dummy, Slot.dummy, Slot.active (5, 0) 15392134955641163444, Slot.dummy, Slot.dummy, Slot.active (3, 9) 6417661851259668788, Slot.dummy, Slot.dummy, Slot.dummy, Slot.active (9, 1) 18279213248481894971, Slot.dummy, Slot.dummy, Slot.empty, Slot.active (9, 4) 3556319275019275711, Slot.empty, Slot.active (8, 8) 10983690768038675265, Slot.empty, Slot.empty, Slot.active (0, 4) 1773351652666409796, Slot.empty, Slot.active (2, 7) 7240152970870612422, Slot.active (1, 5) 173794974761290439, Slot.empty, Slot.empty, Slot.empty, Slot.active (7, 0) 4358481687155754187, Slot.empty, Slot.empty, Slot.empty, Slot.active (7, 3) 8082331787402686543, Slot.active (7, 9) 8527674585806224592, Slot.active (6, 7) 1461316589696902609, Slot.empty, Slot.active (7, 6) 16204539270633987027, Slot.empty, Slot.empty, Slot.empty, Slot.empty, Slot.empty, Slot.empty, Slot.empty, Slot.empty, Slot.empty, Slot.active (4, 7) 14653243776094754781, Slot.active (3, 5) 7586885779985432798, Slot.active (5, 2) 12608344299786097375, Slot.active (4, 4) 3883364387212965600, Slot.empty, Slot.active (3, 8) 11310735880232365154, Slot.active (5, 5) 2283807709307846243, Slot.active (8, 4) 752199911689744484, Slot.empty, Slot.active (9, 3) 15495422592626828902, Slot.active (8, 1) 8429064596517506919, Slot.active (5, 8) 6007657809554778599, Slot.active (8, 7) 8874407394921044968, Slot.active (9, 6) 5170886002148577770, Slot.active (0, 3) 13712454970273962987, Slot.active (2, 0) 4685526799349444076, Slot.active (9, 9) 15940765391030366951, Slot.active (1, 4) 12112898292368843630, Slot.empty, Slot.active (2, 3) 8409376899596376432, Slot.empty, Slot.empty, Slot.empty, Slot.active (2, 6) 12133226999843308788, Slot.empty, Slot.active (7, 2) 5973048414285056246, Slot.active (6, 0) 12955077108900917751, Slot.active (6, 6) 13400419907304455800, Slot.empty, Slot.active (7, 5) 9696898514531988602, Slot.active (6, 3) 2630540518422666619, Slot.active (6, 9) 17124270007551388156, Slot.empty, Slot.active (7, 8) 13420748614778920958, Slot.empty], 71, 45⟩,
    [((0, 1), (0, 0)), ((1, 0), (0, 0)), ((1, 1), (0, 0)), ((0, 2), (0, 1)), ((1, 2), (0, 1)), ((0, 3), (0, 2)), ((1, 3), (1, 2)), ((2, 1), (1, 1)), ((2, 2), (1, 2)), ((2, 3), (1, 2)), ((2, 0), (1, 0)), ((3, 0), (2, 1)), ((3, 1), (2, 1)), ((3, 2), (2, 1)), ((4, 0), (3, 1)), ((4, 1), (3, 1)), ((4, 2), (3, 1)), ((5, 0), (4, 1)), ((5, 1), (4, 1)), ((5, 2), (4, 1)), ((6, 0), (5, 1)), ((6, 1), (5, 1)), ((6, 2), (5, 1)), ((7, 0), (6, 1)), ((7, 1), (6, 1)), ((7, 2), (6, 1)), ((3, 3), (2, 2)), ((4, 3), (3, 2)), ((3, 4), (2, 4)), ((4, 4), (4, 3)), ((5, 3), (4, 3)), ((5, 4), (4, 3)), ((4, 5), (3, 4)), ((5, 5), (5, 4)), ((6, 3), (6, 2)), ((6, 4), (5, 4)), ((6, 5), (5, 4)), ((7, 3), (6, 2)), ((7, 4), (6, 4)), ((7, 5), (6, 4)), ((0, 4), (1, 3)), ((1, 4), (1, 3)), ((2, 4), (1, 3)), ((1, 5), (2, 4)), ((2, 5), (2, 4)), ((3, 5), (2, 4)), ((1, 6), (2, 5)), ((2, 6), (2, 5)), ((3, 6), (2, 5)), ((8, 3), (8, 2)), ((8, 4), (7, 4)), ((8, 5), (7, 4)), ((8, 0), (7, 1)), ((8, 1), (7, 1)), ((8, 2), (7, 1)), ((5, 6), (4, 5)), ((6, 6), (6, 5)), ((7, 6), (6, 5)), ((4, 6), (4, 5)), ((3, 7), (3, 6)), ((4, 7), (4, 6)), ((5, 7), (4, 6)), ((4, 8), (3, 7)), ((5, 8), (5, 7)), ((6, 7), (5, 7)), ((6, 8), (5, 7)), ((5, 9), (4, 8)), ((6, 9), (6, 8)), ((7, 7), (6, 8)), ((7, 8), (6, 8)), ((7, 9), (6, 8)), ((2, 7), (3, 6)), ((2, 8), (3, 7)), ((3, 8), (3, 7)), ((3, 9), (4, 8)), ((4, 9), (4, 8)), ((9, 1), (8, 2)), ((9, 2), (8, 2)), ((9, 3), (8, 2)), ((9, 4), (8, 3)), ((8, 6), (8, 5)), ((9, 5), (8, 5)), ((9, 6), (8, 5)), ((8, 7), (8, 6)), ((9, 7), (8, 6)), ((8, 8), (9, 7)), ((9, 8), (9, 7)), ((8, 9), (9, 8)), ((9, 9), (9, 8))],
    [((0, 0), 0), ((0, 1), 1), ((1, 0), 1), ((1, 1), 2), ((0, 2), 2), ((1, 2), 3), ((0, 3), 3), ((1, 3), 4), ((2, 1), 3), ((2, 2), 4), ((2, 3), 5), ((2, 0), 2), ((3, 0), 5), ((3, 1), 4), ((3, 2), 5), ((4, 0), 6), ((4, 1), 5), ((4, 2), 6), ((5, 0), 7), ((5, 1), 6), ((5, 2), 7), ((6, 0), 8), ((6, 1), 7), ((6, 2), 8), ((7, 0), 9), ((7, 1), 8), ((7, 2), 9), ((3, 3), 6), ((4, 3), 7), ((3, 4), 7), ((4, 4), 8), ((5, 3), 8), ((5, 4), 9), ((4, 5), 9), ((5, 5), 10), ((6, 3), 9), ((6, 4), 10), ((6, 5), 11), ((7, 3), 10), ((7, 4), 11), ((7, 5), 12), ((0, 4), 6), ((1, 4), 5), ((2, 4), 6), ((1, 5), 8), ((2, 5), 7), ((3, 5), 8), ((1, 6), 9), ((2, 6), 8), ((3, 6), 9), ((8, 3), 11), ((8, 4), 12), ((8, 5), 13), ((8, 0), 10), ((8, 1), 9), ((8, 2), 10), ((5, 6), 11), ((6, 6), 12), ((7, 6), 13), ((4, 6), 10), ((3, 7), 10), ((4, 7), 11), ((5, 7), 12), ((4, 8), 12), ((5, 8), 13), ((6, 7), 13), ((6, 8), 14), ((5, 9), 14), ((6, 9), 15), ((7, 7), 16), ((7, 8), 15), ((7, 9), 16), ((2, 7), 11), ((2, 8), 12), ((3, 8), 11), ((3, 9), 14), ((4, 9), 13), ((9, 1), 12), ((9, 2), 11), ((9, 3), 12), ((9, 4), 13), ((8, 6), 14), ((9, 5), 14), ((9, 6), 15), ((8, 7), 15), ((9, 7), 16), ((8, 8), 18), ((9, 8), 17), ((8, 9), 19), ((9, 9), 18)],
    [((0, 0), 18), ((0, 1), 18), ((1, 0), 18), ((1, 1), 18), ((0, 2), 18), ((1, 2), 18), ((0, 3), 18), ((1, 3), 18), ((2, 1), 18), ((2, 2), 18), ((2, 3), 18), ((2, 0), 18), ((3, 0), 20), ((3, 1), 18), ((3, 2), 18), ((4, 0), 20), ((4, 1), 18), ((4, 2), 18), ((5, 0), 20), ((5, 1), 18), ((5, 2), 18), ((6, 0), 20), ((6, 1), 18), ((6, 2), 18), ((7, 0), 20), ((7, 1), 18), ((7, 2), 18), ((3, 3), 18), ((4, 3), 18), ((3, 4), 18), ((4, 4), 18), ((5, 3), 18), ((5, 4), 18), ((4, 5), 18), ((5, 5), 18), ((6, 3), 18), ((6, 4), 18), ((6, 5), 18), ((7, 3), 18), ((7, 4), 18), ((7, 5), 18), ((0, 4), 20), ((1, 4), 18), ((2, 4), 18), ((1, 5), 20), ((2, 5), 18), ((3, 5), 18), ((1, 6), 20), ((2, 6), 18), ((3, 6), 18), ((8, 3), 18), ((8, 4), 18), ((8, 5), 18), ((8, 0), 20), ((8, 1), 18), ((8, 2), 18), ((5, 6), 18), ((6, 6), 18), ((7, 6), 18), ((4, 6), 18), ((3, 7), 18), ((4, 7), 18), ((5, 7), 18), ((4, 8), 18), ((5, 8), 18), ((6, 7), 18), ((6, 8), 18), ((5, 9), 18), ((6, 9), 18), ((7, 7), 20), ((7, 8), 18), ((7, 9), 18), ((2, 7), 20), ((2, 8), 20), ((3, 8), 18), ((3, 9), 20), ((4, 9), 18), ((9, 1), 20), ((9, 2), 18), ((9, 3), 18), ((9, 4), 18), ((8, 6), 18), ((9, 5), 18), ((9, 6), 18), ((8, 7), 18), ((9, 7), 18), ((8, 8), 20), ((9, 8), 18), ((8, 9), 20), ((9, 9), 18)]⟩

/-- The search state after 50 iterations of the concrete 10-by-10 run. -/
def c2s50 : PyAState :=
  ⟨⟨[Slot.empty, Slot.empty, Slot.empty, Slot.active (4, 0) 12098617604573586435, Slot.empty, Slot.dummy, Slot.empty, Slot.empty, Slot.dummy, Slot.dummy, Slot.empty, Slot.dummy, Slot.empty, Slot.dummy, Slot.active (8, 0) 1921423840415508494, Slot.dummy, Slot.empty, Slot.dummy, Slot.dummy, Slot.dummy, Slot.empty, Slot.dummy, Slot.dummy, Slot.empty, Slot.empty, Slot.active (1, 6) 13727465019498145689, Slot.empty, Slot.dummy, Slot.empty, Slot.empty, Slot.empty, Slot.active (2, 8) 13747793726972610847, Slot.empty, Slot.dummy, Slot.dummy, Slot.empty, Slot.dummy, Slot.active (7, 7) 6913107858676922533, Slot.dummy, Slot.empty, Slot.empty, Slot.empty, Slot.dummy, Slot.empty, Slot.empty, Slot.empty, Slot.dummy, Slot.active (3, 0) 2248468952609198383, Slot.empty, Slot.empty, Slot.dummy, Slot.dummy, Slot.active (5, 0) 15392134955641163444, Slot.dummy, Slot.dummy, Slot.active (3, 9) 6417661851259668788, Slot.dummy, Slot.dummy, Slot.dummy, Slot.active (9, 1) 18279213248481894971, Slot.dummy, Slot.dummy, Slot.empty, Slot.dummy, Slot.empty, Slot.active (8, 8) 10983690768038675265, Slot.empty, Slot.empty, Slot.active (0, 4) 1773351652666409796, Slot.empty, Slot.active (2, 7) 7240152970870612422, Slot.active (1, 5) 173794974761290439, Slot.empty, Slot.empty, Slot.empty, Slot.active (7, 0) 4358481687155754187, Slot.empty, Slot.empty, Slot.empty, Slot.dummy, Slot.dummy, Slot.dummy, Slot.empty, Slot.active (7, 6) 16204539270633987027, Slot.empty, Slot.empty, Slot.empty, Slot.empty, Slot.empty, Slot.empty, Slot.empty, Slot.empty, Slot.empty, Slot.active (4, 7) 14653243776094754781, Slot.active (3, 5) 7586885779985432798, Slot.active (5, 2) 12608344299786097375, Slot.active (4, 4) 3883364387212965600, Slot.empty, Slot.active (3, 8) 11310735880232365154, Slot.active (5, 5) 2283807709307846243, Slot.active (8, 4) 752199911689744484, Slot.empty, Slot.active (9, 3) 15495422592626828902, Slot.active (8, 1) 8429064596517506919, Slot.active (5, 8) 6007657809554778599, Slot.active (8, 7) 8874407394921044968, Slot.active (9, 6) 5170886002148577770, Slot.active (0, 3) 13712454970273962987, Slot.active (2, 0) 4685526799349444076, Slot.active (9, 9) 15940765391030366951, Slot.active (1, 4) 12112898292368843630, Slot.empty, Slot.active (2, 3) 8409376899596376432, Slot.empty, Slot.empty, Slot.empty, Slot.active (2, 6) 12133226999843308788, Slot.empty, Slot.active (7, 2) 5973048414285056246, Slot.active (6, 0) 12955077108900917751, Slot.active (6, 6) 13400419907304455800, Slot.empty, Slot.active (7, 5) 9696898514531988602, Slot.active (6, 3) 2630540518422666619, Slot.active (6, 9) 17124270007551388156, Slot.empty, Slot.active (7, 8) 13420748614778920958, Slot.empty], 71, 40⟩,
    [((0, 1), (0, 0)), ((1, 0), (0, 0)), ((1, 1), (0, 0)), ((0, 2), (0, 1)), ((1, 2), (0, 1)), ((0, 3), (0, 2)), ((1, 3), (1, 2)), ((2, 1), (1, 1)), ((2, 2), (1, 2)), ((2, 3), (1, 2)), ((2, 0), (1, 0)), ((3, 0), (2, 1)), ((3, 1), (2, 1)), ((3, 2), (2, 1)), ((4, 0), (3, 1)), ((4, 1), (3, 1)), ((4, 2), (3, 1)), ((5, 0), (4, 1)), ((5, 1), (4, 1)), ((5, 2), (4, 1)), ((6, 0), (5, 1)), ((6, 1), (5, 1)), ((6, 2), (5, 1)), ((7, 0), (6, 1)), ((7, 1), (6, 1)), ((7, 2), (6, 1)), ((3, 3), (2, 2)), ((4, 3), (3, 2)), ((3, 4), (2, 4)), ((4, 4), (4, 3)), ((5, 3), (4, 3)), ((5, 4), (4, 3)), ((4, 5), (3, 4)), ((5, 5), (5, 4)), ((6, 3), (6, 2)), ((6, 4), (5, 4)), ((6, 5), (5, 4)), ((7, 3), (6, 2)), ((7, 4), (6, 4)), ((7, 5), (6, 4)), ((0, 4), (1, 3)), ((1, 4), (1, 3)), ((2, 4), (1, 3)), ((1, 5), (2, 4)), ((2, 5), (2, 4)), ((3, 5), (2, 4)), ((1, 6), (2, 5)), ((2, 6), (2, 5)), ((3, 6), (2, 5)), ((8, 3), (8, 2)), ((8, 4), (7, 4)), ((8, 5), (7, 4)), ((8, 0), (7, 1)), ((8, 1), (7, 1)), ((8, 2), (7, 1)), ((5, 6), (4, 5)), ((6, 6), (6, 5)), ((7, 6), (6, 5)), ((4, 6), (4, 5)), ((3, 7), (3, 6)), ((4, 7), (4, 6)), ((5, 7), (4, 6)), ((4, 8), (3, 7)), ((5, 8), (5, 7)), ((6, 7), (5, 7)), ((6, 8), (5, 7)), ((5, 9), (4, 8)), ((6, 9), (6, 8)), ((7, 7), (6, 7)), ((7, 8), (6, 8)), ((7, 9), (6, 8)), ((2, 7), (3, 6)), ((2, 8), (3, 7)), ((3, 8), (3, 7)), ((3, 9), (4, 8)), ((4, 9), (4, 8)), ((9, 1), (8, 2)), ((9, 2), (8, 2)), ((9, 3), (8, 2)), ((9, 4), (8, 3)), ((8, 6), (8, 5)), ((9, 5), (8, 5)), ((9, 6), (8, 5)), ((8, 7), (8, 6)), ((9, 7), (8, 6)), ((8, 8), (9, 7)), ((9, 8), (9, 7)), ((8, 9), (7, 9)), ((9, 9), (9, 8))],
    [((0, 0), 0), ((0, 1), 1), ((1, 0), 1), ((1, 1), 2), ((0, 2), 2), ((1, 2), 3), ((0, 3), 3), ((1, 3), 4), ((2, 1), 3), ((2, 2), 4), ((2, 3), 5), ((2, 0), 2), ((3, 0), 5), ((3, 1), 4), ((3, 2), 5), ((4, 0), 6), ((4, 1), 5), ((4, 2), 6), ((5, 0), 7), ((5, 1), 6), ((5, 2), 7), ((6, 0), 8), ((6, 1), 7), ((6, 2), 8), ((7, 0), 9), ((7, 1), 8), ((7, 2), 9), ((3, 3), 6), ((4, 3), 7), ((3, 4), 7), ((4, 4), 8), ((5, 3), 8), ((5, 4), 9), ((4, 5), 9), ((5, 5), 10), ((6, 3), 9), ((6, 4), 10), ((6, 5), 11), ((7, 3), 10), ((7, 4), 11), ((7, 5), 12), ((0, 4), 6), ((1, 4), 5), ((2, 4), 6), ((1, 5), 8), ((2, 5), 7), ((3, 5), 8), ((1, 6), 9), ((2, 6), 8), ((3, 6), 9), ((8, 3), 11), ((8, 4), 12), ((8, 5), 13), ((8, 0), 10), ((8, 1), 9), ((8, 2), 10), ((5, 6), 11), ((6, 6), 12), ((7, 6), 13), ((4, 6), 10), ((3, 7), 10), ((4, 7), 11), ((5, 7), 12), ((4, 8), 12), ((5, 8), 13), ((6, 7), 13), ((6, 8), 14), ((5, 9), 14), ((6, 9), 15), ((7, 7), 14), ((7, 8), 15), ((7, 9), 16), ((2, 7), 11), ((2, 8), 12), ((3, 8), 11), ((3, 9), 14), ((4, 9), 13), ((9, 1), 12), ((9, 2), 11), ((9, 3), 12), ((9, 4), 13), ((8, 6), 14), ((9, 5), 14), ((9, 6), 15), ((8, 7), 15), ((9, 7), 16), ((8, 8), 18), ((9, 8), 17), ((8, 9), 17), ((9, 9), 18)],
    [((0, 0), 18), ((0, 1), 18), ((1, 0), 18), ((1, 1), 18), ((0, 2), 18), ((1, 2), 18), ((0, 3), 18), ((1, 3), 18), ((2, 1), 18), ((2, 2), 18), ((2, 3), 18), ((2, 0), 18), ((3, 0), 20), ((3, 1), 18), ((3, 2), 18), ((4, 0), 20), ((4, 1), 18), ((4, 2), 18), ((5, 0), 20), ((5, 1), 18), ((5, 2), 18), ((6, 0), 20), ((6, 1), 18), ((6, 2), 18), ((7, 0), 20), ((7, 1), 18), ((7, 2), 18), ((3, 3), 18), ((4, 3), 18), ((3, 4), 18), ((4, 4), 18), ((5, 3), 18), ((5, 4), 18), ((4, 5), 18), ((5, 5), 18), ((6, 3), 18), ((6, 4), 18), ((6, 5), 18), ((7, 3), 18), ((7, 4), 18), ((7, 5), 18), ((0, 4), 20), ((1, 4), 18), ((2, 4), 18), ((1, 5), 20), ((2, 5), 18), ((3, 5), 18), ((1, 6), 20), ((2, 6), 18), ((3, 6), 18), ((8, 3), 18), ((8, 4), 18), ((8, 5), 18), ((8, 0), 20), ((8, 1), 18), ((8, 2), 18), ((5, 6), 18), ((6, 6), 18), ((7, 6), 18), ((4, 6), 18), ((3, 7), 18), ((4, 7), 18), ((5, 7), 18), ((4, 8), 18), ((5, 8), 18), ((6, 7), 18), ((6, 8), 18), ((5, 9), 18), ((6, 9), 18), ((7, 7), 18), ((7, 8), 18), ((7, 9), 18), ((2, 7), 20), ((2, 8), 20), ((3, 8), 18), ((3, 9), 20), ((4, 9), 18), ((9, 1), 20), ((9, 2), 18), ((9, 3), 18), ((9, 4), 18), ((8, 6), 18), ((9, 5), 18), ((9, 6), 18), ((8, 7), 18), ((9, 7), 18), ((8, 8), 20), ((9, 8), 18), ((8, 9), 18), ((9, 9), 18)]⟩

/-- The search state after 55 iterations of the concrete 10-by-10 run. -/
def c2s55 : PyAState :=
  ⟨⟨[Slot.empty, Slot.empty, Slot.empty, Slot.active (4, 0) 12098617604573586435, Slot.empty, Slot.dummy, Slot.empty, Slot.empty, Slot.dummy, Slot.dummy, Slot.empty, Slot.dummy, Slot.empty, Slot.dummy, Slot.active (8, 0) 1921423840415508494, Slot.dummy, Slot.empty, Slot.dummy, Slot.dummy, Slot.dummy, Slot.empty, Slot.dummy, Slot.dummy, Slot.empty, Slot.empty, Slot.active (1, 6) 13727465019498145689, Slot.empty, Slot.dummy, Slot.empty, Slot.empty, Slot.empty, Slot.active (2, 8) 13747793726972610847, Slot.empty, Slot.dummy, Slot.dummy, Slot.empty, Slot.dummy, Slot.dummy, Slot.dummy, Slot.empty, Slot.empty, Slot.empty, Slot.dummy, Slot.empty, Slot.empty, Slot.empty, Slot.dummy, Slot.active (3, 0) 2248468952609198383, Slot.empty, Slot.empty, Slot.dummy, Slot.dummy, Slot.active (5, 0) 15392134955641163444, Slot.dummy, Slot.dummy, Slot.active (3, 9) 6417661851259668788, Slot.dummy, Slot.dummy, Slot.dummy, Slot.active (9, 1) 18279213248481894971, Slot.dummy, Slot.dummy, Slot.empty, Slot.dummy, Slot.empty, Slot.dummy, Slot.empty, Slot.empty, Slot.active (0, 4) 1773351652666409796, Slot.empty, Slot.active (2, 7) 7240152970870612422, Slot.active (1, 5) 173794974761290439, Slot.empty, Slot.empty, Slot.empty, Slot.active (7, 0) 4358481687155754187, Slot.empty, Slot.empty, Slot.empty, Slot.dummy, Slot.dummy, Slot.dummy, Slot.empty, Slot.dummy, Slot.empty, Slot.empty, Slot.empty, Slot.empty, Slot.empty, Slot.empty, Slot.empty, Slot.empty, Slot.empty, Slot.dummy, Slot.dummy, Slot.active (5, 2) 12608344299786097375, Slot.active (4, 4) 3883364387212965600, Slot.empty, Slot.active (3, 8) 11310735880232365154, Slot.active (5, 5) 2283807709307846243, Slot.active (8, 4) 752199911689744484, Slot.empty, Slot.active (9, 3) 15495422592626828902, Slot.active (8, 1) 8429064596517506919, Slot.active (5, 8) 6007657809554778599, Slot.active (8, 7) 8874407394921044968, Slot.active (9, 6) 5170886002148577770, Slot.active (0, 3) 13712454970273962987, Slot.active (2, 0) 4685526799349444076, Slot.active (9, 9) 15940765391030366951, Slot.active (1, 4) 12112898292368843630, Slot.empty, Slot.active (2, 3) 8409376899596376432, Slot.empty, Slot.empty, Slot.empty, Slot.active (2, 6) 12133226999843308788, Slot.empty, Slot.active (7, 2) 5973048414285056246, Slot.active (6, 0) 12955077108900917751, Slot.active (6, 6) 13400419907304455800, Slot.empty, Slot.active (7, 5) 9696898514531988602, Slot.active (6, 3) 2630540518422666619, Slot.active (6, 9) 17124270007551388156, Slot.empty, Slot.active (7, 8) 13420748614778920958, Slot.empty], 71, 35⟩,
    [((0, 1), (0, 0)), ((1, 0), (0, 0)), ((1, 1), (0, 0)), ((0, 2), (0, 1)), ((1, 2), (0, 1)), ((0, 3), (0, 2)), ((1, 3), (1, 2)), ((2, 1), (1, 1)), ((2, 2), (1, 2)), ((2, 3), (1, 2)), ((2, 0), (1, 0)), ((3, 0), (2, 1)), ((3, 1), (2, 1)), ((3, 2), (2, 1)), ((4, 0), (3, 1)), ((4, 1), (3, 1)), ((4, 2), (3, 1)), ((5, 0), (4, 1)), ((5, 1), (4, 1)), ((5, 2), (4, 1)), ((6, 0), (5, 1)), ((6, 1), (5, 1)), ((6, 2), (5, 1)), ((7, 0), (6, 1)), ((7, 1), (6, 1)), ((7, 2), (6, 1)), ((3, 3), (2, 2)), ((4, 3), (3, 2)), ((3, 4), (2, 4)), ((4, 4), (4, 3)), ((5, 3), (4, 3)), ((5, 4), (4, 3)), ((4, 5), (3, 4)), ((5, 5), (5, 4)), ((6, 3), (6, 2)), ((6, 4), (5, 4)), ((6, 5), (5, 4)), ((7, 3), (6, 2)), ((7, 4), (6, 4)), ((7, 5), (6, 4)), ((0, 4), (1, 3)), ((1, 4), (1, 3)), ((2, 4), (1, 3)), ((1, 5), (2, 4)), ((2, 5), (2, 4)), ((3, 5), (2, 4)), ((1, 6), (2, 5)), ((2, 6), (2, 5)), ((3, 6), (2, 5)), ((8, 3), (8, 2)), ((8, 4), (7, 4)), ((8, 5), (7, 4)), ((8, 0), (7, 1)), ((8, 1), (7, 1)), ((8, 2), (7, 1)), ((5, 6), (4, 5)), ((6, 6), (6, 5)), ((7, 6), (6, 5)), ((4, 6), (4, 5)), ((3, 7), (3, 6)), ((4, 7), (4, 6)), ((5, 7), (4, 6)), ((4, 8), (3, 7)), ((5, 8), (5, 7)), ((6, 7), (5, 7)), ((6, 8), (5, 7)), ((5, 9), (4, 8)), ((6, 9), (6, 8)), ((7, 7), (6, 7)), ((7, 8), (6, 8)), ((7, 9), (6, 8)), ((2, 7), (3, 6)), ((2, 8), (3, 7)), ((3, 8), (3, 7)), ((3, 9), (4, 8)), ((4, 9), (4, 8)), ((9, 1), (8, 2)), ((9, 2), (8, 2)), ((9, 3), (8, 2)), ((9, 4), (8, 3)), ((8, 6), (8, 5)), ((9, 5), (8, 5)), ((9, 6), (8, 5)), ((8, 7), (8, 6)), ((9, 7), (8, 6)), ((8, 8), (7, 7)), ((9, 8), (9, 7)), ((8, 9), (7, 9)), ((9, 9), (9, 8))],
    [((0, 0), 0), ((0, 1), 1), ((1, 0), 1), ((1, 1), 2), ((0, 2), 2), ((1, 2), 3), ((0, 3), 3), ((1, 3), 4), ((2, 1), 3), ((2, 2), 4), ((2, 3), 5), ((2, 0), 2), ((3, 0), 5), ((3, 1), 4), ((3, 2), 5), ((4, 0), 6), ((4, 1), 5), ((4, 2), 6), ((5, 0), 7), ((5, 1), 6), ((5, 2), 7), ((6, 0), 8), ((6, 1), 7), ((6, 2), 8), ((7, 0), 9), ((7, 1), 8), ((7, 2), 9), ((3, 3), 6), ((4, 3), 7), ((3, 4), 7), ((4, 4), 8), ((5, 3), 8), ((5, 4), 9), ((4, 5), 9), ((5, 5), 10), ((6, 3), 9), ((6, 4), 10), ((6, 5), 11), ((7, 3), 10), ((7, 4), 11), ((7, 5), 12), ((0, 4), 6), ((1, 4), 5), ((2, 4), 6), ((1, 5), 8), ((2, 5), 7), ((3, 5), 8), ((1, 6), 9), ((2, 6), 8), ((3, 6), 9), ((8, 3), 11), ((8, 4), 12), ((8, 5), 13), ((8, 0), 10), ((8, 1), 9), ((8, 2), 10), ((5, 6), 11), ((6, 6), 12), ((7, 6), 13), ((4, 6), 10), ((3, 7), 10), ((4, 7), 11), ((5, 7), 12), ((4, 8), 12), ((5, 8), 13), ((6, 7), 13), ((6, 8), 14), ((5, 9), 14), ((6, 9), 15), ((7, 7), 14), ((7, 8), 15), ((7, 9), 16), ((2, 7), 11), ((2, 8), 12), ((3, 8), 11), ((3, 9), 14), ((4, 9), 13), ((9, 1), 12), ((9, 2), 11), ((9, 3), 12), ((9, 4), 13), ((8, 6), 14), ((9, 5), 14), ((9, 6), 15), ((8, 7), 15), ((9, 7), 16), ((8, 8), 16), ((9, 8), 17), ((8, 9), 17), ((9, 9), 18)],
    [((0, 0), 18), ((0, 1), 18), ((1, 0), 18), ((1, 1), 18), ((0, 2), 18), ((1, 2), 18), ((0, 3), 18), ((1, 3), 18), ((2, 1), 18), ((2, 2), 18), ((2, 3), 18), ((2, 0), 18), ((3, 0), 20), ((3, 1), 18), ((3, 2), 18), ((4, 0), 20), ((4, 1), 18), ((4, 2), 18), ((5, 0), 20), ((5, 1), 18), ((5, 2), 18), ((6, 0), 20), ((6, 1), 18), ((6, 2), 18), ((7, 0), 20), ((7, 1), 18), ((7, 2), 18), ((3, 3), 18), ((4, 3), 18), ((3, 4), 18), ((4, 4), 18), ((5, 3), 18), ((5, 4), 18), ((4, 5), 18), ((5, 5), 18), ((6, 3), 18), ((6, 4), 18), ((6, 5), 18), ((7, 3), 18), ((7, 4), 18), ((7, 5), 18), ((0, 4), 20), ((1, 4), 18), ((2, 4), 18), ((1, 5), 20), ((2, 5), 18), ((3, 5), 18), ((1, 6), 20), ((2, 6), 18), ((3, 6), 18), ((8, 3), 18), ((8, 4), 18), ((8, 5), 18), ((8, 0), 20), ((8, 1), 18), ((8, 2), 18), ((5, 6), 18), ((6, 6), 18), ((7, 6), 18), ((4, 6), 18), ((3, 7), 18), ((4, 7), 18), ((5, 7), 18), ((4, 8), 18), ((5, 8), 18), ((6, 7), 18), ((6, 8), 18), ((5, 9), 18), ((6, 9), 18), ((7, 7), 18), ((7, 8), 18), ((7, 9), 18), ((2, 7), 20), ((2, 8), 20), ((3, 8), 18), ((3, 9), 20), ((4, 9), 18), ((9, 1), 20), ((9, 2), 18), ((9, 3), 18), ((9, 4), 18), ((8, 6), 18), ((9, 5), 18), ((9, 6), 18), ((8, 7), 18), ((9, 7), 18), ((8, 8), 18), ((9, 8), 18), ((8, 9), 18), ((9, 9), 18)]⟩

/-- The search state after 60 iterations of the concrete 10-by-10 run. -/
def c2s60 : PyAState :=
  ⟨⟨[Slot.empty, Slot.empty, Slot.empty, Slot.active (4, 0) 12098617604573586435, Slot.empty, Slot.dummy, Slot.empty, Slot.empty, Slot.dummy, Slot.dummy, Slot.empty, Slot.dummy, Slot.empty, Slot.dummy, Slot.active (8, 0) 1921423840415508494, Slot.dummy, Slot.empty, Slot.dummy, Slot.dummy, Slot.dummy, Slot.empty, Slot.dummy, Slot.dummy, Slot.empty, Slot.empty, Slot.active (1, 6) 13727465019498145689, Slot.empty, Slot.dummy, Slot.empty, Slot.empty, Slot.empty, Slot.active (2, 8) 13747793726972610847, Slot.empty, Slot.dummy, Slot.dummy, Slot.empty, Slot.dummy, Slot.dummy, Slot.dummy, Slot.empty, Slot.empty, Slot.empty, Slot.dummy, Slot.empty, Slot.empty, Slot.empty, Slot.dummy, Slot.active (3, 0) 2248468952609198383, Slot.empty, Slot.empty, Slot.dummy, Slot.dummy, Slot.active (5, 0) 15392134955641163444, Slot.dummy, Slot.dummy, Slot.dummy, Slot.dummy, Slot.dummy, Slot.dummy, Slot.active (9, 1) 18279213248481894971, Slot.dummy, Slot.dummy, Slot.empty, Slot.dummy, Slot.empty, Slot.dummy, Slot.empty, Slot.empty, Slot.active (0, 4) 1773351652666409796, Slot.empty, Slot.active (2, 7) 7240152970870612422, Slot.active (1, 5) 173794974761290439, Slot.empty, Slot.empty, Slot.empty, Slot.active (7, 0) 4358481687155754187, Slot.empty, Slot.empty, Slot.empty, Slot.dummy, Slot.dummy, Slot.dummy, Slot.empty, Slot.dummy, Slot.empty, Slot.empty, Slot.empty, Slot.empty, Slot.empty, Slot.empty, Slot.empty, Slot.empty, Slot.empty, Slot.dummy, Slot.dummy, Slot.dummy, Slot.dummy, Slot.empty, Slot.dummy, Slot.dummy, Slot.active (8, 4) 752199911689744484, Slot.empty, Slot.active (9, 3) 15495422592626828902, Slot.active (8, 1) 8429064596517506919, Slot.active (5, 8) 6007657809554778599, Slot.active (8, 7) 8874407394921044968, Slot.active (9, 6) 5170886002148577770, Slot.active (0, 3) 13712454970273962987, Slot.active (2, 0) 4685526799349444076, Slot.active (9, 9) 15940765391030366951, Slot.active (1, 4) 12112898292368843630, Slot.empty, Slot.active (2, 3) 8409376899596376432, Slot.active (2, 9) 8854719697999914481, Slot.empty, Slot.empty, Slot.active (2, 6) 12133226999843308788, Slot.empty, Slot.active (7, 2) 5973048414285056246, Slot.active (6, 0) 12955077108900917751, Slot.active (6, 6) 13400419907304455800, Slot.empty, Slot.active (7, 5) 9696898514531988602, Slot.active (6, 3) 2630540518422666619, Slot.active (6, 9) 17124270007551388156, Slot.empty, Slot.active (7, 8) 13420748614778920958, Slot.empty], 72, 31⟩,
    [((0, 1), (0, 0)), ((1, 0), (0, 0)), ((1, 1), (0, 0)), ((0, 2), (0, 1)), ((1, 2), (0, 1)), ((0, 3), (0, 2)), ((1, 3), (1, 2)), ((2, 1), (1, 1)), ((2, 2), (1, 2)), ((2, 3), (1, 2)), ((2, 0), (1, 0)), ((3, 0), (2, 1)), ((3, 1), (2, 1)), ((3, 2), (2, 1)), ((4, 0), (3, 1)), ((4, 1), (3, 1)), ((4, 2), (3, 1)), ((5, 0), (4, 1)), ((5, 1), (4, 1)), ((5, 2), (4, 1)), ((6, 0), (5, 1)), ((6, 1), (5, 1)), ((6, 2), (5, 1)), ((7, 0), (6, 1)), ((7, 1), (6, 1)), ((7, 2), (6, 1)), ((3, 3), (2, 2)), ((4, 3), (3, 2)), ((3, 4), (2, 4)), ((4, 4), (4, 3)), ((5, 3), (4, 3)), ((5, 4), (4, 3)), ((4, 5), (3, 4)), ((5, 5), (5, 4)), ((6, 3), (6, 2)), ((6, 4), (5, 4)), ((6, 5), (5, 4)), ((7, 3), (6, 2)), ((7, 4), (6, 4)), ((7, 5), (6, 4)), ((0, 4), (1, 3)), ((1, 4), (1, 3)), ((2, 4), (1, 3)), ((1, 5), (2, 4)), ((2, 5), (2, 4)), ((3, 5), (2, 4)), ((1, 6), (2, 5)), ((2, 6), (2, 5)), ((3, 6), (2, 5)), ((8, 3), (8, 2)), ((8, 4), (7, 4)), ((8, 5), (7, 4)), ((8, 0), (7, 1)), ((8, 1), (7, 1)), ((8, 2), (7, 1)), ((5, 6), (4, 5)), ((6, 6), (6, 5)), ((7, 6), (6, 5)), ((4, 6), (4, 5)), ((3, 7), (3, 6)), ((4, 7), (4, 6)), ((5, 7), (4, 6)), ((4, 8), (3, 7)), ((5, 8), (5, 7)), ((6, 7), (5, 7)), ((6, 8), (5, 7)), ((5, 9), (4, 8)), ((6, 9), (6, 8)), ((7, 7), (6, 7)), ((7, 8), (6, 8)), ((7, 9), (6, 8)), ((2, 7), (3, 6)), ((2, 8), (3, 7)), ((3, 8), (3, 7)), ((3, 9), (3, 8)), ((4, 9), (4, 8)), ((9, 1), (8, 2)), ((9, 2), (8, 2)), ((9, 3), (8, 2)), ((9, 4), (8, 3)), ((8, 6), (8, 5)), ((9, 5), (8, 5)), ((9, 6), (8, 5)), ((8, 7), (8, 6)), ((9, 7), (8, 6)), ((8, 8), (7, 7)), ((9, 8), (9, 7)), ((8, 9), (7, 9)), ((9, 9), (9, 8)), ((2, 9), (3, 8))],
    [((0, 0), 0), ((0, 1), 1), ((1, 0), 1), ((1, 1), 2), ((0, 2), 2), ((1, 2), 3), ((0, 3), 3), ((1, 3), 4), ((2, 1), 3), ((2, 2), 4), ((2, 3), 5), ((2, 0), 2), ((3, 0), 5), ((3, 1), 4), ((3, 2), 5), ((4, 0), 6), ((4, 1), 5), ((4, 2), 6), ((5, 0), 7), ((5, 1), 6), ((5, 2), 7), ((6, 0), 8), ((6, 1), 7), ((6, 2), 8), ((7, 0), 9), ((7, 1), 8), ((7, 2), 9), ((3, 3), 6), ((4, 3), 7), ((3, 4), 7), ((4, 4), 8), ((5, 3), 8), ((5, 4), 9), ((4, 5), 9), ((5, 5), 10), ((6, 3), 9), ((6, 4), 10), ((6, 5), 11), ((7, 3), 10), ((7, 4), 11), ((7, 5), 12), ((0, 4), 6), ((1, 4), 5), ((2, 4), 6), ((1, 5), 8), ((2, 5), 7), ((3, 5), 8), ((1, 6), 9), ((2, 6), 8), ((3, 6), 9), ((8, 3), 11), ((8, 4), 12), ((8, 5), 13), ((8, 0), 10), ((8, 1), 9), ((8, 2), 10), ((5, 6), 11), ((6, 6), 12), ((7, 6), 13), ((4, 6), 10), ((3, 7), 10), ((4, 7), 11), ((5, 7), 12), ((4, 8), 12), ((5, 8), 13), ((6, 7), 13), ((6, 8), 14), ((5, 9), 14), ((6, 9), 15), ((7, 7), 14), ((7, 8), 15), ((7, 9), 16), ((2, 7), 11), ((2, 8), 12), ((3, 8), 11), ((3, 9), 12), ((4, 9), 13), ((9, 1), 12), ((9, 2), 11), ((9, 3), 12), ((9, 4), 13), ((8, 6), 14), ((9, 5), 14), ((9, 6), 15), ((8, 7), 15), ((9, 7), 16), ((8, 8), 16), ((9, 8), 17), ((8, 9), 17), ((9, 9), 18), ((2, 9), 13)],
    [((0, 0), 18), ((0, 1), 18), ((1, 0), 18), ((1, 1), 18), ((0, 2), 18), ((1, 2), 18), ((0, 3), 18), ((1, 3), 18), ((2, 1), 18), ((2, 2), 18), ((2, 3), 18), ((2, 0), 18), ((3, 0), 20), ((3, 1), 18), ((3, 2), 18), ((4, 0), 20), ((4, 1), 18), ((4, 2), 18), ((5, 0), 20), ((5, 1), 18), ((5, 2), 18), ((6, 0), 20), ((6, 1), 18), ((6, 2), 18), ((7, 0), 20), ((7, 1), 18), ((7, 2), 18), ((3, 3), 18), ((4, 3), 18), ((3, 4), 18), ((4, 4), 18), ((5, 3), 18), ((5, 4), 18), ((4, 5), 18), ((5, 5), 18), ((6, 3), 18), ((6, 4), 18), ((6, 5), 18), ((7, 3), 18), ((7, 4), 18), ((7, 5), 18), ((0, 4), 20), ((1, 4), 18), ((2, 4), 18), ((1, 5), 20), ((2, 5), 18), ((3, 5), 18), ((1, 6), 20), ((2, 6), 18), ((3, 6), 18), ((8, 3), 18), ((8, 4), 18), ((8, 5), 18), ((8, 0), 20), ((8, 1), 18), ((8, 2), 18), ((5, 6), 18), ((6, 6), 18), ((7, 6), 18), ((4, 6), 18), ((3, 7), 18), ((4, 7), 18), ((5, 7), 18), ((4, 8), 18), ((5, 8), 18), ((6, 7), 18), ((6, 8), 18), ((5, 9), 18), ((6, 9), 18), ((7, 7), 18), ((7, 8), 18), ((7, 9), 18), ((2, 7), 20), ((2, 8), 20), ((3, 8), 18), ((3, 9), 18), ((4, 9), 18), ((9, 1), 20), ((9, 2), 18), ((9, 3), 18), ((9, 4), 18), ((8, 6), 18), ((9, 5), 18), ((9, 6), 18), ((8, 7), 18), ((9, 7), 18), ((8, 8), 18), ((9, 8), 18), ((8, 9), 18), ((9, 9), 18), ((2, 9), 20)]⟩

/-- The search state after 65 iterations of the concrete 10-by-10 run. -/
def c2s65 : PyAState :=
  ⟨⟨[Slot.empty, Slot.empty, Slot.empty, Slot.active (4, 0) 12098617604573586435, Slot.empty, Slot.dummy, Slot.empty, Slot.empty, Slot.dummy, Slot.dummy, Slot.empty, Slot.dummy, Slot.empty, Slot.dummy, Slot.active (8, 0) 1921423840415508494, Slot.dummy, Slot.empty, Slot.dummy, Slot.dummy, Slot.dummy, Slot.empty, Slot.dummy, Slot.dummy, Slot.empty, Slot.empty, Slot.active (1, 6) 13727465019498145689, Slot.empty, Slot.dummy, Slot.empty, Slot.empty, Slot.empty, Slot.active (2, 8) 13747793726972610847, Slot.empty, Slot.dummy, Slot.dummy, Slot.empty, Slot.dummy, Slot.dummy, Slot.dummy, Slot.empty, Slot.empty, Slot.empty, Slot.dummy, Slot.empty, Slot.empty, Slot.empty, Slot.dummy, Slot.active (3, 0) 2248468952609198383, Slot.empty, Slot.empty, Slot.dummy, Slot.dummy, Slot.active (5, 0) 15392134955641163444, Slot.dummy, Slot.dummy, Slot.dummy, Slot.dummy, Slot.dummy, Slot.dummy, Slot.dummy, Slot.dummy, Slot.dummy, Slot.empty, Slot.dummy, Slot.empty, Slot.dummy, Slot.empty, Slot.empty, Slot.active (0, 4) 1773351652666409796, Slot.empty, Slot.active (2, 7) 7240152970870612422, Slot.active (1, 5) 173794974761290439, Slot.empty, Slot.empty, Slot.empty, Slot.active (7, 0) 4358481687155754187, Slot.empty, Slot.empty, Slot.empty, Slot.dummy, Slot.dummy, Slot.dummy, Slot.empty, Slot.dummy, Slot.empty, Slot.empty, Slot.empty, Slot.empty, Slot.empty, Slot.empty, Slot.empty, Slot.empty, Slot.empty, Slot.dummy, Slot.dummy, Slot.dummy, Slot.dummy, Slot.empty, Slot.dummy, Slot.dummy, Slot.active (9, 0) 11771572492379896546, Slot.empty, Slot.dummy, Slot.dummy, Slot.dummy, Slot.active (8, 7) 8874407394921044968, Slot.active (9, 6) 5170886002148577770, Slot.active (0, 3) 13712454970273962987, Slot.active (2, 0) 4685526799349444076, Slot.active (9, 9) 15940765391030366951, Slot.active (1, 4) 12112898292368843630, Slot.empty, Slot.active (2, 3) 8409376899596376432, Slot.active (2, 9) 8854719697999914481, Slot.empty, Slot.empty, Slot.active (2, 6) 12133226999843308788, Slot.empty, Slot.active (7, 2) 5973048414285056246, Slot.active (6, 0) 12955077108900917751, Slot.active (6, 6) 13400419907304455800, Slot.empty, Slot.active (7, 5) 9696898514531988602, Slot.active (6, 3) 2630540518422666619, Slot.active (6, 9) 17124270007551388156, Slot.empty, Slot.active (7, 8) 13420748614778920958, Slot.empty], 72, 27⟩,
    [((0, 1), (0, 0)), ((1, 0), (0, 0)), ((1, 1), (0, 0)), ((0, 2), (0, 1)), ((1, 2), (0, 1)), ((0, 3), (0, 2)), ((1, 3), (1, 2)), ((2, 1), (1, 1)), ((2, 2), (1, 2)), ((2, 3), (1, 2)), ((2, 0), (1, 0)), ((3, 0), (2, 1)), ((3, 1), (2, 1)), ((3, 2), (2, 1)), ((4, 0), (3, 1)), ((4, 1), (3, 1)), ((4, 2), (3, 1)), ((5, 0), (4, 1)), ((5, 1), (4, 1)), ((5, 2), (4, 1)), ((6, 0), (5, 1)), ((6, 1), (5, 1)), ((6, 2), (5, 1)), ((7, 0), (6, 1)), ((7, 1), (6, 1)), ((7, 2), (6, 1)), ((3, 3), (2, 2)), ((4, 3), (3, 2)), ((3, 4), (2, 4)), ((4, 4), (4, 3)), ((5, 3), (4, 3)), ((5, 4), (4, 3)), ((4, 5), (3, 4)), ((5, 5), (5, 4)), ((6, 3), (6, 2)), ((6, 4), (5, 4)), ((6, 5), (5, 4)), ((7, 3), (6, 2)), ((7, 4), (6, 4)), ((7, 5), (6, 4)), ((0, 4), (1, 3)), ((1, 4), (1, 3)), ((2, 4), (1, 3)), ((1, 5), (2, 4)), ((2, 5), (2, 4)), ((3, 5), (2, 4)), ((1, 6), (2, 5)), ((2, 6), (2, 5)), ((3, 6), (2, 5)), ((8, 3), (8, 2)), ((8, 4), (7, 4)), ((8, 5), (7, 4)), ((8, 0), (7, 1)), ((8, 1), (7, 1)), ((8, 2), (7, 1)), ((5, 6), (4, 5)), ((6, 6), (6, 5)), ((7, 6), (6, 5)), ((4, 6), (4, 5)), ((3, 7), (3, 6)), ((4, 7), (4, 6)), ((5, 7), (4, 6)), ((4, 8), (3, 7)), ((5, 8), (5, 7)), ((6, 7), (5, 7)), ((6, 8), (5, 7)), ((5, 9), (4, 8)), ((6, 9), (6, 8)), ((7, 7), (6, 7)), ((7, 8), (6, 8)), ((7, 9), (6, 8)), ((2, 7), (3, 6)), ((2, 8), (3, 7)), ((3, 8), (3, 7)), ((3, 9), (3, 8)), ((4, 9), (4, 8)), ((9, 1), (8, 1)), ((9, 2), (8, 2)), ((9, 3), (8, 2)), ((9, 4), (8, 3)), ((8, 6), (8, 5)), ((9, 5), (8, 5)), ((9, 6), (8, 5)), ((8, 7), (8, 6)), ((9, 7), (8, 6)), ((8, 8), (7, 7)), ((9, 8), (9, 7)), ((8, 9), (7, 9)), ((9, 9), (9, 8)), ((2, 9), (3, 8)), ((9, 0), (8, 1))],
    [((0, 0), 0), ((0, 1), 1), ((1, 0), 1), ((1, 1), 2), ((0, 2), 2), ((1, 2), 3), ((0, 3), 3), ((1, 3), 4), ((2, 1), 3), ((2, 2), 4), ((2, 3), 5), ((2, 0), 2), ((3, 0), 5), ((3, 1), 4), ((3, 2), 5), ((4, 0), 6), ((4, 1), 5), ((4, 2), 6), ((5, 0), 7), ((5, 1), 6), ((5, 2), 7), ((6, 0), 8), ((6, 1), 7), ((6, 2), 8), ((7, 0), 9), ((7, 1), 8), ((7, 2), 9), ((3, 3), 6), ((4, 3), 7), ((3, 4), 7), ((4, 4), 8), ((5, 3), 8), ((5, 4), 9), ((4, 5), 9), ((5, 5), 10), ((6, 3), 9), ((6, 4), 10), ((6, 5), 11), ((7, 3), 10), ((7, 4), 11), ((7, 5), 12), ((0, 4), 6), ((1, 4), 5), ((2, 4), 6), ((1, 5), 8), ((2, 5), 7), ((3, 5), 8), ((1, 6), 9), ((2, 6), 8), ((3, 6), 9), ((8, 3), 11), ((8, 4), 12), ((8, 5), 13), ((8, 0), 10), ((8, 1), 9), ((8, 2), 10), ((5, 6), 11), ((6, 6), 12), ((7, 6), 13), ((4, 6), 10), ((3, 7), 10), ((4, 7), 11), ((5, 7), 12), ((4, 8), 12), ((5, 8), 13), ((6, 7), 13), ((6, 8), 14), ((5, 9), 14), ((6, 9), 15), ((7, 7), 14), ((7, 8), 15), ((7, 9), 16), ((2, 7), 11), ((2, 8), 12), ((3, 8), 11), ((3, 9), 12), ((4, 9), 13), ((9, 1), 10), ((9, 2), 11), ((9, 3), 12), ((9, 4), 13), ((8, 6), 14), ((9, 5), 14), ((9, 6), 15), ((8, 7), 15), ((9, 7), 16), ((8, 8), 16), ((9, 8), 17), ((8, 9), 17), ((9, 9), 18), ((2, 9), 13), ((9, 0), 11)],
    [((0, 0), 18), ((0, 1), 18), ((1, 0), 18), ((1, 1), 18), ((0, 2), 18), ((1, 2), 18), ((0, 3), 18), ((1, 3), 18), ((2, 1), 18), ((2, 2), 18), ((2, 3), 18), ((2, 0), 18), ((3, 0), 20), ((3, 1), 18), ((3, 2), 18), ((4, 0), 20), ((4, 1), 18), ((4, 2), 18), ((5, 0), 20), ((5, 1), 18), ((5, 2), 18), ((6, 0), 20), ((6, 1), 18), ((6, 2), 18), ((7, 0), 20), ((7, 1), 18), ((7, 2), 18), ((3, 3), 18), ((4, 3), 18), ((3, 4), 18), ((4, 4), 18), ((5, 3), 18), ((5, 4), 18), ((4, 5), 18), ((5, 5), 18), ((6, 3), 18), ((6, 4), 18), ((6, 5), 18), ((7, 3), 18), ((7, 4), 18), ((7, 5), 18), ((0, 4), 20), ((1, 4), 18), ((2, 4), 18), ((1, 5), 20), ((2, 5), 18), ((3, 5), 18), ((1, 6), 20), ((2, 6), 18), ((3, 6), 18), ((8, 3), 18), ((8, 4), 18), ((8, 5), 18), ((8, 0), 20), ((8, 1), 18), ((8, 2), 18), ((5, 6), 18), ((6, 6), 18), ((7, 6), 18), ((4, 6), 18), ((3, 7), 18), ((4, 7), 18), ((5, 7), 18), ((4, 8), 18), ((5, 8), 18), ((6, 7), 18), ((6, 8), 18), ((5, 9), 18), ((6, 9), 18), ((7, 7), 18), ((7, 8), 18), ((7, 9), 18), ((2, 7), 20), ((2, 8), 20), ((3, 8), 18), ((3, 9), 18), ((4, 9), 18), ((9, 1), 18), ((9, 2), 18), ((9, 3), 18), ((9, 4), 18), ((8, 6), 18), ((9, 5), 18), ((9, 6), 18), ((8, 7), 18), ((9, 7), 18), ((8, 8), 18), ((9, 8), 18), ((8, 9), 18), ((9, 9), 18), ((2, 9), 20), ((9, 0), 20)]⟩

/-- The search state after 70 iterations of the concrete 10-by-10 run. -/
def c2s70 : PyAState :=
  ⟨⟨[Slot.empty, Slot.empty, Slot.empty, Slot.active (4, 0) 12098617604573586435, Slot.empty, Slot.dummy, Slot.empty, Slot.empty, Slot.dummy, Slot.dummy, Slot.empty, Slot.dummy, Slot.empty, Slot.dummy, Slot.active (8, 0) 1921423840415508494, Slot.dummy, Slot.empty, Slot.dummy, Slot.dummy, Slot.dummy, Slot.empty, Slot.dummy, Slot.dummy, Slot.empty, Slot.empty, Slot.active (1, 6) 13727465019498145689, Slot.empty, Slot.dummy, Slot.empty, Slot.empty, Slot.empty, Slot.active (2, 8) 13747793726972610847, Slot.empty, Slot.dummy, Slot.dummy, Slot.empty, Slot.dummy, Slot.dummy, Slot.dummy, Slot.empty, Slot.empty, Slot.empty, Slot.dummy, Slot.empty, Slot.empty, Slot.empty, Slot.dummy, Slot.active (3, 0) 2248468952609198383, Slot.empty, Slot.empty, Slot.dummy, Slot.dummy, Slot.active (5, 0) 15392134955641163444, Slot.dummy, Slot.dummy, Slot.dummy, Slot.dummy, Slot.dummy, Slot.dummy, Slot.dummy, Slot.dummy, Slot.dummy, Slot.empty, Slot.dummy, Slot.empty, Slot.dummy, Slot.empty, Slot.empty, Slot.dummy, Slot.empty, Slot.active (2, 7) 7240152970870612422, Slot.active (1, 5) 173794974761290439, Slot.empty, Slot.empty, Slot.empty, Slot.active (7, 0) 4358481687155754187, Slot.empty, Slot.empty, Slot.empty, Slot.dummy, Slot.dummy, Slot.dummy, Slot.empty, Slot.dummy, Slot.empty, Slot.empty, Slot.empty, Slot.empty, Slot.empty, Slot.empty, Slot.empty, Slot.empty, Slot.empty, Slot.dummy, Slot.dummy, Slot.dummy, Slot.dummy, Slot.empty, Slot.dummy, Slot.dummy, Slot.active (9, 0) 11771572492379896546, Slot.empty, Slot.dummy, Slot.dummy, Slot.dummy, Slot.dummy, Slot.dummy, Slot.dummy, Slot.active (2, 0) 4685526799349444076, Slot.active (9, 9) 15940765391030366951, Slot.active (1, 4) 12112898292368843630, Slot.active (0, 6) 17436305070520895343, Slot.active (2, 3) 8409376899596376432, Slot.active (2, 9) 8854719697999914481, Slot.empty, Slot.empty, Slot.active (2, 6) 12133226999843308788, Slot.empty, Slot.active (7, 2) 5973048414285056246, Slot.active (6, 0) 12955077108900917751, Slot.active (6, 6) 13400419907304455800, Slot.empty, Slot.active (7, 5) 9696898514531988602, Slot.active (6, 3) 2630540518422666619, Slot.active (6, 9) 17124270007551388156, Slot.empty, Slot.active (7, 8) 13420748614778920958, Slot.empty], 73, 24⟩,
    [((0, 1), (0, 0)), ((1, 0), (0, 0)), ((1, 1), (0, 0)), ((0, 2), (0, 1)), ((1, 2), (0, 1)), ((0, 3), (0, 2)), ((1, 3), (1, 2)), ((2, 1), (1, 1)), ((2, 2), (1, 2)), ((2, 3), (1, 2)), ((2, 0), (1, 0)), ((3, 0), (2, 1)), ((3, 1), (2, 1)), ((3, 2), (2, 1)), ((4, 0), (3, 1)), ((4, 1), (3, 1)), ((4, 2), (3, 1)), ((5, 0), (4, 1)), ((5, 1), (4, 1)), ((5, 2), (4, 1)), ((6, 0), (5, 1)), ((6, 1), (5, 1)), ((6, 2), (5, 1)), ((7, 0), (6, 1)), ((7, 1), (6, 1)), ((7, 2), (6, 1)), ((3, 3), (2, 2)), ((4, 3), (3, 2)), ((3, 4), (2, 4)), ((4, 4), (4, 3)), ((5, 3), (4, 3)), ((5, 4), (4, 3)), ((4, 5), (3, 4)), ((5, 5), (5, 4)), ((6, 3), (6, 2)), ((6, 4), (5, 4)), ((6, 5), (5, 4)), ((7, 3), (6, 2)), ((7, 4), (6, 4)), ((7, 5), (6, 4)), ((0, 4), (0, 3)), ((1, 4), (1, 3)), ((2, 4), (1, 3)), ((1, 5), (0, 4)), ((2, 5), (2, 4)), ((3, 5), (2, 4)), ((1, 6), (0, 5)), ((2, 6), (2, 5)), ((3, 6), (2, 5)), ((8, 3), (8, 2)), ((8, 4), (7, 4)), ((8, 5), (7, 4)), ((8, 0), (7, 1)), ((8, 1), (7, 1)), ((8, 2), (7, 1)), ((5, 6), (4, 5)), ((6, 6), (6, 5)), ((7, 6), (6, 5)), ((4, 6), (4, 5)), ((3, 7), (3, 6)), ((4, 7), (4, 6)), ((5, 7), (4, 6)), ((4, 8), (3, 7)), ((5, 8), (5, 7)), ((6, 7), (5, 7)), ((6, 8), (5, 7)), ((5, 9), (4, 8)), ((6, 9), (6, 8)), ((7, 7), (6, 7)), ((7, 8), (6, 8)), ((7, 9), (6, 8)), ((2, 7), (3, 6)), ((2, 8), (3, 7)), ((3, 8), (3, 7)), ((3, 9), (3, 8)), ((4, 9), (4, 8)), ((9, 1), (8, 1)), ((9, 2), (8, 2)), ((9, 3), (8, 2)), ((9, 4), (8, 3)), ((8, 6), (8, 5)), ((9, 5), (8, 5)), ((9, 6), (8, 5)), ((8, 7), (8, 6)), ((9, 7), (8, 6)), ((8, 8), (7, 7)), ((9, 8), (9, 7)), ((8, 9), (7, 9)), ((9, 9), (9, 8)), ((2, 9), (3, 8)), ((9, 0), (8, 1)), ((0, 5), (0, 4)), ((0, 6), (0, 5))],
    [((0, 0), 0), ((0, 1), 1), ((1, 0), 1), ((1, 1), 2), ((0, 2), 2), ((1, 2), 3), ((0, 3), 3), ((1, 3), 4), ((2, 1), 3), ((2, 2), 4), ((2, 3), 5), ((2, 0), 2), ((3, 0), 5), ((3, 1), 4), ((3, 2), 5), ((4, 0), 6), ((4, 1), 5), ((4, 2), 6), ((5, 0), 7), ((5, 1), 6), ((5, 2), 7), ((6, 0), 8), ((6, 1), 7), ((6, 2), 8), ((7, 0), 9), ((7, 1), 8), ((7, 2), 9), ((3, 3), 6), ((4, 3), 7), ((3, 4), 7), ((4, 4), 8), ((5, 3), 8), ((5, 4), 9), ((4, 5), 9), ((5, 5), 10), ((6, 3), 9), ((6, 4), 10), ((6, 5), 11), ((7, 3), 10), ((7, 4), 11), ((7, 5), 12), ((0, 4), 4), ((1, 4), 5), ((2, 4), 6), ((1, 5), 6), ((2, 5), 7), ((3, 5), 8), ((1, 6), 7), ((2, 6), 8), ((3, 6), 9), ((8, 3), 11), ((8, 4), 12), ((8, 5), 13), ((8, 0), 10), ((8, 1), 9), ((8, 2), 10), ((5, 6), 11), ((6, 6), 12), ((7, 6), 13), ((4, 6), 10), ((3, 7), 10), ((4, 7), 11), ((5, 7), 12), ((4, 8), 12), ((5, 8), 13), ((6, 7), 13), ((6, 8), 14), ((5, 9), 14), ((6, 9), 15), ((7, 7), 14), ((7, 8), 15), ((7, 9), 16), ((2, 7), 11), ((2, 8), 12), ((3, 8), 11), ((3, 9), 12), ((4, 9), 13), ((9, 1), 10), ((9, 2), 11), ((9, 3), 12), ((9, 4), 13), ((8, 6), 14), ((9, 5), 14), ((9, 6), 15), ((8, 7), 15), ((9, 7), 16), ((8, 8), 16), ((9, 8), 17), ((8, 9), 17), ((9, 9), 18), ((2, 9), 13), ((9, 0), 11), ((0, 5), 5), ((0, 6), 6)],
    [((0, 0), 18), ((0, 1), 18), ((1, 0), 18), ((1, 1), 18), ((0, 2), 18), ((1, 2), 18), ((0, 3), 18), ((1, 3), 18), ((2, 1), 18), ((2, 2), 18), ((2, 3), 18), ((2, 0), 18), ((3, 0), 20), ((3, 1), 18), ((3, 2), 18), ((4, 0), 20), ((4, 1), 18), ((4, 2), 18), ((5, 0), 20), ((5, 1), 18), ((5, 2), 18), ((6, 0), 20), ((6, 1), 18), ((6, 2), 18), ((7, 0), 20), ((7, 1), 18), ((7, 2), 18), ((3, 3), 18), ((4, 3), 18), ((3, 4), 18), ((4, 4), 18), ((5, 3), 18), ((5, 4), 18), ((4, 5), 18), ((5, 5), 18), ((6, 3), 18), ((6, 4), 18), ((6, 5), 18), ((7, 3), 18), ((7, 4), 18), ((7, 5), 18), ((0, 4), 18), ((1, 4), 18), ((2, 4), 18), ((1, 5), 18), ((2, 5), 18), ((3, 5), 18), ((1, 6), 18), ((2, 6), 18), ((3, 6), 18), ((8, 3), 18), ((8, 4), 18), ((8, 5), 18), ((8, 0), 20), ((8, 1), 18), ((8, 2), 18), ((5, 6), 18), ((6, 6), 18), ((7, 6), 18), ((4, 6), 18), ((3, 7), 18), ((4, 7), 18), ((5, 7), 18), ((4, 8), 18), ((5, 8), 18), ((6, 7), 18), ((6, 8), 18), ((5, 9), 18), ((6, 9), 18), ((7, 7), 18), ((7, 8), 18), ((7, 9), 18), ((2, 7), 20), ((2, 8), 20), ((3, 8), 18), ((3, 9), 18), ((4, 9), 18), ((9, 1), 18), ((9, 2), 18), ((9, 3), 18), ((9, 4), 18), ((8, 6), 18), ((9, 5), 18), ((9, 6), 18), ((8, 7), 18), ((9, 7), 18), ((8, 8), 18), ((9, 8), 18), ((8, 9), 18), ((9, 9), 18), ((2, 9), 20), ((9, 0), 20), ((0, 5), 18), ((0, 6), 18)]⟩

/-- The search state after 75 iterations of the concrete 10-by-10 run. -/
def c2s75 : PyAState :=
  ⟨⟨[Slot.empty, Slot.empty, Slot.empty, Slot.active (4, 0) 12098617604573586435, Slot.empty, Slot.dummy, Slot.empty, Slot.empty, Slot.dummy, Slot.dummy, Slot.empty, Slot.dummy, Slot.empty, Slot.dummy, Slot.active (8, 0) 1921423840415508494, Slot.dummy, Slot.empty, Slot.dummy, Slot.dummy, Slot.dummy, Slot.empty, Slot.dummy, Slot.dummy, Slot.empty, Slot.empty, Slot.dummy, Slot.empty, Slot.dummy, Slot.empty, Slot.active (1, 9) 17451315119745078045, Slot.empty, Slot.dummy, Slot.empty, Slot.dummy, Slot.dummy, Slot.empty, Slot.dummy, Slot.dummy, Slot.dummy, Slot.empty, Slot.empty, Slot.empty, Slot.dummy, Slot.empty, Slot.empty, Slot.empty, Slot.dummy, Slot.active (3, 0) 2248468952609198383, Slot.empty, Slot.empty, Slot.dummy, Slot.dummy, Slot.active (5, 0) 15392134955641163444, Slot.dummy, Slot.dummy, Slot.dummy, Slot.dummy, Slot.dummy, Slot.dummy, Slot.dummy, Slot.dummy, Slot.dummy, Slot.empty, Slot.dummy, Slot.empty, Slot.active (0, 7) 12543231041548198977, Slot.empty, Slot.empty, Slot.dummy, Slot.empty, Slot.dummy, Slot.dummy, Slot.empty, Slot.empty, Slot.empty, Slot.active (7, 0) 4358481687155754187, Slot.active (1, 8) 3897645075008222795, Slot.empty, Slot.empty, Slot.dummy, Slot.dummy, Slot.dummy, Slot.empty, Slot.dummy, Slot.empty, Slot.empty, Slot.empty, Slot.empty, Slot.empty, Slot.empty, Slot.empty, Slot.empty, Slot.empty, Slot.dummy, Slot.dummy, Slot.dummy, Slot.dummy, Slot.empty, Slot.dummy, Slot.dummy, Slot.active (9, 0) 11771572492379896546, Slot.empty, Slot.dummy, Slot.dummy, Slot.dummy, Slot.dummy, Slot.dummy, Slot.dummy, Slot.dummy, Slot.active (9, 9) 15940765391030366951, Slot.active (1, 4) 12112898292368843630, Slot.active (0, 6) 17436305070520895343, Slot.active (2, 3) 8409376899596376432, Slot.active (2, 9) 8854719697999914481, Slot.active (1, 7) 15836748392615775986, Slot.empty, Slot.active (2, 6) 12133226999843308788, Slot.empty, Slot.active (7, 2) 5973048414285056246, Slot.active (6, 0) 12955077108900917751, Slot.active (6, 6) 13400419907304455800, Slot.empty, Slot.active (7, 5) 9696898514531988602, Slot.active (6, 3) 2630540518422666619, Slot.active (6, 9) 17124270007551388156, Slot.empty, Slot.active (7, 8) 13420748614778920958, Slot.empty], 76, 23⟩,
    [((0, 1), (0, 0)), ((1, 0), (0, 0)), ((1, 1), (0, 0)), ((0, 2), (0, 1)), ((1, 2), (0, 1)), ((0, 3), (0, 2)), ((1, 3), (1, 2)), ((2, 1), (1, 1)), ((2, 2), (1, 2)), ((2, 3), (1, 2)), ((2, 0), (1, 0)), ((3, 0), (2, 0)), ((3, 1), (2, 1)), ((3, 2), (2, 1)), ((4, 0), (3, 1)), ((4, 1), (3, 1)), ((4, 2), (3, 1)), ((5, 0), (4, 1)), ((5, 1), (4, 1)), ((5, 2), (4, 1)), ((6, 0), (5, 1)), ((6, 1), (5, 1)), ((6, 2), (5, 1)), ((7, 0), (6, 1)), ((7, 1), (6, 1)), ((7, 2), (6, 1)), ((3, 3), (2, 2)), ((4, 3), (3, 2)), ((3, 4), (2, 4)), ((4, 4), (4, 3)), ((5, 3), (4, 3)), ((5, 4), (4, 3)), ((4, 5), (3, 4)), ((5, 5), (5, 4)), ((6, 3), (6, 2)), ((6, 4), (5, 4)), ((6, 5), (5, 4)), ((7, 3), (6, 2)), ((7, 4), (6, 4)), ((7, 5), (6, 4)), ((0, 4), (0, 3)), ((1, 4), (1, 3)), ((2, 4), (1, 3)), ((1, 5), (0, 4)), ((2, 5), (2, 4)), ((3, 5), (2, 4)), ((1, 6), (0, 5)), ((2, 6), (2, 5)), ((3, 6), (2, 5)), ((8, 3), (8, 2)), ((8, 4), (7, 4)), ((8, 5), (7, 4)), ((8, 0), (7, 1)), ((8, 1), (7, 1)), ((8, 2), (7, 1)), ((5, 6), (4, 5)), ((6, 6), (6, 5)), ((7, 6), (6, 5)), ((4, 6), (4, 5)), ((3, 7), (3, 6)), ((4, 7), (4, 6)), ((5, 7), (4, 6)), ((4, 8), (3, 7)), ((5, 8), (5, 7)), ((6, 7), (5, 7)), ((6, 8), (5, 7)), ((5, 9), (4, 8)), ((6, 9), (6, 8)), ((7, 7), (6, 7)), ((7, 8), (6, 8)), ((7, 9), (6, 8)), ((2, 7), (1, 6)), ((2, 8), (2, 7)), ((3, 8), (3, 7)), ((3, 9), (3, 8)), ((4, 9), (4, 8)), ((9, 1), (8, 1)), ((9, 2), (8, 2)), ((9, 3), (8, 2)), ((9, 4), (8, 3)), ((8, 6), (8, 5)), ((9, 5), (8, 5)), ((9, 6), (8, 5)), ((8, 7), (8, 6)), ((9, 7), (8, 6)), ((8, 8), (7, 7)), ((9, 8), (9, 7)), ((8, 9), (7, 9)), ((9, 9), (9, 8)), ((2, 9), (2, 8)), ((9, 0), (8, 1)), ((0, 5), (0, 4)), ((0, 6), (0, 5)), ((0, 7), (1, 6)), ((1, 7), (1, 6)), ((1, 8), (2, 7)), ((1, 9), (2, 8))],
    [((0, 0), 0), ((0, 1), 1), ((1, 0), 1), ((1, 1), 2), ((0, 2), 2), ((1, 2), 3), ((0, 3), 3), ((1, 3), 4), ((2, 1), 3), ((2, 2), 4), ((2, 3), 5), ((2, 0), 2), ((3, 0), 3), ((3, 1), 4), ((3, 2), 5), ((4, 0), 6), ((4, 1), 5), ((4, 2), 6), ((5, 0), 7), ((5, 1), 6), ((5, 2), 7), ((6, 0), 8), ((6, 1), 7), ((6, 2), 8), ((7, 0), 9), ((7, 1), 8), ((7, 2), 9), ((3, 3), 6), ((4, 3), 7), ((3, 4), 7), ((4, 4), 8), ((5, 3), 8), ((5, 4), 9), ((4, 5), 9), ((5, 5), 10), ((6, 3), 9), ((6, 4), 10), ((6, 5), 11), ((7, 3), 10), ((7, 4), 11), ((7, 5), 12), ((0, 4), 4), ((1, 4), 5), ((2, 4), 6), ((1, 5), 6), ((2, 5), 7), ((3, 5), 8), ((1, 6), 7), ((2, 6), 8), ((3, 6), 9), ((8, 3), 11), ((8, 4), 12), ((8, 5), 13), ((8, 0), 10), ((8, 1), 9), ((8, 2), 10), ((5, 6), 11), ((6, 6), 12), ((7, 6), 13), ((4, 6), 10), ((3, 7), 10), ((4, 7), 11), ((5, 7), 12), ((4, 8), 12), ((5, 8), 13), ((6, 7), 13), ((6, 8), 14), ((5, 9), 14), ((6, 9), 15), ((7, 7), 14), ((7, 8), 15), ((7, 9), 16), ((2, 7), 9), ((2, 8), 10), ((3, 8), 11), ((3, 9), 12), ((4, 9), 13), ((9, 1), 10), ((9, 2), 11), ((9, 3), 12), ((9, 4), 13), ((8, 6), 14), ((9, 5), 14), ((9, 6), 15), ((8, 7), 15), ((9, 7), 16), ((8, 8), 16), ((9, 8), 17), ((8, 9), 17), ((9, 9), 18), ((2, 9), 11), ((9, 0), 11), ((0, 5), 5), ((0, 6), 6), ((0, 7), 9), ((1, 7), 8), ((1, 8), 11), ((1, 9), 12)],
    [((0, 0), 18), ((0, 1), 18), ((1, 0), 18), ((1, 1), 18), ((0, 2), 18), ((1, 2), 18), ((0, 3), 18), ((1, 3), 18), ((2, 1), 18), ((2, 2), 18), ((2, 3), 18), ((2, 0), 18), ((3, 0), 18), ((3, 1), 18), ((3, 2), 18), ((4, 0), 20), ((4, 1), 18), ((4, 2), 18), ((5, 0), 20), ((5, 1), 18), ((5, 2), 18), ((6, 0), 20), ((6, 1), 18), ((6, 2), 18), ((7, 0), 20), ((7, 1), 18), ((7, 2), 18), ((3, 3), 18), ((4, 3), 18), ((3, 4), 18), ((4, 4), 18), ((5, 3), 18), ((5, 4), 18), ((4, 5), 18), ((5, 5), 18), ((6, 3), 18), ((6, 4), 18), ((6, 5), 18), ((7, 3), 18), ((7, 4), 18), ((7, 5), 18), ((0, 4), 18), ((1, 4), 18), ((2, 4), 18), ((1, 5), 18), ((2, 5), 18), ((3, 5), 18), ((1, 6), 18), ((2, 6), 18), ((3, 6), 18), ((8, 3), 18), ((8, 4), 18), ((8, 5), 18), ((8, 0), 20), ((8, 1), 18), ((8, 2), 18), ((5, 6), 18), ((6, 6), 18), ((7, 6), 18), ((4, 6), 18), ((3, 7), 18), ((4, 7), 18), ((5, 7), 18), ((4, 8), 18), ((5, 8), 18), ((6, 7), 18), ((6, 8), 18), ((5, 9), 18), ((6, 9), 18), ((7, 7), 18), ((7, 8), 18), ((7, 9), 18), ((2, 7), 18), ((2, 8), 18), ((3, 8), 18), ((3, 9), 18), ((4, 9), 18), ((9, 1), 18), ((9, 2), 18), ((9, 3), 18), ((9, 4), 18), ((8, 6), 18), ((9, 5), 18), ((9, 6), 18), ((8, 7), 18), ((9, 7), 18), ((8, 8), 18), ((9, 8), 18), ((8, 9), 18), ((9, 9), 18), ((2, 9), 18), ((9, 0), 20), ((0, 5), 18), ((0, 6), 18), ((0, 7), 20), ((1, 7), 18), ((1, 8), 20), ((1, 9), 20)]⟩


/-! ## Lemmas about the dict and set models -/

theorem alookup_aupsert_self {α : Type} (l : List (Cell × α)) (c : Cell) (v : α) :
    alookup (aupsert l c v) c = some v := by
  induction l with
  | nil => simp [aupsert, alookup]
  | cons kv rest ih =>
      obtain ⟨k, w⟩ := kv
      by_cases hk : k = c
      · subst hk
        simp [aupsert, alookup]
      · simp [aupsert, alookup, hk, ih]

theorem alookup_aupsert_ne {α : Type} (l : List (Cell × α)) (c c' : Cell) (v : α)
    (h : c' ≠ c) : alookup (aupsert l c v) c' = alookup l c' := by
  induction l with
  | nil => simp [aupsert, alookup, Ne.symm h]
  | cons kv rest ih =>
      obtain ⟨k, w⟩ := kv
      by_cases hk : k = c
      · subst hk
        simp [aupsert, alookup, h, Ne.symm h]
      · by_cases hk' : k = c'
        · subst hk'
          simp [aupsert, alookup, hk]
        · simp [aupsert, alookup, hk, hk', ih]

theorem aupsert_length_of_isSome {α : Type} (l : List (Cell × α)) (c : Cell) (v : α)
    (h : (alookup l c).isSome) : (aupsert l c v).length = l.length := by
  induction l with
  | nil => simp [alookup] at h
  | cons kv rest ih =>
      obtain ⟨k, w⟩ := kv
      by_cases hk : k = c
      · subst hk
        simp [aupsert]
      · simp [alookup, hk] at h
        simp [aupsert, hk, ih h]

theorem aupsert_length_of_none {α : Type} (l : List (Cell × α)) (c : Cell) (v : α)
    (h : alookup l c = none) : (aupsert l c v).length = l.length + 1 := by
  induction l with
  | nil => simp [aupsert]
  | cons kv rest ih =>
      obtain ⟨k, w⟩ := kv
      by_cases hk : k = c
      · subst hk
        simp [alookup] at h
      · simp [alookup, hk] at h
        simp [aupsert, hk, ih h]

theorem alookup_isSome_aupsert {α : Type} (l : List (Cell × α)) (c c' : Cell) (v : α)
    (h : (alookup l c').isSome) : (alookup (aupsert l c v) c').isSome := by
  by_cases hc : c' = c
  · subst hc
    simp [alookup_aupsert_self]
  · rwa [alookup_aupsert_ne _ _ _ _ hc]

theorem alookup_isSome_iff_mem {α : Type} (l : List (Cell × α)) (c : Cell) :
    (alookup l c).isSome ↔ c ∈ akeys l := by
  induction l with
  | nil => simp [alookup, akeys]
  | cons kv rest ih =>
      obtain ⟨k, w⟩ := kv
      by_cases hk : k = c
      · subst hk
        simp [alookup, akeys]
      · simp [alookup, akeys, hk, Ne.symm hk, ih]

theorem akeys_aupsert_nodup {α : Type} (l : List (Cell × α)) (c : Cell) (v : α)
    (h : (akeys l).Nodup) : (akeys (aupsert l c v)).Nodup := by
  induction l with
  | nil => simp [aupsert, akeys]
  | cons kv rest ih =>
      obtain ⟨k, w⟩ := kv
      simp only [akeys, List.map_cons, List.nodup_cons] at h
      by_cases hk : k = c
      · subst hk
        simpa [aupsert, akeys, List.nodup_cons] using h
      · rw [show aupsert ((k, w) :: rest) c v = (k, w) :: aupsert rest c v from by
          simp [aupsert, hk]]
        simp only [akeys, List.map_cons, List.nodup_cons]
        refine ⟨?_, ih h.2⟩
        intro hmem
        have hm : k ∈ akeys (aupsert rest c v) := by simpa [akeys] using hmem
        rw [← alookup_isSome_iff_mem] at hm
        rw [alookup_aupsert_ne _ _ _ _ hk, alookup_isSome_iff_mem] at hm
        exact h.1 (by simpa [akeys] using hm)

theorem sumVals_aupsert_of_some (l : List (Cell × ℕ)) (c : Cell) (v v0 : ℕ)
    (h : alookup l c = some v0) : sumVals (aupsert l c v) + v0 = sumVals l + v := by
  induction l with
  | nil => simp [alookup] at h
  | cons kv rest ih =>
      obtain ⟨k, w⟩ := kv
      by_cases hk : k = c
      · subst hk
        simp [alookup] at h
        subst h
        simp [aupsert, sumVals]
        ring
      · simp only [alookup, if_neg hk] at h
        have hrec := ih h
        rw [show aupsert ((k, w) :: rest) c v = (k, w) :: aupsert rest c v from by
          simp [aupsert, hk]]
        simp only [sumVals, List.map_cons, List.sum_cons] at hrec ⊢
        omega

theorem sumVals_aupsert_of_none (l : List (Cell × ℕ)) (c : Cell) (v : ℕ)
    (h : alookup l c = none) : sumVals (aupsert l c v) = sumVals l + v := by
  induction l with
  | nil => simp [aupsert, sumVals]
  | cons kv rest ih =>
      obtain ⟨k, w⟩ := kv
      by_cases hk : k = c
      · subst hk
        simp [alookup] at h
      · simp only [alookup, if_neg hk] at h
        have hrec := ih h
        rw [show aupsert ((k, w) :: rest) c v = (k, w) :: aupsert rest c v from by
          simp [aupsert, hk]]
        simp only [sumVals, List.map_cons, List.sum_cons] at hrec ⊢
        omega

theorem pickMin_mem (fS : List (Cell × ℕ)) (l : List Cell) (c : Cell)
    (h : pickMin fS l = some c) : c ∈ l := by
  cases l with
  | nil => simp [pickMin] at h
  | cons x xs =>
      simp only [pickMin, Option.some_inj] at h
      subst h
      have key : ∀ (ys : List Cell) (b : Cell), b ∈ x :: xs → (∀ y ∈ ys, y ∈ x :: xs) →
          ys.foldl (fun best y => if fltB (alookup fS y) (alookup fS best) then y else best) b
            ∈ x :: xs := by
        intro ys
        induction ys with
        | nil => intro b hb _; simpa using hb
        | cons z zs ihz =>
            intro b hb hmem
            simp only [List.foldl_cons]
            by_cases hz : fltB (alookup fS z) (alookup fS b)
            · simp only [hz, if_true]
              exact ihz z (hmem z (by simp)) (fun y hy => hmem y (by simp [hy]))
            · simp only [hz, if_false]
              exact ihz b hb (fun y hy => hmem y (by simp [hy]))
      exact key xs x (by simp) (fun y hy => by simp [hy])

theorem pickMin_none_iff (fS : List (Cell × ℕ)) (l : List Cell) :
    pickMin fS l = none ↔ l = [] := by
  cases l <;> simp [pickMin]

/-! ## Grid facts -/

theorem inBoundsB_iff (w h : ℕ) (c : Cell) : inBoundsB w h c = true ↔ InBds w h c := by
  simp [inBoundsB, InBds]

theorem allCells_nodup (w h : ℕ) : (allCells w h).Nodup := by
  refine List.Nodup.map ?_ (List.Nodup.product (List.nodup_range w) (List.nodup_range h))
  intro a b hab
  simp only [Prod.mk.injEq] at hab
  exact Prod.ext (by exact_mod_cast hab.1) (by exact_mod_cast hab.2)

theorem mem_allCells_of_inBds (w h : ℕ) (c : Cell) (hc : InBds w h c) :
    c ∈ allCells w h := by
  obtain ⟨h1, h2, h3, h4⟩ := hc
  refine List.mem_map.mpr ⟨(c.1.toNat, c.2.toNat), ?_, ?_⟩
  · refine List.pair_mem_product.mpr ⟨?_, ?_⟩ <;> [skip; skip] <;> rw [List.mem_range] <;> omega
  · ext <;> simp <;> omega

theorem allCells_length (w h : ℕ) : (allCells w h).length = w * h := by
  simp only [allCells, List.length_map]
  rw [List.length_product]
  simp

/-- Everything mem_getNeighbors gives us about a produced neighbor. -/
theorem mem_getNeighbors (w h : ℕ) (occ : Cell → Bool) (p n : Cell)
    (hn : n ∈ getNeighbors w h occ p) :
    InBds w h n ∧ occ n = false ∧ n ≠ p ∧ 1 ≤ heuristic p n ∧ heuristic p n ≤ 2 := by
  simp only [getNeighbors, List.mem_filter, List.mem_map, Bool.and_eq_true,
    Bool.not_eq_true'] at hn
  obtain ⟨⟨d, hd, hdef⟩, hbf, hocc⟩ := hn
  rw [inBoundsB_iff] at hbf
  refine ⟨hbf, hocc, ?_, ?_, ?_⟩ <;> subst hdef <;>
    simp only [neighborOffsets, List.mem_cons, List.not_mem_nil, or_false] at hd <;>
    rcases hd with h | h | h | h | h | h | h | h <;> subst h <;>
    simp [heuristic, Prod.ext_iff]

/-! ## The search invariant and its preservation -/

/-- Duplicate-free keys that are all either the start or in bounds number
at most w*h + 1. -/
theorem keys_length_le (w h : ℕ) (start : Cell) (ks : List Cell) (hnd : ks.Nodup)
    (hb : ∀ c ∈ ks, c = start ∨ InBds w h c) : ks.length ≤ w * h + 1 := by
  have hsub : ks ⊆ start :: allCells w h := by
    intro c hc
    rcases hb c hc with rfl | hinb
    · exact List.mem_cons_self _ _
    · exact List.mem_cons_of_mem _ (mem_allCells_of_inBds w h c hinb)
  have := (hnd.subperm hsub).length_le
  simpa [allCells_length] using this

theorem glen_le_of_mid (w h : ℕ) (occ : Cell → Bool) (start goal current : Cell)
    (st : AState) (hv : AInvMid w h occ start goal current st) :
    st.gS.length ≤ w * h + 1 := by
  have : st.gS.length = (akeys st.gS).length := by simp [akeys]
  rw [this]
  refine keys_length_le w h start _ hv.g_nodup ?_
  intro c hc
  exact hv.g_bounds c ((alookup_isSome_iff_mem _ _).mpr hc)

theorem opn_len_le_of_mid (w h : ℕ) (occ : Cell → Bool) (start goal current : Cell)
    (st : AState) (hv : AInvMid w h occ start goal current st) :
    st.opn.length ≤ w * h + 1 := by
  refine keys_length_le w h start _ hv.opn_nodup ?_
  intro c hc
  exact hv.g_bounds c (hv.opn_g c hc)

theorem relax_eq (ins : List Cell → Cell → List Cell) (goal current : Cell)
    (st : AState) (m : Cell) :
    relax ins goal current st m =
      if (match alookup st.gS m with
          | none => true
          | some gn => decide ((alookup st.gS current).getD 0 + heuristic current m < gn)) then
        relaxUpd ins goal current st m ((alookup st.gS current).getD 0 + heuristic current m)
      else st := by
  simp only [relax, relaxUpd]

theorem alookup_some_len_pos {α : Type} (l : List (Cell × α)) (c : Cell) (v : α)
    (h : alookup l c = some v) : 1 ≤ l.length := by
  cases l with
  | nil => simp [alookup] at h
  | cons kv rest => simp

theorem relax_update_pres (ins : List Cell → Cell → List Cell) (hins : InsOk ins)
    (w h : ℕ) (occ : Cell → Bool) (start goal current : Cell) (st : AState)
    (hv : AInvMid w h occ start goal current st) (m : Cell)
    (hm : m ∈ getNeighbors w h occ current) (gcur : ℕ)
    (hgcur : alookup st.gS current = some gcur)
    (hcase : alookup st.gS m = none ∨
      ∃ gn, alookup st.gS m = some gn ∧ gcur + heuristic current m < gn) :
    AInvMid w h occ start goal current
      (relaxUpd ins goal current st m (gcur + heuristic current m)) ∧
    phiA (w * h + 1) (relaxUpd ins goal current st m (gcur + heuristic current m)) <
      phiA (w * h + 1) st := by
  obtain ⟨hmb, hmocc, hmnec, hc1, hc2⟩ := mem_getNeighbors w h occ current m hm
  set t := gcur + heuristic current m with ht
  set st' := relaxUpd ins goal current st m t with hst'
  have hfields : st'.opn = ins st.opn m ∧ st'.cameFrom = aupsert st.cameFrom m current ∧
      st'.gS = aupsert st.gS m t ∧ st'.fS = aupsert st.fS m (t + heuristic m goal) := by
    refine ⟨rfl, rfl, rfl, rfl⟩
  obtain ⟨hop, hcf, hgs, hfs⟩ := hfields
  have hmstart : m ≠ start := by
    intro hms
    subst hms
    rcases hcase with hnone | ⟨gn, hgn, hlt⟩
    · rw [hv.g_start] at hnone
      exact Option.noConfusion hnone
    · rw [hv.g_start] at hgn
      have h0 : (0 : ℕ) = gn := Option.some_inj.mp hgn
      omega
  have hLpos : 1 ≤ st.gS.length := alookup_some_len_pos st.gS current gcur hgcur
  have hK : st.gS.length ≤ w * h + 1 := glen_le_of_mid w h occ start goal current st hv
  have hgcur_le : gcur ≤ 2 * (st.gS.length - 1) := hv.g_val current gcur hgcur
  have ht_le : t ≤ 2 * st.gS.length := by omega
  have hLen : (st.gS.length = st'.gS.length ∧
        (∃ gn, alookup st.gS m = some gn ∧ t < gn)) ∨
      (st.gS.length + 1 = st'.gS.length ∧ alookup st.gS m = none) := by
    rcases hcase with hnone | hsome
    · right
      rw [hgs]
      exact ⟨(aupsert_length_of_none st.gS m t hnone).symm, hnone⟩
    · left
      rw [hgs]
      obtain ⟨gn, hgn, hlt⟩ := hsome
      exact ⟨(aupsert_length_of_isSome st.gS m t (by simp [hgn])).symm, gn, hgn, hlt⟩
  have hLle : st.gS.length ≤ st'.gS.length := by rcases hLen with ⟨he, _⟩ | ⟨he, _⟩ <;> omega
  have hgm_self : alookup st'.gS m = some t := by rw [hgs]; exact alookup_aupsert_self _ _ _
  have hg_other : ∀ c, c ≠ m → alookup st'.gS c = alookup st.gS c := by
    intro c hc
    rw [hgs]
    exact alookup_aupsert_ne _ _ _ _ hc
  have hg_mono : ∀ c, (alookup st.gS c).isSome → (alookup st'.gS c).isSome := by
    intro c hc
    rw [hgs]
    exact alookup_isSome_aupsert _ _ _ _ hc
  have hcur' : alookup st'.gS current = some gcur := by
    rw [hg_other current (Ne.symm hmnec)]
    exact hgcur
  constructor
  · constructor
    case opn_nodup => rw [hop]; exact hins.nodup_ins _ _ hv.opn_nodup
    case opn_g =>
      intro c hcmem
      rw [hop] at hcmem
      rcases (hins.mem_ins _ _ _).mp hcmem with rfl | hold
      · simp [hgm_self]
      · exact hg_mono c (hv.opn_g c hold)
    case g_nodup => rw [hgs]; exact akeys_aupsert_nodup _ _ _ hv.g_nodup
    case g_start => rw [hg_other start (Ne.symm hmstart)]; exact hv.g_start
    case g_bounds =>
      intro c hc
      by_cases hcm : c = m
      · subst hcm
        exact Or.inr hmb
      · rw [hg_other c hcm] at hc
        exact hv.g_bounds c hc
    case g_val =>
      intro c v hcv
      by_cases hcm : c = m
      · rw [hcm, hgm_self] at hcv
        obtain rfl : t = v := Option.some_inj.mp hcv
        rcases hLen with ⟨he, gn, hgn, hlt⟩ | ⟨he, _⟩
        · have := hv.g_val m gn hgn
          omega
        · omega
      · rw [hg_other c hcm] at hcv
        have := hv.g_val c v hcv
        omega
    case cf_g =>
      intro n c hnc
      by_cases hnm : n = m
      · subst hnm
        rw [hcf, alookup_aupsert_self] at hnc
        obtain rfl : current = c := Option.some_inj.mp hnc
        exact ⟨t, gcur, hgm_self, hcur', by omega⟩
      · rw [hcf, alookup_aupsert_ne _ _ _ _ hnm] at hnc
        obtain ⟨gn, gc, hgn, hgc, hle⟩ := hv.cf_g n c hnc
        refine ⟨gn, ?_⟩
        rw [hg_other n hnm]
        by_cases hcm : c = m
        · subst hcm
          rcases hcase with hnone | ⟨gn2, hgn2, hlt2⟩
          · rw [hnone] at hgc
            exact Option.noConfusion hgc
          · rw [hgn2] at hgc
            obtain rfl : gn2 = gc := Option.some_inj.mp hgc
            exact ⟨t, hgn, hgm_self, by omega⟩
        · refine ⟨gc, hgn, ?_, hle⟩
          rw [hg_other c hcm]
          exact hgc
    case cf_free =>
      intro n c hnc
      by_cases hnm : n = m
      · subst hnm
        exact ⟨hmocc, hmb⟩
      · rw [hcf, alookup_aupsert_ne _ _ _ _ hnm] at hnc
        exact hv.cf_free n c hnc
    case cf_dom =>
      intro n hn
      by_cases hnm : n = m
      · subst hnm
        right
        rw [hcf, alookup_aupsert_self]
        simp
      · rw [hg_other n hnm] at hn
        rcases hv.cf_dom n hn with hs | hcfd
        · exact Or.inl hs
        · right
          rw [hcf, alookup_aupsert_ne _ _ _ _ hnm]
          exact hcfd
    case closed_mid =>
      intro n hn
      by_cases hnm : n = m
      · subst hnm
        left
        rw [hop]
        exact (hins.mem_ins _ _ _).mpr (Or.inl rfl)
      · rw [hg_other n hnm] at hn
        rcases hv.closed_mid n hn with hopn | hcur | hcl
        · left
          rw [hop]
          exact (hins.mem_ins _ _ _).mpr (Or.inr hopn)
        · exact Or.inr (Or.inl hcur)
        · refine Or.inr (Or.inr ?_)
          intro m' hm'
          exact hg_mono m' (hcl m' hm')
    case goal_opn =>
      intro hg
      rw [hop]
      by_cases hgm : goal = m
      · exact (hins.mem_ins _ _ _).mpr (Or.inl hgm)
      · rw [hg_other goal hgm] at hg
        exact (hins.mem_ins _ _ _).mpr (Or.inr (hv.goal_opn hg))
    case cur_g => simp [hcur']
  · have hK' : st'.gS.length ≤ w * h + 1 := by
      have : st'.gS.length = (akeys st'.gS).length := by simp [akeys]
      rw [this]
      refine keys_length_le w h start _ (by rw [hgs]; exact akeys_aupsert_nodup _ _ _ hv.g_nodup) ?_
      intro c hc
      rw [← alookup_isSome_iff_mem] at hc
      by_cases hcm : c = m
      · subst hcm
        exact Or.inr hmb
      · rw [hg_other c hcm] at hc
        exact hv.g_bounds c hc
    set K := w * h + 1 with hKdef
    rcases hLen with ⟨he, gn, hgn, hlt⟩ | ⟨he, hnone⟩
    · have hsum : sumVals st'.gS + gn = sumVals st.gS + t := by
        rw [hgs]
        exact sumVals_aupsert_of_some st.gS m t gn hgn
      simp only [phiA, ← he]
      omega
    · have hsum : sumVals st'.gS = sumVals st.gS + t := by
        rw [hgs]
        exact sumVals_aupsert_of_none st.gS m t hnone
      simp only [phiA]
      have hd1 : 1 ≤ K - st.gS.length := by omega
      have hmul : (2 * K + 1) * (K - st'.gS.length) + (2 * K + 1) =
          (2 * K + 1) * (K - st.gS.length) := by
        rw [← he]
        have : K - st.gS.length = (K - (st.gS.length + 1)) + 1 := by omega
        rw [this]
        ring
      have htK : t < 2 * K + 1 := by omega
      omega

theorem relax_pres (ins : List Cell → Cell → List Cell) (hins : InsOk ins)
    (w h : ℕ) (occ : Cell → Bool) (start goal current : Cell) (st : AState)
    (hv : AInvMid w h occ start goal current st) (m : Cell)
    (hm : m ∈ getNeighbors w h occ current) :
    AInvMid w h occ start goal current (relax ins goal current st m) ∧
    (alookup (relax ins goal current st m).gS m).isSome ∧
    (∀ c, (alookup st.gS c).isSome → (alookup (relax ins goal current st m).gS c).isSome) ∧
    (relax ins goal current st m = st ∨
      phiA (w * h + 1) (relax ins goal current st m) < phiA (w * h + 1) st) := by
  obtain ⟨gcur, hgcur⟩ := Option.isSome_iff_exists.mp hv.cur_g
  have hgetd : (alookup st.gS current).getD 0 = gcur := by rw [hgcur]; rfl
  rw [relax_eq]
  rcases hgm : alookup st.gS m with _ | gn
  · simp only [hgetd]
    have := relax_update_pres ins hins w h occ start goal current st hv m hm gcur hgcur
      (Or.inl hgm)
    refine ⟨this.1, ?_, ?_, Or.inr this.2⟩
    · simp [relaxUpd, alookup_aupsert_self]
    · intro c hc
      simp only [relaxUpd]
      exact alookup_isSome_aupsert _ _ _ _ hc
  · simp only [hgetd]
    by_cases hlt : gcur + heuristic current m < gn
    · simp only [hlt, decide_True, if_true]
      have := relax_update_pres ins hins w h occ start goal current st hv m hm gcur hgcur
        (Or.inr ⟨gn, hgm, hlt⟩)
      refine ⟨this.1, ?_, ?_, Or.inr this.2⟩
      · simp [relaxUpd, alookup_aupsert_self]
      · intro c hc
        simp only [relaxUpd]
        exact alookup_isSome_aupsert _ _ _ _ hc
    · simp only [hlt, decide_False, if_false]
      exact ⟨hv, by simp [hgm], fun c hc => hc, Or.inl rfl⟩

theorem fold_relax_pres (ins : List Cell → Cell → List Cell) (hins : InsOk ins)
    (w h : ℕ) (occ : Cell → Bool) (start goal current : Cell) :
    ∀ (todo : List Cell) (st : AState),
      (∀ m ∈ todo, m ∈ getNeighbors w h occ current) →
      AInvMid w h occ start goal current st →
      AInvMid w h occ start goal current (todo.foldl (relax ins goal current) st) ∧
      (∀ m ∈ todo, (alookup (todo.foldl (relax ins goal current) st).gS m).isSome) ∧
      (∀ c, (alookup st.gS c).isSome →
        (alookup (todo.foldl (relax ins goal current) st).gS c).isSome) ∧
      (todo.foldl (relax ins goal current) st = st ∨
        phiA (w * h + 1) (todo.foldl (relax ins goal current) st) < phiA (w * h + 1) st) := by
  intro todo
  induction todo with
  | nil =>
      intro st _ hv
      exact ⟨hv, by simp, fun c hc => hc, Or.inl rfl⟩
  | cons m rest ih =>
      intro st htodo hv
      have hmn : m ∈ getNeighbors w h occ current := htodo m (by simp)
      obtain ⟨hv1, hm1, hmono1, hphi1⟩ :=
        relax_pres ins hins w h occ start goal current st hv m hmn
      obtain ⟨hv2, hm2, hmono2, hphi2⟩ :=
        ih (relax ins goal current st m) (fun x hx => htodo x (by simp [hx])) hv1
      simp only [List.foldl_cons]
      refine ⟨hv2, ?_, ?_, ?_⟩
      · intro x hx
        rcases List.mem_cons.mp hx with rfl | hxr
        · exact hmono2 x hm1
        · exact hm2 x hxr
      · intro c hc
        exact hmono2 c (hmono1 c hc)
      · rcases hphi1 with he1 | hlt1
        · rw [he1] at hphi2 ⊢
          exact hphi2
        · rcases hphi2 with he2 | hlt2
          · rw [he2]
            exact Or.inr hlt1
          · exact Or.inr (lt_trans hlt2 hlt1)

theorem stepA_next_pres (ins : List Cell → Cell → List Cell) (hins : InsOk ins)
    (w h : ℕ) (occ : Cell → Bool) (start goal : Cell) (st st' : AState)
    (hv : AInv w h occ start goal st)
    (hstep : stepA ins w h occ start goal st = .next st') :
    AInv w h occ start goal st' ∧
    measureA (w * h + 1) st' < measureA (w * h + 1) st := by
  rcases hpick : pickMin st.fS st.opn with _ | current
  · simp [stepA, hpick] at hstep
  · have hcur_opn : current ∈ st.opn := pickMin_mem st.fS st.opn current hpick
    have hcur_g : (alookup st.gS current).isSome := hv.opn_g current hcur_opn
    by_cases hcg : current = goal
    · simp [stepA, hpick, hcg] at hstep
    · simp only [stepA, hpick, hcg, if_false] at hstep
      set stEr : AState := { st with opn := st.opn.erase current } with hEr
      have hvmid : AInvMid w h occ start goal current stEr := by
        constructor
        case opn_nodup => exact hv.opn_nodup.erase current
        case opn_g =>
          intro c hc
          exact hv.opn_g c (List.mem_of_mem_erase hc)
        case g_nodup => exact hv.g_nodup
        case g_start => exact hv.g_start
        case g_bounds => exact hv.g_bounds
        case g_val => exact hv.g_val
        case cf_g => exact hv.cf_g
        case cf_free => exact hv.cf_free
        case cf_dom => exact hv.cf_dom
        case closed_mid =>
          intro n hn
          rcases hv.closed_nb n hn with hopn | hcl
          · by_cases hnc : n = current
            · exact Or.inr (Or.inl hnc)
            · exact Or.inl ((hv.opn_nodup.mem_erase_iff).mpr ⟨hnc, hopn⟩)
          · exact Or.inr (Or.inr hcl)
        case goal_opn =>
          intro hg
          exact (hv.opn_nodup.mem_erase_iff).mpr ⟨fun hh => hcg hh.symm, hv.goal_opn hg⟩
        case cur_g => exact hcur_g
      obtain ⟨hvf, hall, hmono, hphi⟩ :=
        fold_relax_pres ins hins w h occ start goal current
          (getNeighbors w h occ current) stEr (fun m hm => hm) hvmid
      have hfold : (getNeighbors w h occ current).foldl (relax ins goal current) stEr = st' := by
        injection hstep
      rw [hfold] at hvf hall hphi
      have hinv' : AInv w h occ start goal st' := by
        constructor
        case opn_nodup => exact hvf.opn_nodup
        case opn_g => exact hvf.opn_g
        case g_nodup => exact hvf.g_nodup
        case g_start => exact hvf.g_start
        case g_bounds => exact hvf.g_bounds
        case g_val => exact hvf.g_val
        case cf_g => exact hvf.cf_g
        case cf_free => exact hvf.cf_free
        case cf_dom => exact hvf.cf_dom
        case closed_nb =>
          intro n hn
          rcases hvf.closed_mid n hn with hopn | hcur | hcl
          · exact Or.inl hopn
          · right
            intro m hm
            exact hall m (by rwa [hcur] at hm)
          · exact Or.inr hcl
        case goal_opn => exact hvf.goal_opn
      refine ⟨hinv', ?_⟩
      set K := w * h + 1 with hK
      have hopnK : st'.opn.length ≤ K :=
        opn_len_le_of_mid w h occ start goal current st' hvf
      have hphiEr : phiA K stEr = phiA K st := rfl
      have hlenEr : (st.opn.erase current).length + 1 = st.opn.length := by
        rw [List.length_erase_of_mem hcur_opn]
        have : 1 ≤ st.opn.length := List.length_pos.mpr (by
          intro hnil
          rw [hnil] at hcur_opn
          exact List.not_mem_nil current hcur_opn)
        omega
      rcases hphi with heq | hlt
      · rw [heq]
        simp only [measureA, hphiEr, hEr]
        omega
      · rw [hphiEr] at hlt
        simp only [measureA]
        have hp1 : phiA K st' + 1 ≤ phiA K st := hlt
        have hmul : (phiA K st' + 1) * (K + 1) ≤ phiA K st * (K + 1) :=
          Nat.mul_le_mul_right _ hp1
        have hexp : (phiA K st' + 1) * (K + 1) = phiA K st' * (K + 1) + (K + 1) := by ring
        omega

theorem initState_inv (w h : ℕ) (occ : Cell → Bool) (start goal : Cell) :
    AInv w h occ start goal (initState start goal) := by
  constructor
  case opn_nodup => simp [initState]
  case opn_g =>
    intro c hc
    simp only [initState, List.mem_singleton] at hc
    simp [initState, alookup, hc]
  case g_nodup => simp [initState, akeys]
  case g_start => simp [initState, alookup]
  case g_bounds =>
    intro c hc
    simp only [initState, alookup] at hc
    by_cases hcs : start = c
    · exact Or.inl hcs.symm
    · simp [hcs] at hc
  case g_val =>
    intro c v hcv
    simp only [initState, alookup] at hcv
    by_cases hcs : start = c
    · simp [hcs] at hcv
      omega
    · simp [hcs] at hcv
  case cf_g =>
    intro n c hnc
    simp [initState, alookup] at hnc
  case cf_free =>
    intro n c hnc
    simp [initState, alookup] at hnc
  case cf_dom =>
    intro n hn
    simp only [initState, alookup] at hn
    by_cases hns : start = n
    · exact Or.inl hns.symm
    · simp [hns] at hn
  case closed_nb =>
    intro n hn
    simp only [initState, alookup] at hn
    by_cases hns : start = n
    · subst hns
      simp [initState]
    · simp [hns] at hn
  case goal_opn =>
    intro hg
    simp only [initState, alookup] at hg
    by_cases hgs : start = goal
    · simp [initState, hgs]
    · simp [hgs] at hg

theorem astarLoop_no_fuel_out (ins : List Cell → Cell → List Cell) (hins : InsOk ins)
    (w h : ℕ) (occ : Cell → Bool) (start goal : Cell) :
    ∀ (fuel : ℕ) (st : AState), AInv w h occ start goal st →
      measureA (w * h + 1) st < fuel →
      (astarLoop ins w h occ start goal fuel st).isSome := by
  intro fuel
  induction fuel with
  | zero => intro st _ hlt; omega
  | succ f ih =>
      intro st hv hlt
      rcases hstep : stepA ins w h occ start goal st with p | _ | st'
      · simp [astarLoop, hstep]
      · simp [astarLoop, hstep]
      · obtain ⟨hv', hm⟩ :=
          stepA_next_pres ins hins w h occ start goal st st' hv hstep
        simp only [astarLoop, hstep]
        exact ih st' hv' (by omega)

theorem measure_init_lt (w h : ℕ) (start goal : Cell) :
    measureA (w * h + 1) (initState start goal) < fuelBound w h := by
  have h1 : phiA (w * h + 1) (initState start goal) ≤
      (2 * (w * h + 1) + 1) * (w * h + 1) := by
    simp only [phiA, initState, sumVals]
    have : (w * h + 1) - 1 ≤ w * h + 1 := by omega
    calc (2 * (w * h + 1) + 1) * ((w * h + 1) - ([(start, 0)] : List (Cell × ℕ)).length) +
          ([((start : Cell), (0 : ℕ))].map Prod.snd).sum
        ≤ (2 * (w * h + 1) + 1) * (w * h + 1) + 0 := by
          refine Nat.add_le_add ?_ (by simp)
          exact Nat.mul_le_mul_left _ (by simp)
      _ = (2 * (w * h + 1) + 1) * (w * h + 1) := by omega
  have h2 : measureA (w * h + 1) (initState start goal) ≤
      (2 * (w * h + 1) + 1) * (w * h + 1) * (w * h + 2) + 1 := by
    simp only [measureA]
    have hlen : (initState start goal).opn.length = 1 := by simp [initState]
    rw [hlen]
    have hmm := Nat.mul_le_mul_right (w * h + 1 + 1) h1
    have hee : (2 * (w * h + 1) + 1) * (w * h + 1) * (w * h + 1 + 1) =
        (2 * (w * h + 1) + 1) * (w * h + 1) * (w * h + 2) := by ring
    omega
  have h3 : (2 * (w * h + 1) + 1) * (w * h + 1) * (w * h + 2) + 1 < fuelBound w h := by
    simp only [fuelBound]
    omega
  omega

/-! ## Results, reconstruction, termination -/

theorem astarLoop_result (ins : List Cell → Cell → List Cell) (hins : InsOk ins)
    (w h : ℕ) (occ : Cell → Bool) (start goal : Cell) :
    ∀ (fuel : ℕ) (st : AState) (p : List Cell), AInv w h occ start goal st →
      astarLoop ins w h occ start goal fuel st = some p →
      (p = [] ∧ ∃ stf, AInv w h occ start goal stf ∧ stf.opn = []) ∨
      (∃ stf gn, AInv w h occ start goal stf ∧ alookup stf.gS goal = some gn ∧
        p = reconstruct stf.cameFrom start goal) := by
  intro fuel
  induction fuel with
  | zero =>
      intro st p _ hrun
      simp [astarLoop] at hrun
  | succ f ih =>
      intro st p hv hrun
      rcases hstep : stepA ins w h occ start goal st with q | _ | st'
      · simp only [astarLoop, hstep, Option.some_inj] at hrun
        subst hrun
        right
        rcases hpick : pickMin st.fS st.opn with _ | current
        · simp [stepA, hpick] at hstep
        · by_cases hcg : current = goal
          · have hgoalg : (alookup st.gS goal).isSome := by
              rw [← hcg]
              exact hv.opn_g current (pickMin_mem st.fS st.opn current hpick)
            obtain ⟨gn, hgn⟩ := Option.isSome_iff_exists.mp hgoalg
            refine ⟨st, gn, hv, hgn, ?_⟩
            simp only [stepA, hpick, hcg, if_true] at hstep
            injection hstep with hq
            exact hq.symm
          · simp [stepA, hpick, hcg] at hstep
      · simp only [astarLoop, hstep, Option.some_inj] at hrun
        subst hrun
        left
        refine ⟨rfl, st, hv, ?_⟩
        rcases hpick : pickMin st.fS st.opn with _ | current
        · exact (pickMin_none_iff st.fS st.opn).mp hpick
        · by_cases hcg : current = goal <;> simp [stepA, hpick, hcg] at hstep
      · simp only [astarLoop, hstep] at hrun
        obtain ⟨hv', _⟩ := stepA_next_pres ins hins w h occ start goal st st' hv hstep
        exact ih st' p hv' hrun

theorem start_cf_none (w h : ℕ) (occ : Cell → Bool) (start goal : Cell) (st : AState)
    (hv : AInv w h occ start goal st) : alookup st.cameFrom start = none := by
  rcases hcf : alookup st.cameFrom start with _ | c
  · rfl
  · obtain ⟨gn, gc, hgn, _, hle⟩ := hv.cf_g start c hcf
    rw [hv.g_start] at hgn
    have : (0 : ℕ) = gn := Option.some_inj.mp hgn
    omega

theorem walkPred_spec (w h : ℕ) (occ : Cell → Bool) (start goal : Cell) (st : AState)
    (hv : AInv w h occ start goal st) :
    ∀ (fuel gn : ℕ), gn < fuel → ∀ (cur : Cell), alookup st.gS cur = some gn →
      ∀ (acc : List Cell),
      ∃ chain, walkPred st.cameFrom fuel cur acc = (acc ++ chain, start) ∧
        chain.Nodup ∧
        (∀ c ∈ chain, (alookup st.cameFrom c).isSome ∧
          ∃ gc, alookup st.gS c = some gc ∧ gc ≤ gn) ∧
        ((chain = [] ∧ cur = start) ∨ (∃ tl, chain = cur :: tl)) := by
  intro fuel
  induction fuel with
  | zero => intro gn hlt; omega
  | succ f ih =>
      intro gn hlt cur hcur acc
      rcases hcf : alookup st.cameFrom cur with _ | pr
      · have hcs : cur = start := by
          rcases hv.cf_dom cur (by simp [hcur]) with hs | hsome
          · exact hs
          · rw [hcf] at hsome
            simp at hsome
        refine ⟨[], ?_, by simp, by simp, Or.inl ⟨rfl, hcs⟩⟩
        subst hcs
        simp [walkPred, hcf]
      · obtain ⟨gn0, gp, hgn0, hgp, hle⟩ := hv.cf_g cur pr hcf
        rw [hcur] at hgn0
        obtain rfl : gn = gn0 := Option.some_inj.mp hgn0
        obtain ⟨chain', hw, hnd, hmem, hsh⟩ :=
          ih gp (by omega) pr hgp (acc ++ [cur])
        refine ⟨cur :: chain', ?_, ?_, ?_, Or.inr ⟨chain', rfl⟩⟩
        · simp only [walkPred, hcf]
          rw [hw, List.append_assoc]
          rfl
        · refine List.nodup_cons.mpr ⟨?_, hnd⟩
          intro hmemc
          obtain ⟨_, gc, hgc, hgcle⟩ := hmem cur hmemc
          rw [hcur] at hgc
          have : gn = gc := Option.some_inj.mp hgc
          omega
        · intro c hc
          rcases List.mem_cons.mp hc with rfl | hcr
          · exact ⟨by simp [hcf], gn, hcur, le_refl _⟩
          · obtain ⟨hc1, gc, hgc, hgcle⟩ := hmem c hcr
            exact ⟨hc1, gc, hgc, by omega⟩

theorem walkPred_acc_extends (cf : List (Cell × Cell)) :
    ∀ (fuel : ℕ) (cur : Cell) (acc : List Cell),
      ∃ rest, (walkPred cf fuel cur acc).1 = acc ++ rest := by
  intro fuel
  induction fuel with
  | zero => intro cur acc; exact ⟨[], by simp [walkPred]⟩
  | succ f ih =>
      intro cur acc
      rcases hcf : alookup cf cur with _ | pr
      · exact ⟨[], by simp [walkPred, hcf]⟩
      · obtain ⟨rest, hrest⟩ := ih pr (acc ++ [cur])
        refine ⟨cur :: rest, ?_⟩
        simp only [walkPred, hcf]
        rw [hrest, List.append_assoc]
        rfl

theorem walkPred_mono (cf : List (Cell × Cell)) :
    ∀ (f1 : ℕ) (cur : Cell) (acc res : List Cell) (fin : Cell),
      walkPred cf f1 cur acc = (res, fin) → alookup cf fin = none →
      ∀ (f2 : ℕ), res.length ≤ acc.length + f2 →
      walkPred cf f2 cur acc = (res, fin) := by
  intro f1
  induction f1 with
  | zero =>
      intro cur acc res fin hrun hfin f2 _
      simp only [walkPred, Prod.mk.injEq] at hrun
      obtain ⟨rfl, rfl⟩ := hrun
      cases f2 with
      | zero => rfl
      | succ f2' => simp [walkPred, hfin]
  | succ f ih =>
      intro cur acc res fin hrun hfin f2 hlen
      rcases hcf : alookup cf cur with _ | pr
      · simp only [walkPred, hcf, Prod.mk.injEq] at hrun
        obtain ⟨rfl, rfl⟩ := hrun
        cases f2 with
        | zero => rfl
        | succ f2' => simp [walkPred, hcf]
      · simp only [walkPred, hcf] at hrun
        obtain ⟨rest, hrest⟩ := walkPred_acc_extends cf f pr (acc ++ [cur])
        have hreslen : acc.length + 1 ≤ res.length := by
          have : (walkPred cf f pr (acc ++ [cur])).1 = res := by rw [hrun]
          rw [hrest] at this
          have := congrArg List.length this
          simp at this
          omega
        cases f2 with
        | zero => omega
        | succ f2' =>
            simp only [walkPred, hcf]
            refine ih pr (acc ++ [cur]) res fin hrun hfin f2' ?_
            simp
            omega

theorem reconstruct_spec (w h : ℕ) (occ : Cell → Bool) (start goal : Cell)
    (st : AState) (hv : AInv w h occ start goal st) (gn : ℕ)
    (hgoal : alookup st.gS goal = some gn) :
    reconstruct st.cameFrom start goal ≠ [] ∧
    (reconstruct st.cameFrom start goal).head? = some start ∧
    (reconstruct st.cameFrom start goal).getLast? = some goal ∧
    ∀ c ∈ reconstruct st.cameFrom start goal,
      c = start ∨ (occ c = false ∧ InBds w h c) := by
  obtain ⟨chain, hw, hnd, hmem, hsh⟩ :=
    walkPred_spec w h occ start goal st hv (gn + 1) gn (by omega) goal hgoal []
  have hchsub : chain ⊆ akeys st.cameFrom := by
    intro c hc
    exact (alookup_isSome_iff_mem st.cameFrom c).mp (hmem c hc).1
  have hchlen : chain.length ≤ st.cameFrom.length := by
    have := (hnd.subperm hchsub).length_le
    simpa [akeys] using this
  have hfin : alookup st.cameFrom start = none := start_cf_none w h occ start goal st hv
  have hrun2 : walkPred st.cameFrom (st.cameFrom.length + 1) goal [] = (chain, start) := by
    refine walkPred_mono st.cameFrom (gn + 1) goal [] chain start ?_ hfin _ ?_
    · simpa using hw
    · simp
      omega
  have hrec : reconstruct st.cameFrom start goal = (chain ++ [start]).reverse := by
    simp only [reconstruct, hrun2]
  rw [hrec]
  refine ⟨by simp, ?_, ?_, ?_⟩
  · rw [List.head?_reverse]
    exact List.getLast?_concat _
  · rw [List.getLast?_reverse]
    rcases hsh with ⟨hnil, hcs⟩ | ⟨tl, htl⟩
    · subst hnil
      simp [hcs]
    · subst htl
      simp
  · intro c hc
    simp only [List.mem_reverse, List.mem_append, List.mem_singleton] at hc
    rcases hc with hcch | rfl
    · obtain ⟨hcf, _⟩ := hmem c hcch
      obtain ⟨pr, hpr⟩ := Option.isSome_iff_exists.mp hcf
      exact Or.inr (hv.cf_free c pr hpr)
    · exact Or.inl rfl

theorem findPath_sound (ins : List Cell → Cell → List Cell) (hins : InsOk ins)
    (w h : ℕ) (occ : Cell → Bool) (s g : Cell) :
    ∀ c ∈ findPath ins w h occ s g, c = s ∨ (occ c = false ∧ InBds w h c) := by
  intro c hc
  rcases hrun : astarLoop ins w h occ s g (fuelBound w h) (initState s g) with _ | p
  · simp [findPath, hrun] at hc
  · have hmem : c ∈ p := by
      simpa [findPath, hrun] using hc
    rcases astarLoop_result ins hins w h occ s g (fuelBound w h) (initState s g) p
        (initState_inv w h occ s g) hrun with ⟨rfl, _⟩ | ⟨stf, gn, hvf, hgn, rfl⟩
    · simp at hmem
    · exact (reconstruct_spec w h occ s g stf hvf gn hgn).2.2.2 c hmem

/-- Characterization of the neighbor offsets. -/
theorem mem_neighborOffsets_iff (d : ℤ × ℤ) :
    d ∈ neighborOffsets ↔ d.1.natAbs ≤ 1 ∧ d.2.natAbs ≤ 1 ∧ d ≠ (0, 0) := by
  obtain ⟨a, b⟩ := d
  constructor
  · intro hd
    simp only [neighborOffsets, List.mem_cons, List.not_mem_nil, or_false] at hd
    rcases hd with h | h | h | h | h | h | h | h <;>
      (obtain ⟨rfl, rfl⟩ := Prod.mk.injEq .. ▸ h; simp)
  · rintro ⟨ha, hb, hne⟩
    have ha' : a = -1 ∨ a = 0 ∨ a = 1 := by omega
    have hb' : b = -1 ∨ b = 0 ∨ b = 1 := by omega
    have hne' : ¬(a = 0 ∧ b = 0) := by
      rintro ⟨rfl, rfl⟩
      exact hne rfl
    rcases ha' with rfl | rfl | rfl <;> rcases hb' with rfl | rfl | rfl <;>
      simp_all [neighborOffsets]

/-- Characterization of _get_neighbors membership. -/
theorem mem_getNeighbors_iff (w h : ℕ) (occ : Cell → Bool) (p n : Cell) :
    n ∈ getNeighbors w h occ p ↔
      InBds w h n ∧ occ n = false ∧ (n.1 - p.1).natAbs ≤ 1 ∧
        (n.2 - p.2).natAbs ≤ 1 ∧ n ≠ p := by
  simp only [getNeighbors, List.mem_filter, List.mem_map, Bool.and_eq_true,
    Bool.not_eq_true', inBoundsB_iff]
  constructor
  · rintro ⟨⟨d, hd, rfl⟩, hb, hocc⟩
    rw [mem_neighborOffsets_iff] at hd
    obtain ⟨hd1, hd2, hd3⟩ := hd
    refine ⟨hb, hocc, by simp; omega, by simp; omega, ?_⟩
    intro hcon
    apply hd3
    have h1 := congrArg Prod.fst hcon
    have h2 := congrArg Prod.snd hcon
    simp at h1 h2
    exact Prod.ext (by omega) (by omega)
  · rintro ⟨hb, hocc, h1, h2, hne⟩
    refine ⟨⟨(n.1 - p.1, n.2 - p.2), ?_, by ext <;> simp⟩, hb, hocc⟩
    rw [mem_neighborOffsets_iff]
    refine ⟨by simpa using h1, by simpa using h2, ?_⟩
    intro hcon
    have hc1 := congrArg Prod.fst hcon
    have hc2 := congrArg Prod.snd hcon
    simp at hc1 hc2
    exact hne (Prod.ext (by omega) (by omega))

theorem stepToward_facts (w h : ℕ) (c g : Cell) (hc : InBds w h c) (hg : InBds w h g)
    (hne : c ≠ g) :
    stepToward c g ∈ getNeighbors w h (fun _ => false) c ∧
    heuristic (stepToward c g) g < heuristic c g := by
  obtain ⟨hc1, hc2, hc3, hc4⟩ := hc
  obtain ⟨hg1, hg2, hg3, hg4⟩ := hg
  have hne' : c.1 ≠ g.1 ∨ c.2 ≠ g.2 := by
    by_contra hcon
    push_neg at hcon
    exact hne (Prod.ext hcon.1 hcon.2)
  have hs1 : (stepToward c g).1 = c.1 + (if c.1 < g.1 then 1 else if g.1 < c.1 then -1 else 0) :=
    rfl
  have hs2 : (stepToward c g).2 = c.2 + (if c.2 < g.2 then 1 else if g.2 < c.2 then -1 else 0) :=
    rfl
  have hb : InBds w h (stepToward c g) := by
    refine ⟨?_, ?_, ?_, ?_⟩ <;> simp only [hs1, hs2] <;> split_ifs <;> omega
  have habs1 : ((stepToward c g).1 - c.1).natAbs ≤ 1 := by
    rw [hs1]; split_ifs <;> omega
  have habs2 : ((stepToward c g).2 - c.2).natAbs ≤ 1 := by
    rw [hs2]; split_ifs <;> omega
  have hnec : stepToward c g ≠ c := by
    intro hcon
    have hx := congrArg Prod.fst hcon
    have hy := congrArg Prod.snd hcon
    rw [hs1] at hx
    rw [hs2] at hy
    split_ifs at hx hy <;> omega
  refine ⟨(mem_getNeighbors_iff w h _ c _).mpr ⟨hb, rfl, habs1, habs2, hnec⟩, ?_⟩
  simp only [heuristic, hs1, hs2]
  split_ifs <;> omega

/-! ## Completeness on obstacle-free grids -/

theorem getNeighbors_congr (w h : ℕ) (occ occ' : Cell → Bool)
    (hocc : ∀ c, occ c = occ' c) (p : Cell) :
    getNeighbors w h occ p = getNeighbors w h occ' p := by
  simp only [getNeighbors]
  congr 1
  funext n
  rw [hocc n]

theorem free_goal_scored (w h : ℕ) (occ : Cell → Bool) (hocc : ∀ c, occ c = false)
    (s g : Cell) (st : AState)
    (hv : AInv w h occ s g st) (hopn : st.opn = [])
    (hs : InBds w h s) (hg : InBds w h g) :
    (alookup st.gS g).isSome := by
  suffices key : ∀ n : ℕ, ∀ c : Cell, heuristic c g = n → InBds w h c →
      (alookup st.gS c).isSome → (alookup st.gS g).isSome by
    exact key (heuristic s g) s rfl hs (by simp [hv.g_start])
  intro n
  induction n using Nat.strong_induction_on with
  | _ n ih =>
      intro c hdist hcb hcg
      by_cases hcgoal : c = g
      · rwa [hcgoal] at hcg
      · have hstep := stepToward_facts w h c g hcb hg hcgoal
        have hclosed := hv.closed_nb c hcg
        rw [hopn] at hclosed
        rcases hclosed with habs | hnb
        · simp at habs
        · have hmemocc : stepToward c g ∈ getNeighbors w h occ c := by
            rw [getNeighbors_congr w h occ (fun _ => false) hocc c]
            exact hstep.1
          have hnext := hnb (stepToward c g) hmemocc
          exact ih (heuristic (stepToward c g) g) (by rw [← hdist]; exact hstep.2)
            (stepToward c g) rfl
            (mem_getNeighbors w h (fun _ => false) c _ hstep.1).1 hnext

theorem findPath_complete (ins : List Cell → Cell → List Cell) (hins : InsOk ins)
    (w h : ℕ) (occ : Cell → Bool) (hocc : ∀ c, occ c = false) (s g : Cell)
    (hs : InBds w h s) (hg : InBds w h g) :
    findPath ins w h occ s g ≠ [] ∧
    (findPath ins w h occ s g).head? = some s ∧
    (findPath ins w h occ s g).getLast? = some g := by
  have hisSome := astarLoop_no_fuel_out ins hins w h occ s g (fuelBound w h)
    (initState s g) (initState_inv w h occ s g) (measure_init_lt w h s g)
  obtain ⟨p, hp⟩ := Option.isSome_iff_exists.mp hisSome
  have hfp : findPath ins w h occ s g = p := by simp [findPath, hp]
  rcases astarLoop_result ins hins w h occ s g (fuelBound w h) (initState s g) p
      (initState_inv w h occ s g) hp with ⟨hpnil, stf, hvf, hopnf⟩ | ⟨stf, gn, hvf, hgn, hprec⟩
  · exfalso
    have hscored := free_goal_scored w h occ hocc s g stf hvf hopnf hs hg
    have hmem := hvf.goal_opn hscored
    rw [hopnf] at hmem
    simp at hmem
  · have hspec := reconstruct_spec w h occ s g stf hvf gn hgn
    rw [hfp, hprec]
    exact ⟨hspec.1, hspec.2.1, hspec.2.2.1⟩

/-! ## The evolving search state and lawful insertion -/

theorem stepN_inv (ins : List Cell → Cell → List Cell) (hins : InsOk ins)
    (w h : ℕ) (occ : Cell → Bool) (start goal : Cell) :
    ∀ (n : ℕ) (st st' : AState), AInv w h occ start goal st →
      stepN ins w h occ start goal n st = some st' → AInv w h occ start goal st' := by
  intro n
  induction n with
  | zero =>
      intro st st' hv hrun
      simp only [stepN, Option.some_inj] at hrun
      rwa [← hrun]
  | succ k ih =>
      intro st st' hv hrun
      rcases hstep : stepA ins w h occ start goal st with p | _ | stm <;>
        simp only [stepN, hstep] at hrun
      · exact Option.noConfusion hrun
      · exact Option.noConfusion hrun
      · exact ih stm st' (stepA_next_pres ins hins w h occ start goal st stm hv hstep).1 hrun

theorem walk_ends_at_start (w h : ℕ) (occ : Cell → Bool) (start goal : Cell)
    (st : AState) (hv : AInv w h occ start goal st) (cur : Cell) (gn : ℕ)
    (hcur : alookup st.gS cur = some gn) :
    (walkPred st.cameFrom (st.cameFrom.length + 1) cur []).2 = start := by
  obtain ⟨chain, hw, hnd, hmem, _⟩ :=
    walkPred_spec w h occ start goal st hv (gn + 1) gn (by omega) cur hcur []
  have hchsub : chain ⊆ akeys st.cameFrom := by
    intro c hc
    exact (alookup_isSome_iff_mem st.cameFrom c).mp (hmem c hc).1
  have hchlen : chain.length ≤ st.cameFrom.length := by
    have := (hnd.subperm hchsub).length_le
    simpa [akeys] using this
  have hfin : alookup st.cameFrom start = none := start_cf_none w h occ start goal st hv
  have hrun2 : walkPred st.cameFrom (st.cameFrom.length + 1) cur [] = (chain, start) := by
    refine walkPred_mono st.cameFrom (gn + 1) cur [] chain start ?_ hfin _ ?_
    · simpa using hw
    · have hz : ([] : List Cell).length = 0 := rfl
      omega
  rw [hrun2]

theorem insEnd_ok : InsOk insEnd := by
  constructor
  · intro l x y
    simp only [insEnd]
    split_ifs with hx
    · constructor
      · intro hy
        exact Or.inr hy
      · rintro (rfl | hy)
        · exact hx
        · exact hy
    · simp only [List.mem_append, List.mem_singleton]
      exact or_comm
  · intro l x hnd
    simp only [insEnd]
    split_ifs with hx
    · exact hnd
    · rw [List.nodup_append]
      refine ⟨hnd, List.nodup_singleton x, ?_⟩
      intro a ha hax
      simp only [List.mem_singleton] at hax
      subst hax
      exact hx ha

/-! ## Synthesizer lemmas -/

theorem atan2_zero_zero : atan2 0 0 = 0 := by
  have h0 : (⟨0, 0⟩ : ℂ) = 0 := by
    apply Complex.ext <;> simp
  rw [atan2, h0]
  exact Complex.arg_zero

theorem normAngle_zero : normAngle 0 = 0 := by
  rw [normAngle, if_neg (not_lt.mpr Real.pi_pos.le),
    if_neg (not_lt.mpr (neg_nonpos.mpr Real.pi_pos.le))]

theorem clamp1_zero : clamp1 0 = 0 := by
  simp [clamp1]

theorem calcMove_self (p : Cell) (facing : ℝ) : calcMove p p facing = (0, 0) := by
  rw [calcMove, if_pos (by simp)]

theorem jshift_jshift (a b : ℕ) (j : ℕ → ℝ × ℝ) :
    jshift a (jshift b j) = jshift (a + b) j := by
  funext k
  simp [jshift]
  ring_nf

theorem jshift_one (j : ℕ → ℝ × ℝ) : (fun k => j (k + 1)) = jshift 1 j := rfl

theorem synthLoop_ok (scale speed : ℚ) (hscale : scale ≠ 0) (hspeed : speed ≠ 0)
    (sens : ℝ) (step : ℤ) :
    ∀ (l : List Cell) (facing : ℝ) (j : ℕ → ℝ × ℝ),
      ∃ cmds, synthLoop scale speed sens step l facing j = .ok cmds ∧
        cmds.length = l.length - 1 := by
  intro l
  induction l with
  | nil => intro facing j; exact ⟨[], rfl, rfl⟩
  | cons a rest ih =>
      intro facing j
      cases rest with
      | nil => exact ⟨[], rfl, rfl⟩
      | cons b rest' =>
          obtain ⟨cmds', hok, hlen⟩ :=
            ih (atan2 (-((b.2 - a.2 : ℤ) : ℝ)) ((b.1 - a.1 : ℤ) : ℝ)) (fun k => j (k + 1))
          simp only [synthLoop]
          rw [if_neg (by simp [hscale, hspeed]), hok]
          refine ⟨_, rfl, ?_⟩
          simp only [List.length_cons] at hlen ⊢
          omega

theorem except_map_ok {ε α β : Type} (f : α → β) (a : α) :
    (Except.ok a : Except ε α).map f = .ok (f a) := rfl

theorem except_map_error {ε α β : Type} (f : α → β) (e : ε) :
    (Except.error e : Except ε α).map f = .error e := rfl

theorem synthLoop_duration (scale speed : ℚ) (hscale : scale ≠ 0) (hspeed : speed ≠ 0)
    (sens : ℝ) (step : ℤ) :
    ∀ (l : List Cell) (facing : ℝ) (j : ℕ → ℝ × ℝ) (cmds : List Cmd),
      synthLoop scale speed sens step l facing j = .ok cmds →
      ∀ (i : ℕ) (hi : i < cmds.length),
        ∃ p q, l.get? i = some p ∧ l.get? (i + 1) = some q ∧
          (cmds.get ⟨i, hi⟩).duration =
            max step (pytrunc (Real.sqrt (((q.1 - p.1) ^ 2 + (q.2 - p.2) ^ 2 : ℤ) : ℝ) /
              (scale : ℝ) / (speed : ℝ) * 1000)) := by
  intro l
  induction l with
  | nil =>
      intro facing j cmds hrun i hi
      simp only [synthLoop] at hrun
      obtain rfl : ([] : List Cmd) = cmds := by injection hrun
      simp at hi
  | cons a rest ih =>
      intro facing j cmds hrun i hi
      cases rest with
      | nil =>
          simp only [synthLoop] at hrun
          obtain rfl : ([] : List Cmd) = cmds := by injection hrun
          simp at hi
      | cons b rest' =>
          simp only [synthLoop] at hrun
          rw [if_neg (by simp [hscale, hspeed])] at hrun
          rcases hrec : synthLoop scale speed sens step (b :: rest')
              (atan2 (-((b.2 - a.2 : ℤ) : ℝ)) ((b.1 - a.1 : ℤ) : ℝ)) (fun k => j (k + 1)) with e | cmds2
          · rw [hrec, except_map_error] at hrun
            exact Except.noConfusion hrun
          · rw [hrec, except_map_ok] at hrun
            obtain rfl : _ :: cmds2 = cmds := by injection hrun
            
            cases i with
            | zero => exact ⟨a, b, rfl, rfl, rfl⟩
            | succ i' =>
                have hi' : i' < cmds2.length := by
                  simp only [List.length_cons] at hi
                  omega
                obtain ⟨p, q, hp, hq, hd⟩ := ih _ _ cmds2 hrec i' hi'
                exact ⟨p, q, hp, hq, hd⟩

theorem pytrunc_zero : pytrunc 0 = 0 := by
  rw [pytrunc, if_pos le_rfl]
  exact Int.floor_zero

theorem synthLoop_dup (scale speed : ℚ) (hscale : scale ≠ 0) (hspeed : speed ≠ 0)
    (sens : ℝ) (step : ℤ) (hstep : 0 ≤ step) (p : Cell) (rest : List Cell)
    (facing : ℝ) (j : ℕ → ℝ × ℝ) :
    synthLoop scale speed sens step (p :: p :: rest) facing j =
      (synthLoop scale speed sens step (p :: rest) 0 (jshift 1 j)).map
        (fun cmds =>
          ⟨(0, 0),
           (clamp1 ((calcLook facing 0 sens).1 + (j 0).1),
            clamp1 ((calcLook facing 0 sens).2 + (j 0).2)),
           step, 0⟩ :: cmds) := by
  have h2 : ¬(scale = 0 ∨ speed = 0) := by simp [hscale, hspeed]
  simp only [synthLoop, sub_self, Int.cast_zero, neg_zero, atan2_zero_zero, calcMove_self,
    if_neg h2]
  norm_num [pytrunc_zero, Real.sqrt_zero, max_eq_left hstep]
  rfl

theorem synthLoop_dup_general (scale speed : ℚ) (hscale : scale ≠ 0) (hspeed : speed ≠ 0)
    (sens : ℝ) (step : ℤ) (hstep : 0 ≤ step) (p : Cell) (rest : List Cell) :
    ∀ (pre : List Cell) (facing : ℝ) (j : ℕ → ℝ × ℝ),
      ∃ preCmds lk tailCmds,
        synthLoop scale speed sens step (pre ++ p :: p :: rest) facing j =
          .ok (preCmds ++ ⟨(0, 0), lk, step, 0⟩ :: tailCmds) ∧
        preCmds.length = pre.length ∧
        synthLoop scale speed sens step (p :: rest) 0 (jshift (pre.length + 1) j) =
          .ok tailCmds := by
  intro pre
  induction pre with
  | nil =>
      intro facing j
      obtain ⟨tail, htail, _⟩ := synthLoop_ok scale speed hscale hspeed sens step
        (p :: rest) 0 (jshift 1 j)
      refine ⟨[], (clamp1 ((calcLook facing 0 sens).1 + (j 0).1),
        clamp1 ((calcLook facing 0 sens).2 + (j 0).2)), tail, ?_, rfl, by simpa using htail⟩
      rw [List.nil_append, synthLoop_dup scale speed hscale hspeed sens step hstep p rest
        facing j, htail, except_map_ok, List.nil_append]
  | cons a pre' ih =>
      intro facing j
      rcases hpp : pre' ++ p :: p :: rest with _ | ⟨b, l'⟩
      · exact absurd hpp (by simp)
      · obtain ⟨preCmds', lk, tail, hmain, hplen, htail⟩ :=
          ih (atan2 (-((b.2 - a.2 : ℤ) : ℝ)) ((b.1 - a.1 : ℤ) : ℝ)) (jshift 1 j)
        have key : synthLoop scale speed sens step ((a :: pre') ++ p :: p :: rest) facing j =
            Except.ok ((⟨calcMove a b facing,
                (clamp1 ((calcLook facing
                    (atan2 (-((b.2 - a.2 : ℤ) : ℝ)) ((b.1 - a.1 : ℤ) : ℝ)) sens).1 + (j 0).1),
                  clamp1 ((calcLook facing
                    (atan2 (-((b.2 - a.2 : ℤ) : ℝ)) ((b.1 - a.1 : ℤ) : ℝ)) sens).2 + (j 0).2)),
                max step (pytrunc (Real.sqrt
                    ((((b.1 - a.1) ^ 2 + (b.2 - a.2) ^ 2 : ℤ)) : ℝ) /
                  (scale : ℝ) / (speed : ℝ) * 1000)),
                atan2 (-((b.2 - a.2 : ℤ) : ℝ)) ((b.1 - a.1 : ℤ) : ℝ)⟩ : Cmd) ::
              (preCmds' ++ (⟨(0, 0), lk, step, 0⟩ : Cmd) :: tail)) := by
          show synthLoop scale speed sens step (a :: (pre' ++ p :: p :: rest)) facing j = _
          rw [hpp]
          simp only [synthLoop]
          rw [if_neg (by simp [hscale, hspeed]), ← hpp, jshift_one, hmain, except_map_ok]
        obtain ⟨c, hc⟩ : ∃ c, synthLoop scale speed sens step ((a :: pre') ++ p :: p :: rest)
            facing j = Except.ok (c :: (preCmds' ++
              (⟨(0, 0), lk, step, 0⟩ : Cmd) :: tail)) := ⟨_, key⟩
        refine ⟨c :: preCmds', lk, tail, ?_, by simp [hplen], ?_⟩
        · rw [List.cons_append]
          exact hc
        · rw [← htail, jshift_jshift]
          simp

/-! ## Parser and occupancy-grid lemmas -/

theorem scanCoords_mem (img : Img) (mask : ℕ × ℕ × ℕ → Bool) :
    ∀ yx ∈ scanCoords img mask, yx.1 < img.height ∧ yx.2 < img.width := by
  intro yx hmem
  simp only [scanCoords, List.mem_flatMap, List.mem_map, List.mem_filter,
    List.mem_range] at hmem
  obtain ⟨y, hy, x, ⟨hx, _⟩, rfl⟩ := hmem
  exact ⟨hy, hx⟩

theorem sum_div_lt (l : List ℕ) (b : ℕ) (hne : l ≠ []) (hb : ∀ x ∈ l, x < b) :
    l.sum / l.length < b := by
  have hlen : 0 < l.length := List.length_pos.mpr hne
  have hb0 : 0 < b := lt_of_le_of_lt (Nat.zero_le _) (hb (l.get ⟨0, hlen⟩) (l.get_mem _ _))
  have hsum : l.sum ≤ l.length * (b - 1) := by
    have hh := List.sum_le_card_nsmul l (b - 1) (fun x hx => by
      have := hb x hx
      omega)
    simpa [smul_eq_mul] using hh
  have := Nat.div_le_div_right (c := l.length) hsum
  have hdiv : l.length * (b - 1) / l.length = b - 1 := by
    rw [Nat.mul_div_cancel_left _ hlen]
  omega

theorem centroid_inBds (img : Img) (mask : ℕ × ℕ × ℕ → Bool)
    (hne : scanCoords img mask ≠ []) (c : Cell)
    (hc : centroidOf (scanCoords img mask) = some c) :
    InBds img.width img.height c := by
  rcases hscan : scanCoords img mask with _ | ⟨yx, rest⟩
  · exact absurd hscan hne
  · rw [hscan] at hc
    simp only [centroidOf, Option.some_inj] at hc
    have hxs : ∀ v ∈ ((yx :: rest).map Prod.snd), v < img.width := by
      intro v hv
      obtain ⟨p, hp, rfl⟩ := List.mem_map.mp hv
      exact (scanCoords_mem img mask p (by rw [hscan]; exact hp)).2
    have hys : ∀ v ∈ ((yx :: rest).map Prod.fst), v < img.height := by
      intro v hv
      obtain ⟨p, hp, rfl⟩ := List.mem_map.mp hv
      exact (scanCoords_mem img mask p (by rw [hscan]; exact hp)).1
    have hx := sum_div_lt ((yx :: rest).map Prod.snd) img.width (by simp) hxs
    have hy := sum_div_lt ((yx :: rest).map Prod.fst) img.height (by simp) hys
    rw [← hc]
    simp only [InBds, List.length_map] at hx hy ⊢
    refine ⟨by positivity, ?_, by positivity, ?_⟩ <;> simp only [List.length_map] at * <;>
      exact_mod_cast ‹_›

theorem emptyGrid_allFree (w h : ℕ) : AllFree (emptyGrid w h) := by
  intro y x
  simp only [emptyGrid, gridGet]
  by_cases hy : y < h
  · have hrow : (List.replicate h (List.replicate w false)).getD y [] =
        List.replicate w false := by
      rw [List.getD_eq_getElem _ _ (by simpa using hy)]
      simp
    rw [hrow]
    by_cases hx : x < w
    · rw [List.getD_eq_getElem _ _ (by simpa using hx)]
      simp
    · rw [List.getD_eq_default _ _ (by simpa using Nat.le_of_not_lt hx)]
  · have hrow : (List.replicate h (List.replicate w false)).getD y [] = [] := by
      rw [List.getD_eq_default _ _ (by simpa using Nat.le_of_not_lt hy)]
    rw [hrow]
    simp

theorem dilateOnce_allFree (w h : ℕ) (m : List (List Bool)) (hm : AllFree m) :
    dilateOnce w h m = m := by
  simp only [dilateOnce]
  generalize ((List.range' 1 (h - 2)).flatMap
    (fun y => (List.range' 1 (w - 2)).map (fun x => (y, x)))) = pairs
  induction pairs with
  | nil => rfl
  | cons yx rest ih =>
      simp only [List.foldl_cons, hm yx.1 yx.2, Bool.false_eq_true, if_false]
      exact ih

theorem createCollisionMap_noWalls (img : Img) (hred : scanCoords img isRed = []) :
    createCollisionMap img = emptyGrid img.width img.height := by
  have hwalls : findWalls img = [] := by simp [findWalls, hred]
  simp only [createCollisionMap, hwalls, markWalls, List.foldl_nil]
  have hfree := emptyGrid_allFree img.width img.height
  rw [Function.iterate_fixed (dilateOnce_allFree img.width img.height _ hfree) 3]

theorem occOf_emptyGrid (w h : ℕ) (c : Cell) : occOf (emptyGrid w h) c = false :=
  emptyGrid_allFree w h c.2.toNat c.1.toNat

/-! ## The claims -/

/-- Claim C1, counterexample: on the 1-by-1 grid whose only cell is
blocked, with start = goal = (0,0), find_path returns the non-empty path
[(0,0)], whose only waypoint sits on a cell with occupancy true — so not
every waypoint of a non-empty returned path lies on a false cell. -/
theorem claim_C1_counterexample :
    findPath insEnd 1 1 (fun _ => true) (0, 0) (0, 0) = [(0, 0)] ∧
    ¬(∀ c ∈ findPath insEnd 1 1 (fun _ => true) (0, 0) (0, 0),
        (fun _ => true : Cell → Bool) c = false) := by
  have heval : findPath insEnd 1 1 (fun _ => true) (0, 0) (0, 0) = [(0, 0)] := rfl
  refine ⟨heval, ?_⟩
  intro hall
  have h1 := hall (0, 0) (by rw [heval]; exact List.mem_singleton_self _)
  simp at h1

/-- Claim C1, amended: every waypoint of a path returned by find_path,
except possibly the start cell itself, lies on a cell whose occupancy is
false; in particular when the start cell is unblocked the original claim
holds.  (The start is appended unconditionally during reconstruction, so
a blocked start cell is returned even though it is never checked.) -/
theorem claim_C1 (ins : List Cell → Cell → List Cell) (hins : InsOk ins)
    (w h : ℕ) (occ : Cell → Bool) (s g : Cell) :
    ∀ c ∈ findPath ins w h occ s g, c = s ∨ occ c = false := by
  intro c hc
  rcases findPath_sound ins hins w h occ s g c hc with hcs | ⟨hocc, _⟩
  · exact Or.inl hcs
  · exact Or.inr hocc

theorem claim_C1_witness :
    (0, 1) = ((0, 0) : Cell) ∨ (fun _ => false : Cell → Bool) (0, 1) = false :=
  claim_C1 insEnd insEnd_ok 1 2 (fun _ => false) (0, 0) (0, 1) (0, 1) (by decide)

/-- Claim C7: after any number of loop iterations of find_path, on any
grid and start/goal, the predecessor-link map is acyclic (the
predecessor relation is well-founded, because a link is rewritten only on
a strictly cheaper discovery and costs are positive integers), and the
reconstruction walk from any g-scored cell terminates at the start. -/
theorem claim_C7 (ins : List Cell → Cell → List Cell) (hins : InsOk ins)
    (w h : ℕ) (occ : Cell → Bool) (start goal : Cell) (n : ℕ) (st : AState)
    (hrun : stepN ins w h occ start goal n (initState start goal) = some st) :
    WellFounded (fun a b : Cell => alookup st.cameFrom b = some a) ∧
    ∀ cur gn, alookup st.gS cur = some gn →
      (walkPred st.cameFrom (st.cameFrom.length + 1) cur []).2 = start := by
  have hv := stepN_inv ins hins w h occ start goal n (initState start goal) st
    (initState_inv w h occ start goal) hrun
  constructor
  · have hsub : ∀ a b : Cell, alookup st.cameFrom b = some a →
        (alookup st.gS a).getD 0 < (alookup st.gS b).getD 0 := by
      intro a b hab
      obtain ⟨gn, gc, hgn, hgc, hle⟩ := hv.cf_g b a hab
      rw [hgn, hgc]
      simpa using hle
    exact Subrelation.wf (fun {a b} hab => hsub a b hab)
      (InvImage.wf (fun c : Cell => (alookup st.gS c).getD 0) Nat.lt_wfRel.wf)
  · intro cur gn hcur
    exact walk_ends_at_start w h occ start goal st hv cur gn hcur

theorem claim_C7_witness :
    ∃ st, stepN insEnd 2 2 (fun _ => false) (0, 0) (1, 1) 1 (initState (0, 0) (1, 1)) =
        some st ∧
      WellFounded (fun a b : Cell => alookup st.cameFrom b = some a) :=
  ⟨_, rfl, (claim_C7 insEnd insEnd_ok 2 2 (fun _ => false) (0, 0) (1, 1) 1 _ rfl).1⟩

/-- Claim C5: for every image whose spawn-marker and goal-marker pixel
sets are non-empty and whose obstacle (red) pixel set is empty, the
Pathfinder pipeline parses successfully and find_path returns a non-empty
path whose first element is the spawn centroid and whose last element is
the goal centroid, for any lawful open-set insertion policy. -/
theorem claim_C5 (ins : List Cell → Cell → List Cell) (hins : InsOk ins) (img : Img)
    (hblue : scanCoords img isBlue ≠ []) (hyellow : scanCoords img isYellow ≠ [])
    (hred : scanCoords img isRed = []) :
    ∃ s t p, findSpawn img = some s ∧ findTarget img = some t ∧
      pathfinderRun ins img = some p ∧
      p ≠ [] ∧ p.head? = some s ∧ p.getLast? = some t := by
  obtain ⟨s, hs⟩ : ∃ s, findSpawn img = some s := by
    rcases hscan : scanCoords img isBlue with _ | ⟨yx, rest⟩
    · exact absurd hscan hblue
    · exact ⟨_, by rw [findSpawn, hscan]; rfl⟩
  obtain ⟨t, ht⟩ : ∃ t, findTarget img = some t := by
    rcases hscan : scanCoords img isYellow with _ | ⟨yx, rest⟩
    · exact absurd hscan hyellow
    · exact ⟨_, by rw [findTarget, hscan]; rfl⟩
  have hsb : InBds img.width img.height s := centroid_inBds img isBlue hblue s hs
  have htb : InBds img.width img.height t := centroid_inBds img isYellow hyellow t ht
  have hocc : ∀ c, occOf (createCollisionMap img) c = false := by
    intro c
    rw [createCollisionMap_noWalls img hred]
    exact occOf_emptyGrid img.width img.height c
  obtain ⟨hne, hhead, hlast⟩ := findPath_complete ins hins img.width img.height
    (occOf (createCollisionMap img)) hocc s t hsb htb
  refine ⟨s, t, _, hs, ht, ?_, hne, hhead, hlast⟩
  rw [pathfinderRun, hs, ht]

theorem claim_C5_witness : (pathfinderRun insEnd img3).isSome := by
  obtain ⟨s, t, p, _, _, hrun, _⟩ :=
    claim_C5 insEnd insEnd_ok img3 (by decide) (by decide) (by decide)
  simp [hrun]

theorem atan2_zero_one : atan2 0 1 = 0 := by
  have h1 : (⟨1, 0⟩ : ℂ) = 1 := by
    apply Complex.ext <;> simp
  rw [atan2, h1]
  exact Complex.arg_one

theorem synthLoop_pair (scale speed : ℚ) (hscale : scale ≠ 0) (hspeed : speed ≠ 0)
    (sens : ℝ) (step : ℤ) (p q : Cell) (facing : ℝ) (j : ℕ → ℝ × ℝ) :
    synthLoop scale speed sens step [p, q] facing j =
      .ok [⟨calcMove p q facing,
        (clamp1 ((calcLook facing
            (atan2 (-((q.2 - p.2 : ℤ) : ℝ)) ((q.1 - p.1 : ℤ) : ℝ)) sens).1 + (j 0).1),
         clamp1 ((calcLook facing
            (atan2 (-((q.2 - p.2 : ℤ) : ℝ)) ((q.1 - p.1 : ℤ) : ℝ)) sens).2 + (j 0).2)),
        max step (pytrunc (Real.sqrt (((q.1 - p.1) ^ 2 + (q.2 - p.2) ^ 2 : ℤ) : ℝ) /
          (scale : ℝ) / (speed : ℝ) * 1000)),
        atan2 (-((q.2 - p.2 : ℤ) : ℝ)) ((q.1 - p.1 : ℤ) : ℝ)⟩] := by
  simp only [synthLoop]
  rw [if_neg (by simp [hscale, hspeed])]
  rfl

/-- Claim C3, the code's actual behaviour: with move_speed = 0 the first
duration computation raises ZeroDivisionError inside the loop (there is
no InvalidConfiguration check anywhere), and a negative move_speed is
accepted silently, producing commands whose durations are clamped to the
minimum step time. -/
theorem claim_C3 :
    generateControllerInputs 1 0 1 0 (fun _ => (0, 0)) [(0, 0), (1, 0)] 50 =
      .error .zeroDivisionError ∧
    ∃ cmds, generateControllerInputs 1 (-1) 1 0 (fun _ => (0, 0)) [(0, 0), (1, 0)] 50 =
      .ok cmds ∧ cmds.length = 1 := by
  constructor
  · rw [generateControllerInputs, if_neg (by decide)]
    simp [synthLoop]
  · obtain ⟨cmds, hok, hlen⟩ := synthLoop_ok 1 (-1) (by norm_num) (by norm_num) 1 50
      [(0, 0), (1, 0)] 0 (fun _ => (0, 0))
    refine ⟨cmds, ?_, by simpa using hlen⟩
    rw [generateControllerInputs, if_neg (by decide)]
    exact hok

/-- Claim C4, the code's actual behaviour: the look jitter cannot be
disabled (look_variation = 0.1 is hardcoded and two uniform draws are
added unconditionally), so the output depends on the jitter draws: two
runs on identical path, facing and parameters whose draws differ by 1/20
(within the hardcoded 1/10 amplitude) produce different command lists. -/
theorem claim_C4 :
    |(1 : ℝ)/20| ≤ 1/10 ∧
    generateControllerInputs 1 1 1 0 (fun _ => (0, 0)) [(0, 0), (1, 0)] 50 ≠
      generateControllerInputs 1 1 1 0 (fun _ => (1/20, 0)) [(0, 0), (1, 0)] 50 := by
  refine ⟨by rw [abs_of_nonneg (by norm_num : (0:ℝ) ≤ 1/20)]; norm_num, ?_⟩
  intro heq
  rw [generateControllerInputs, generateControllerInputs, if_neg (by decide),
    if_neg (by decide),
    synthLoop_pair 1 1 (by norm_num) (by norm_num) 1 50 (0, 0) (1, 0) 0 (fun _ => (0, 0)),
    synthLoop_pair 1 1 (by norm_num) (by norm_num) 1 50 (0, 0) (1, 0) 0
      (fun _ => (1/20, 0))] at heq
  have hable : atan2 (-(((1, 0).2 - ((0, 0) : Cell).2 : ℤ) : ℝ))
      ((((1, 0) : Cell).1 - ((0, 0) : Cell).1 : ℤ) : ℝ) = 0 := by
    norm_num
    exact atan2_zero_one
  rw [hable] at heq
  have hlk : (calcLook 0 0 1).1 = 0 := by
    rw [calcLook]
    simp only [sub_zero, normAngle_zero, Real.sin_zero, zero_mul, mul_one]
    exact clamp1_zero
  have hinj := congrArg (fun r =>
    match r with
    | Except.ok (c :: _) => c.look.1
    | _ => 0) heq
  simp only [hlk] at hinj
  rw [show ((0:ℝ) + (0:ℝ)) = 0 from by norm_num] at hinj
  rw [clamp1_zero] at hinj
  have : clamp1 (0 + 1/20) = 1/20 := by
    rw [clamp1]
    norm_num
  rw [this] at hinj
  norm_num at hinj

/-- Claim C9: for a valid configuration (non-zero unit_scale and
move_speed), generate_controller_inputs returns exactly len(path) - 1
commands, and the empty sequence whenever the path has fewer than two
waypoints. -/
theorem claim_C9 (scale speed : ℚ) (hscale : scale ≠ 0) (hspeed : speed ≠ 0)
    (sens f0 : ℝ) (j : ℕ → ℝ × ℝ) (path : List Cell) (step : ℤ) :
    ∃ cmds, generateControllerInputs scale speed sens f0 j path step = .ok cmds ∧
      cmds.length = path.length - 1 ∧ (path.length < 2 → cmds = []) := by
  by_cases hlen : path.length < 2
  · refine ⟨[], ?_, by simp; omega, fun _ => rfl⟩
    rw [generateControllerInputs, if_pos hlen]
  · obtain ⟨cmds, hok, hl⟩ := synthLoop_ok scale speed hscale hspeed sens step path f0 j
    exact ⟨cmds, by rw [generateControllerInputs, if_neg hlen]; exact hok, hl,
      fun hc => absurd hc hlen⟩

theorem claim_C9_witness :
    ∃ cmds, generateControllerInputs 1 1 1 0 (fun _ => (0, 0))
        [(0, 0), (1, 0), (2, 0)] 50 = .ok cmds ∧
      cmds.length = ([((0:ℤ), (0:ℤ)), (1, 0), (2, 0)] : List Cell).length - 1 ∧
      (([((0:ℤ), (0:ℤ)), (1, 0), (2, 0)] : List Cell).length < 2 → cmds = []) :=
  claim_C9 1 1 (by norm_num) (by norm_num) 1 0 (fun _ => (0, 0)) [(0, 0), (1, 0), (2, 0)] 50

/-- Claim C10: a consecutive duplicated waypoint produces a command with
move (0,0) and the minimum step time as duration, and sets the running
facing to atan2(0,0) = 0, so the commands after it are those of a fresh
synthesis of the remaining path with facing 0 (only the jitter stream
index advances), regardless of the initial facing or the prefix. -/
theorem claim_C10 (scale speed : ℚ) (hscale : scale ≠ 0) (hspeed : speed ≠ 0)
    (sens f0 : ℝ) (j : ℕ → ℝ × ℝ) (step : ℤ) (hstep : 0 ≤ step)
    (pre : List Cell) (p : Cell) (rest : List Cell) :
    ∃ preCmds lk tailCmds,
      generateControllerInputs scale speed sens f0 j (pre ++ p :: p :: rest) step =
        .ok (preCmds ++ (⟨(0, 0), lk, step, 0⟩ : Cmd) :: tailCmds) ∧
      preCmds.length = pre.length ∧
      synthLoop scale speed sens step (p :: rest) 0 (jshift (pre.length + 1) j) =
        .ok tailCmds := by
  obtain ⟨preCmds, lk, tail, hmain, hplen, htail⟩ :=
    synthLoop_dup_general scale speed hscale hspeed sens step hstep p rest pre f0 j
  refine ⟨preCmds, lk, tail, ?_, hplen, htail⟩
  rw [generateControllerInputs, if_neg (by simp; omega)]
  exact hmain

theorem claim_C10_witness :
    ∃ preCmds lk tailCmds,
      generateControllerInputs 1 1 1 0 (fun _ => (0, 0))
          ([(0, 0)] ++ (1, 1) :: (1, 1) :: [(2, 1)]) 50 =
        .ok (preCmds ++ (⟨(0, 0), lk, 50, 0⟩ : Cmd) :: tailCmds) ∧
      preCmds.length = ([((0:ℤ), (0:ℤ))] : List Cell).length ∧
      synthLoop 1 1 1 50 ((1, 1) :: [(2, 1)]) 0
          (jshift (([((0:ℤ), (0:ℤ))] : List Cell).length + 1) (fun _ => (0, 0))) =
        .ok tailCmds :=
  claim_C10 1 1 (by norm_num) (by norm_num) 1 0 (fun _ => (0, 0)) 50 (by norm_num)
    [(0, 0)] (1, 1) [(2, 1)]

theorem sqrt_twentyfive : Real.sqrt 25 = 5 := by
  have h : (25 : ℝ) = 5 ^ 2 := by norm_num
  rw [h, Real.sqrt_sq (by norm_num : (0:ℝ) ≤ 5)]

/-- Claim C6, counterexample: for the segment (0,0) to (3,4) (distance
exactly 5) with unit_scale 1, move_speed 3 and minimum step 50ms, the
code emits duration int(5000/3) = 1666, while the spec's formula with
round(...) gives 1667. -/
theorem claim_C6_counterexample :
    (generateControllerInputs 1 3 1 0 (fun _ => (0, 0)) [(0, 0), (3, 4)] 50).map
        (fun cmds => cmds.map Cmd.duration) = .ok [1666] ∧
    specDuration (0, 0) (3, 4) 1 3 50 = 1667 := by
  have hsq : Real.sqrt ((((3, 4) : Cell).1 - ((0, 0) : Cell).1) ^ 2 +
      (((3, 4) : Cell).2 - ((0, 0) : Cell).2) ^ 2 : ℤ) = 5 := by
    norm_num
    exact sqrt_twentyfive
  constructor
  · rw [generateControllerInputs, if_neg (by decide),
      synthLoop_pair 1 3 (by norm_num) (by norm_num) 1 50 (0, 0) (3, 4) 0 (fun _ => (0, 0))]
    simp only [except_map_ok, List.map_cons, List.map_nil]
    have hdur : max (50 : ℤ) (pytrunc (Real.sqrt (((3 - 0) ^ 2 + (4 - 0) ^ 2 : ℤ) : ℝ) /
        ((1 : ℚ) : ℝ) / ((3 : ℚ) : ℝ) * 1000)) = 1666 := by
      have h5 : Real.sqrt (((3 - 0) ^ 2 + (4 - 0) ^ 2 : ℤ) : ℝ) = 5 := by
        norm_num
        exact sqrt_twentyfive
      rw [h5]
      have hval : (5 : ℝ) / ((1 : ℚ) : ℝ) / ((3 : ℚ) : ℝ) * 1000 = 5000 / 3 := by
        norm_num
      rw [hval, pytrunc, if_pos (by norm_num)]
      have hfl : ⌊(5000 / 3 : ℝ)⌋ = 1666 := by
        rw [Int.floor_eq_iff]
        norm_num
      rw [hfl]
      norm_num
    rw [hdur]
  · rw [specDuration]
    have h5 : Real.sqrt (((((3, 4) : Cell).1 - ((0, 0) : Cell).1) ^ 2 +
        (((3, 4) : Cell).2 - ((0, 0) : Cell).2) ^ 2 : ℤ) : ℝ) = 5 := hsq
    rw [h5]
    have hval : (5 : ℝ) / ((1 : ℚ) : ℝ) / ((3 : ℚ) : ℝ) * 1000 = 5000 / 3 := by
      norm_num
    rw [hval]
    have hrd : round ((5000 / 3 : ℝ)) = 1667 := by
      rw [round_eq]
      have : (5000 / 3 : ℝ) + 1 / 2 = 10003 / 6 := by norm_num
      rw [this, Int.floor_eq_iff]
      norm_num
    rw [hrd]
    norm_num

/-- Claim C6, amended: for every consecutive waypoint pair the emitted
duration is max(min_step_ms, int(distance / unit_scale / move_speed *
1000)) where int() truncates toward zero — not round() — and is in
particular always at least the minimum step time. -/
theorem claim_C6 (scale speed : ℚ) (hscale : scale ≠ 0) (hspeed : speed ≠ 0)
    (sens f0 : ℝ) (j : ℕ → ℝ × ℝ) (path : List Cell) (step : ℤ) (cmds : List Cmd)
    (hrun : generateControllerInputs scale speed sens f0 j path step = .ok cmds)
    (i : ℕ) (hi : i < cmds.length) :
    ∃ p q, path.get? i = some p ∧ path.get? (i + 1) = some q ∧
      (cmds.get ⟨i, hi⟩).duration =
        max step (pytrunc (Real.sqrt (((q.1 - p.1) ^ 2 + (q.2 - p.2) ^ 2 : ℤ) : ℝ) /
          (scale : ℝ) / (speed : ℝ) * 1000)) ∧
      step ≤ (cmds.get ⟨i, hi⟩).duration := by
  rw [generateControllerInputs] at hrun
  by_cases hlen : path.length < 2
  · rw [if_pos hlen] at hrun
    obtain rfl : ([] : List Cmd) = cmds := by injection hrun
    simp at hi
  · rw [if_neg hlen] at hrun
    obtain ⟨p, q, hp, hq, hd⟩ :=
      synthLoop_duration scale speed hscale hspeed sens step path f0 j cmds hrun i hi
    exact ⟨p, q, hp, hq, hd, by rw [hd]; exact le_max_left _ _⟩

theorem claim_C6_witness :
    ∃ cmds, generateControllerInputs 1 1 1 0 (fun _ => (0, 0)) [(0, 0), (1, 0)] 50 =
        .ok cmds ∧
      ∃ hi : 0 < cmds.length, ∃ p q,
        ([((0:ℤ), (0:ℤ)), ((1:ℤ), (0:ℤ))] : List Cell).get? 0 = some p ∧
        ([((0:ℤ), (0:ℤ)), ((1:ℤ), (0:ℤ))] : List Cell).get? 1 = some q ∧
        (cmds.get ⟨0, hi⟩).duration =
          max 50 (pytrunc (Real.sqrt (((q.1 - p.1) ^ 2 + (q.2 - p.2) ^ 2 : ℤ) : ℝ) /
            ((1 : ℚ) : ℝ) / ((1 : ℚ) : ℝ) * 1000)) ∧
        (50 : ℤ) ≤ (cmds.get ⟨0, hi⟩).duration := by
  obtain ⟨cmds, hok, hlen⟩ := synthLoop_ok 1 1 (by norm_num) (by norm_num) 1 50
    [(0, 0), (1, 0)] 0 (fun _ => (0, 0))
  have hrun : generateControllerInputs 1 1 1 0 (fun _ => (0, 0)) [(0, 0), (1, 0)] 50 =
      .ok cmds := by
    rw [generateControllerInputs, if_neg (by decide)]
    exact hok
  have hi : 0 < cmds.length := by
    rw [hlen]
    decide
  exact ⟨cmds, hrun, hi,
    claim_C6 1 1 (by norm_num) (by norm_num) 1 0 (fun _ => (0, 0)) [(0, 0), (1, 0)] 50
      cmds hrun 0 hi⟩

theorem natDiv_eq_floor (a b : ℕ) (hb : 0 < b) :
    ((a / b : ℕ) : ℤ) = ⌊(a : ℚ) / (b : ℚ)⌋ := by
  have hmodq : (b : ℚ) * ((a / b : ℕ) : ℚ) + ((a % b : ℕ) : ℚ) = (a : ℚ) := by
    exact_mod_cast Nat.div_add_mod a b
  have hltq : ((a % b : ℕ) : ℚ) < (b : ℚ) := by exact_mod_cast Nat.mod_lt a hb
  have hnn : (0 : ℚ) ≤ ((a % b : ℕ) : ℚ) := by positivity
  have hbq : (0 : ℚ) < (b : ℚ) := by exact_mod_cast hb
  symm
  rw [Int.floor_eq_iff]
  constructor
  · rw [Int.cast_natCast, le_div_iff₀ hbq]
    nlinarith
  · rw [Int.cast_natCast, div_lt_iff₀ hbq]
    nlinarith

theorem specCentroidRound_cons (yx : ℕ × ℕ) (rest : List (ℕ × ℕ)) :
    specCentroidRound (yx :: rest) = some
      ((round ((((yx :: rest).map Prod.snd).sum : ℚ) / (((yx :: rest).length : ℕ) : ℚ)) : ℤ),
       (round ((((yx :: rest).map Prod.fst).sum : ℚ) / (((yx :: rest).length : ℕ) : ℚ)) : ℤ)) :=
  rfl

/-- Claim C8, counterexample: an image whose blue marker pixels sit at
x = 1 and x = 2 of row 0 (mean x = 1.5).  The code truncates
int(np.mean) to spawn x = 1; rounding to the nearest integer, as the
claim reads, would give 2. -/
theorem claim_C8_counterexample :
    findSpawn img8 = some (1, 0) ∧
    specCentroidRound (scanCoords img8 isBlue) = some (2, 0) ∧
    findSpawn img8 ≠ specCentroidRound (scanCoords img8 isBlue) := by
  have h1 : findSpawn img8 = some (1, 0) := by decide
  have hscan : scanCoords img8 isBlue = [(0, 1), (0, 2)] := by decide
  have h2 : specCentroidRound (scanCoords img8 isBlue) = some (2, 0) := by
    rw [hscan, specCentroidRound_cons]
    simp only [List.map_cons, List.map_nil, List.sum_cons, List.sum_nil, List.length_cons,
      List.length_nil, Option.some_inj, Prod.mk.injEq]
    norm_num [round_eq]
  refine ⟨h1, h2, ?_⟩
  rw [h1, h2]
  simp

/-- Claim C8, amended: the parsed spawn and goal positions are the
floor (= truncation toward zero, the coordinates being non-negative) of
the mean coordinates of their marker pixels, not the nearest-integer
rounding. -/
theorem claim_C8 (img : Img)
    (hblue : scanCoords img isBlue ≠ []) (hyellow : scanCoords img isYellow ≠ []) :
    ∃ s t, findSpawn img = some s ∧ findTarget img = some t ∧
      s.1 = ⌊(((scanCoords img isBlue).map Prod.snd).sum : ℚ) /
        ((scanCoords img isBlue).length : ℚ)⌋ ∧
      s.2 = ⌊(((scanCoords img isBlue).map Prod.fst).sum : ℚ) /
        ((scanCoords img isBlue).length : ℚ)⌋ ∧
      t.1 = ⌊(((scanCoords img isYellow).map Prod.snd).sum : ℚ) /
        ((scanCoords img isYellow).length : ℚ)⌋ ∧
      t.2 = ⌊(((scanCoords img isYellow).map Prod.fst).sum : ℚ) /
        ((scanCoords img isYellow).length : ℚ)⌋ := by
  have hkey : ∀ (coords : List (ℕ × ℕ)), coords ≠ [] →
      ∃ c, centroidOf coords = some c ∧
        c.1 = ⌊((coords.map Prod.snd).sum : ℚ) / (coords.length : ℚ)⌋ ∧
        c.2 = ⌊((coords.map Prod.fst).sum : ℚ) / (coords.length : ℚ)⌋ := by
    intro coords hne
    rcases coords with _ | ⟨yx, rest⟩
    · exact absurd rfl hne
    · refine ⟨_, rfl, ?_, ?_⟩
      · rw [← natDiv_eq_floor _ _ (by simp)]
      · rw [← natDiv_eq_floor _ _ (by simp)]
  obtain ⟨s, hs, hs1, hs2⟩ := hkey (scanCoords img isBlue) hblue
  obtain ⟨t, ht, ht1, ht2⟩ := hkey (scanCoords img isYellow) hyellow
  exact ⟨s, t, hs, ht, hs1, hs2, ht1, ht2⟩

theorem claim_C8_witness :
    ∃ s t, findSpawn img3 = some s ∧ findTarget img3 = some t ∧
      s.1 = ⌊(((scanCoords img3 isBlue).map Prod.snd).sum : ℚ) /
        ((scanCoords img3 isBlue).length : ℚ)⌋ ∧
      s.2 = ⌊(((scanCoords img3 isBlue).map Prod.fst).sum : ℚ) /
        ((scanCoords img3 isBlue).length : ℚ)⌋ ∧
      t.1 = ⌊(((scanCoords img3 isYellow).map Prod.snd).sum : ℚ) /
        ((scanCoords img3 isYellow).length : ℚ)⌋ ∧
      t.2 = ⌊(((scanCoords img3 isYellow).map Prod.fst).sum : ℚ) /
        ((scanCoords img3 isYellow).length : ℚ)⌋ :=
  claim_C8 img3 (by decide) (by decide)

/-! ## Claim C2: the concrete 10-by-10 run, evaluated in bounded chunks -/

set_option maxRecDepth 1000000

/-- Splitting a bounded iteration: m + n iterations are m iterations
followed by n more whenever the loop has not exited. -/
theorem stepNPy_add (w h : ℕ) (occ : Cell → Bool) (s g : Cell) (m n : ℕ) (st : PyAState) :
    stepNPy w h occ s g (m + n) st =
      match stepNPy w h occ s g m st with
      | .next st' => stepNPy w h occ s g n st'
      | .found p => .found p
      | .noPath => .noPath := by
  induction m generalizing st with
  | zero => simp [stepNPy]
  | succ k ih =>
      rw [show k + 1 + n = k + n + 1 by omega]
      simp only [stepNPy]
      cases hs : stepPy w h occ s g st with
      | found p => rfl
      | noPath => rfl
      | next st' => exact ih st'

/-- Chaining two bounded-iteration runs through an intermediate state. -/
theorem stepNPy_chain (w h : ℕ) (occ : Cell → Bool) (s g : Cell) (m n : ℕ)
    (st st' : PyAState) (r : StepRes PyAState)
    (h1 : stepNPy w h occ s g m st = .next st')
    (h2 : stepNPy w h occ s g n st' = r) :
    stepNPy w h occ s g (m + n) st = r := by
  rw [stepNPy_add, h1]
  exact h2

/-- If the bounded iteration finds a path within n steps, the fueled
while-loop returns it for any fuel of at least n. -/
theorem astarLoopPy_of_found (w h : ℕ) (occ : Cell → Bool) (s g : Cell) :
    ∀ (n : ℕ) (st : PyAState) (p : List Cell),
      stepNPy w h occ s g n st = .found p →
      ∀ fuel, n ≤ fuel → astarLoopPy w h occ s g fuel st = some p := by
  intro n
  induction n with
  | zero =>
      intro st p hp
      simp [stepNPy] at hp
  | succ k ih =>
      intro st p hp fuel hle
      cases fuel with
      | zero => exact absurd hle (by omega)
      | succ f =>
          simp only [stepNPy] at hp
          simp only [astarLoopPy]
          cases hs : stepPy w h occ s g st with
          | found q =>
              rw [hs] at hp
              simp only [] at hp
              cases hp
              rfl
          | noPath =>
              rw [hs] at hp
              simp at hp
          | next st' =>
              rw [hs] at hp
              exact ih st' p hp f (by omega)

theorem c2chunk_0 : stepNPy 10 10 (fun _ => false) (0, 0) (9, 9) 5 c2s0 = .next c2s5 := by
  rfl

theorem c2chunk_5 : stepNPy 10 10 (fun _ => false) (0, 0) (9, 9) 5 c2s5 = .next c2s10 := by
  rfl

theorem c2chunk_10 : stepNPy 10 10 (fun _ => false) (0, 0) (9, 9) 5 c2s10 = .next c2s15 := by
  rfl

theorem c2chunk_15 : stepNPy 10 10 (fun _ => false) (0, 0) (9, 9) 5 c2s15 = .next c2s20 := by
  rfl

theorem c2chunk_20 : stepNPy 10 10 (fun _ => false) (0, 0) (9, 9) 5 c2s20 = .next c2s25 := by
  rfl

theorem c2chunk_25 : stepNPy 10 10 (fun _ => false) (0, 0) (9, 9) 5 c2s25 = .next c2s30 := by
  rfl

theorem c2chunk_30 : stepNPy 10 10 (fun _ => false) (0, 0) (9, 9) 5 c2s30 = .next c2s35 := by
  rfl

theorem c2chunk_35 : stepNPy 10 10 (fun _ => false) (0, 0) (9, 9) 5 c2s35 = .next c2s40 := by
  rfl

theorem c2chunk_40 : stepNPy 10 10 (fun _ => false) (0, 0) (9, 9) 5 c2s40 = .next c2s45 := by
  rfl

theorem c2chunk_45 : stepNPy 10 10 (fun _ => false) (0, 0) (9, 9) 5 c2s45 = .next c2s50 := by
  rfl

theorem c2chunk_50 : stepNPy 10 10 (fun _ => false) (0, 0) (9, 9) 5 c2s50 = .next c2s55 := by
  rfl

theorem c2chunk_55 : stepNPy 10 10 (fun _ => false) (0, 0) (9, 9) 5 c2s55 = .next c2s60 := by
  rfl

theorem c2chunk_60 : stepNPy 10 10 (fun _ => false) (0, 0) (9, 9) 5 c2s60 = .next c2s65 := by
  rfl

theorem c2chunk_65 : stepNPy 10 10 (fun _ => false) (0, 0) (9, 9) 5 c2s65 = .next c2s70 := by
  rfl

theorem c2chunk_70 : stepNPy 10 10 (fun _ => false) (0, 0) (9, 9) 5 c2s70 = .next c2s75 := by
  rfl

theorem c2chunk_75 : stepNPy 10 10 (fun _ => false) (0, 0) (9, 9) 4 c2s75 = .found [(0, 0), (1, 1), (2, 1), (3, 2), (4, 3), (5, 4), (6, 4), (7, 4), (8, 5), (8, 6), (9, 7), (9, 8), (9, 9)] := by
  rfl

set_option maxRecDepth 1000000 in
/-- The concrete run of find_path, with CPython's hash-set iteration
order deciding the min() ties, on the 10-by-10 all-free grid from (0,0)
to (9,9): thirteen waypoints mixing straight and diagonal steps. -/
theorem findPathPy_eval :
    findPathPy 10 10 (fun _ => false) (0, 0) (9, 9) =
      [(0, 0), (1, 1), (2, 1), (3, 2), (4, 3), (5, 4), (6, 4), (7, 4), (8, 5),
       (8, 6), (9, 7), (9, 8), (9, 9)] := by
  have h79 :=
    stepNPy_chain _ _ _ _ _ _ _ _ _ _ c2chunk_0 (stepNPy_chain _ _ _ _ _ _ _ _ _ _ c2chunk_5 (stepNPy_chain _ _ _ _ _ _ _ _ _ _ c2chunk_10 (stepNPy_chain _ _ _ _ _ _ _ _ _ _ c2chunk_15 (stepNPy_chain _ _ _ _ _ _ _ _ _ _ c2chunk_20 (stepNPy_chain _ _ _ _ _ _ _ _ _ _ c2chunk_25 (stepNPy_chain _ _ _ _ _ _ _ _ _ _ c2chunk_30 (stepNPy_chain _ _ _ _ _ _ _ _ _ _ c2chunk_35 (stepNPy_chain _ _ _ _ _ _ _ _ _ _ c2chunk_40 (stepNPy_chain _ _ _ _ _ _ _ _ _ _ c2chunk_45 (stepNPy_chain _ _ _ _ _ _ _ _ _ _ c2chunk_50 (stepNPy_chain _ _ _ _ _ _ _ _ _ _ c2chunk_55 (stepNPy_chain _ _ _ _ _ _ _ _ _ _ c2chunk_60 (stepNPy_chain _ _ _ _ _ _ _ _ _ _ c2chunk_65 (stepNPy_chain _ _ _ _ _ _ _ _ _ _ c2chunk_70 c2chunk_75))))))))))))))
  have hstart : findPathPy 10 10 (fun _ => false) (0, 0) (9, 9) =
      (astarLoopPy 10 10 (fun _ => false) (0, 0) (9, 9) (fuelBound 10 10) c2s0).getD [] := rfl
  rw [hstart, astarLoopPy_of_found 10 10 (fun _ => false) (0, 0) (9, 9) _ c2s0 _ h79
    (fuelBound 10 10) (by norm_num [fuelBound])]
  rfl

/-- Claim C2, counterexample: on the 10-by-10 all-free grid the path
find_path actually returns (under CPython's set iteration order) has 13
waypoints, not 10, and its second step (1,1) to (2,1) is not diagonal. -/
theorem claim_C2_counterexample :
    ¬((findPathPy 10 10 (fun _ => false) (0, 0) (9, 9)).length = 10 ∧
      ∀ i : Fin ((findPathPy 10 10 (fun _ => false) (0, 0) (9, 9)).length - 1),
        ((findPathPy 10 10 (fun _ => false) (0, 0) (9, 9)).getD (i + 1) (0, 0)).2 -
          ((findPathPy 10 10 (fun _ => false) (0, 0) (9, 9)).getD i (0, 0)).2 = 1) := by
  rw [findPathPy_eval]
  decide

/-- Claim C2, amended: the returned path still has first element (0,0),
last element (9,9) and optimal total cost 18 under the Manhattan
step-cost function, but it consists of 13 waypoints (9 diagonal and 3
straight steps, ordered by CPython's hash-table iteration); the
all-diagonal 10-waypoint path would be returned only under a different
tie-breaking, such as insertion order. -/
theorem claim_C2 :
    (findPathPy 10 10 (fun _ => false) (0, 0) (9, 9)).length = 13 ∧
    pathCost (findPathPy 10 10 (fun _ => false) (0, 0) (9, 9)) = 18 ∧
    (findPathPy 10 10 (fun _ => false) (0, 0) (9, 9)).head? = some (0, 0) ∧
    (findPathPy 10 10 (fun _ => false) (0, 0) (9, 9)).getLast? = some (9, 9) := by
  rw [findPathPy_eval]
  refine ⟨rfl, by decide, rfl, by decide⟩
